import Mathlib

/-!
Verification development for the e-shop repository.

A shallow embedding of two parts of the repository:

* the token-refresh coalescer of the browser API client
  (`client/src/utils/api.js`): the request interceptor, `processQueue`
  and the error branch of the response interceptor;
* the cart, order and payment route handlers of the server
  (`server/routes/cart.js`, `server/routes/orders.js`,
  `server/routes/payments.js`), over a datastore of lists of rows.

JavaScript values are modelled by their observable content: a value read from
`localStorage` is `Option String` (`none` is `null`), a token is the string a
template literal renders it to, an error object is always truthy.
-/

namespace EShop

/-! ## API client: data model -/

/-- A headers object: own properties in insertion order. -/
abbrev Headers := List (String × String)

/-- Property read `headers[k]`. -/
def getHeader : Headers → String → Option String
  | [], _ => none
  | (k', v) :: rest, k => if k' = k then some v else getHeader rest k

/-- Property write `headers[k] = v`: overwrite in place, or append a new property. -/
def setHeader : Headers → String → String → Headers
  | [], k, v => [(k, v)]
  | (k', v') :: rest, k, v =>
    if k' = k then (k, v) :: rest else (k', v') :: setHeader rest k v

/-- An axios request config, with the `_retry` mark the response interceptor adds. -/
structure Config where
  url : String
  method : String
  data : String
  headers : Headers
  _retry : Bool
  deriving DecidableEq

/-- The error object handed to the response interceptor: `error.config`,
`error.response?.status` and `error.response?.data?.code`. -/
structure AxiosError where
  config : Config
  status : Option Nat
  code : Option String
  deriving DecidableEq

/-- The two `localStorage` entries the client uses. -/
structure Storage where
  accessToken : Option String
  refreshToken : Option String
  deriving DecidableEq

/-- JavaScript truthiness of a `string | null`. -/
def truthy : Option String → Bool
  | some s => s != ""
  | none => false

/-- What a template literal renders for a `string | null`. -/
def render : Option String → String
  | some s => s
  | none => "null"

/-- What the client does that is visible outside the interceptor, in order. -/
inductive Effect where
  /-- The call `axios.post(API_URL + "/auth/refresh", { refreshToken })`. -/
  | refreshCall (refreshToken : String)
  /-- The call `prom.resolve(token)` on the queue entry created for `waiter`. -/
  | resolve (waiter : Config) (token : Option String)
  /-- The call `prom.reject(error)` on the queue entry created for `waiter`. -/
  | reject (waiter : Config) (error : AxiosError)
  /-- The call `api(originalRequest)`: the request is handed to the axios instance again. -/
  | api (config : Config)
  /-- The promise returned by the handler is rejected: `Promise.reject(error)`. -/
  | rejected (config : Config) (error : AxiosError)
  deriving DecidableEq

/-- Module state of `api.js`: the two `let` variables, `localStorage`, and the
frames of the error handler that are suspended at `await axios.post(...)`
(each frame holds its `originalRequest`). A queue entry `{ resolve, reject }`
is represented by the `originalRequest` its continuation replays. -/
structure ClientState where
  isRefreshing : Bool
  failedQueue : List Config
  storage : Storage
  awaiting : List Config
  deriving DecidableEq

/-! ## API client: operations -/

/-- Request interceptor: `api.interceptors.request.use((config) => ...)`. -/
def requestInterceptor (storage : Storage) (config : Config) : Config :=
  let token := storage.accessToken
  if truthy token then
    { config with headers := setHeader config.headers "Authorization" ("Bearer " ++ render token) }
  else
    config

/-- The function `processQueue`: `failedQueue.forEach(...)`, then `failedQueue = []`. -/
def processQueue (error : Option AxiosError) (token : Option String)
    (st : ClientState) : ClientState × List Effect :=
  let effects := st.failedQueue.map fun prom =>
    match error with
    | some e => Effect.reject prom e
    | none => Effect.resolve prom token
  ({ st with failedQueue := [] }, effects)

/-- Continuation of a queued request, `.then((token) => ...)`: set the header
and hand the request to `api`. -/
def resumed (originalRequest : Config) (token : Option String) : Config :=
  { originalRequest with
    headers := setHeader originalRequest.headers "Authorization" ("Bearer " ++ render token) }

/-- The continuations that run once `processQueue` has settled the entries:
a resolved entry replays its request, a rejected entry rejects its caller
(`.catch((err) => Promise.reject(err))`). -/
def continuation : Effect → List Effect
  | .resolve waiter token => [Effect.api (resumed waiter token)]
  | .reject waiter e => [Effect.rejected waiter e]
  | _ => []

/-- Error branch of the response interceptor, up to its first `await` or `return`. -/
def responseError (st : ClientState) (error : AxiosError) : ClientState × List Effect :=
  let originalRequest := error.config
  if error.status = some 401 ∧ originalRequest._retry = false then
    if error.code = some "TOKEN_EXPIRED" then
      if st.isRefreshing then
        ({ st with failedQueue := st.failedQueue ++ [originalRequest] }, [])
      else
        let originalRequest := { originalRequest with _retry := true }
        let st := { st with isRefreshing := true }
        let refreshToken := st.storage.refreshToken
        if truthy refreshToken then
          ({ st with awaiting := st.awaiting ++ [originalRequest] },
            [Effect.refreshCall (render refreshToken)])
        else
          let (st, settled) := processQueue (some error) none st
          let st := { st with storage := { accessToken := none, refreshToken := none } }
          (st, settled ++ [Effect.rejected originalRequest error] ++ settled.flatMap continuation)
    else
      (st, [Effect.rejected originalRequest error])
  else
    (st, [Effect.rejected originalRequest error])

/-- What `localStorage.setItem` and a template literal make of `response.data.accessToken`:
the string itself, or `"undefined"` when the response carries none. -/
def stringOf : Option String → String
  | some s => s
  | none => "undefined"

/-- The `try` block after the refresh call fulfilled, followed by `finally`.
`accessToken` is `response.data.accessToken` (`none` when the field is absent,
in which case the default parameter of `processQueue` makes the token `null`). -/
def refreshFulfilled (st : ClientState) (originalRequest : Config)
    (accessToken : Option String) : ClientState × List Effect :=
  let st := { st with storage := { st.storage with accessToken := some (stringOf accessToken) } }
  let (st, settled) := processQueue none accessToken st
  let originalRequest :=
    { originalRequest with
      headers := setHeader originalRequest.headers "Authorization"
        ("Bearer " ++ stringOf accessToken) }
  let st := { st with isRefreshing := false }
  (st, settled ++ [Effect.api originalRequest] ++ settled.flatMap continuation)

/-- The `catch (refreshError)` block after the refresh call rejected, followed by `finally`. -/
def refreshRejected (st : ClientState) (originalRequest : Config) (refreshError : AxiosError) :
    ClientState × List Effect :=
  let (st, settled) := processQueue (some refreshError) none st
  let st := { st with storage := { accessToken := none, refreshToken := none } }
  let st := { st with isRefreshing := false }
  (st, settled ++ [Effect.rejected originalRequest refreshError] ++ settled.flatMap continuation)

/-- What can happen to the client: a response error reaches the interceptor, or
the refresh call of the oldest suspended frame settles. -/
inductive Event where
  | failure (error : AxiosError)
  | refreshOk (accessToken : Option String)
  | refreshErr (refreshError : AxiosError)
  deriving DecidableEq

/-- One event of the client. -/
def step (st : ClientState) : Event → ClientState × List Effect
  | .failure error => responseError st error
  | .refreshOk accessToken =>
    match st.awaiting with
    | [] => (st, [])
    | originalRequest :: rest => refreshFulfilled { st with awaiting := rest } originalRequest accessToken
  | .refreshErr refreshError =>
    match st.awaiting with
    | [] => (st, [])
    | originalRequest :: rest => refreshRejected { st with awaiting := rest } originalRequest refreshError

/-- A sequence of events, with the effects in the order they happen. -/
def run : ClientState → List Event → ClientState × List Effect
  | st, [] => (st, [])
  | st, ev :: evs =>
    let r := step st ev
    let r' := run r.1 evs
    (r'.1, r.2 ++ r'.2)

/-- Number of refresh calls among the effects. -/
def refreshCalls : List Effect → Nat
  | [] => 0
  | .refreshCall _ :: rest => refreshCalls rest + 1
  | _ :: rest => refreshCalls rest

/-- How often `config` was handed to `api` again. -/
def apiCalls (url : String) : List Effect → Nat
  | [] => 0
  | .api c :: rest => (if c.url = url then 1 else 0) + apiCalls url rest
  | _ :: rest => apiCalls url rest

/-- An expiry failure that has not been retried: status 401, body code
`"TOKEN_EXPIRED"`, no `_retry` mark. -/
def isExpiry (error : AxiosError) : Prop :=
  error.status = some 401 ∧ error.code = some "TOKEN_EXPIRED" ∧ error.config._retry = false

instance (error : AxiosError) : Decidable (isExpiry error) := by
  unfold isExpiry; infer_instance

/-- The idle client: no refresh in progress, nothing queued, no suspended frame. -/
def idle (storage : Storage) : ClientState :=
  { isRefreshing := false, failedQueue := [], storage := storage, awaiting := [] }

/-! ## API client: sample values -/

/-- A request to `/cart`. -/
def exCart : Config :=
  { url := "/cart", method := "get", data := "",
    headers := [("Content-Type", "application/json")], _retry := false }

/-- A request to `/orders`. -/
def exOrders : Config :=
  { url := "/orders", method := "get", data := "",
    headers := [("Content-Type", "application/json")], _retry := false }

/-- A request to `/wishlist`. -/
def exWishlist : Config :=
  { url := "/wishlist", method := "get", data := "",
    headers := [("Content-Type", "application/json")], _retry := false }

/-- The response `401 { code: "TOKEN_EXPIRED" }` to a request. -/
def expired (config : Config) : AxiosError :=
  { config := config, status := some 401, code := some "TOKEN_EXPIRED" }

/-- Storage after a login: an access token that has expired and a refresh token. -/
def exStorage : Storage :=
  { accessToken := some "old", refreshToken := some "r" }

/-- The refresh call answered with `401 { message }`. -/
def exRefreshError : AxiosError :=
  { config := { url := "/auth/refresh", method := "post", data := "r", headers := [],
                _retry := false },
    status := some 401, code := none }

/-- A client in the middle of a refresh led by `/cart`, with `/orders` and
`/wishlist` queued behind it. -/
def exRefreshing : ClientState :=
  { isRefreshing := true, failedQueue := [exOrders, exWishlist], storage := exStorage,
    awaiting := [{ exCart with _retry := true }] }

/-! ## JavaScript values

A parameter of a request is a number or a string (a query parameter is a
string, a field of a JSON body is either); the arithmetic on it follows
JavaScript's coercions. Numbers are exact integers here (or `NaN`). -/

/-- A JavaScript value as it occurs in the arithmetic on request parameters. -/
inductive JSValue where
  | number (n : Int)
  | NaN
  | string (s : String)
  deriving DecidableEq

/-- Value of a run of decimal digits read after `acc`; `none` when a character
is no digit. -/
def digitsValue : List Char → Nat → Option Nat
  | [], acc => some acc
  | c :: cs, acc => if c.isDigit then digitsValue cs (acc * 10 + (c.toNat - 48)) else none

/-- `ToNumber` on a string: the empty string is 0; a run of decimal digits, with
a sign before it or not, is its value; `none` is `NaN`. Strings with white
space, a fraction, an exponent or a radix prefix are not given their value
here. -/
def stringToNumber (s : String) : Option Int :=
  match s.data with
  | [] => some 0
  | '-' :: c :: cs => (digitsValue (c :: cs) 0).map fun n => - (n : Int)
  | '+' :: c :: cs => (digitsValue (c :: cs) 0).map fun n => (n : Int)
  | cs => (digitsValue cs 0).map fun n => (n : Int)

/-- `ToString` on an integer. -/
def numberToString : Int → String
  | .ofNat n => Nat.repr n
  | .negSucc n => "-" ++ Nat.repr (n + 1)

/-- `ToNumber`; `none` is `NaN`. -/
def JSValue.toNumber : JSValue → Option Int
  | .number n => some n
  | .NaN => none
  | .string s => stringToNumber s

/-- The number or `NaN` as a value. -/
def JSValue.ofNumber : Option Int → JSValue
  | some n => .number n
  | none => .NaN

/-- `ToString`. -/
def JSValue.toStr : JSValue → String
  | .number n => numberToString n
  | .NaN => "NaN"
  | .string s => s

/-- The operator `-`: both operands are converted to numbers. -/
def JSValue.sub (a b : JSValue) : JSValue :=
  match a.toNumber, b.toNumber with
  | some x, some y => .number (x - y)
  | _, _ => .NaN

/-- The operator `*`: both operands are converted to numbers. -/
def JSValue.mul (a b : JSValue) : JSValue :=
  match a.toNumber, b.toNumber with
  | some x, some y => .number (x * y)
  | _, _ => .NaN

/-- The operator `+`: when an operand is a string the other one is converted to
a string and the two are concatenated; numbers are added. -/
def JSValue.add (a b : JSValue) : JSValue :=
  match a, b with
  | .string s, b => .string (s ++ b.toStr)
  | a, .string s => .string (a.toStr ++ s)
  | a, b =>
    match a.toNumber, b.toNumber with
    | some x, some y => .number (x + y)
    | _, _ => .NaN

/-- Whether the characters are a run of decimal digits, with a sign before it or
not. -/
def signedDigits : List Char → Bool
  | [] => false
  | '-' :: c :: cs => (c :: cs).all Char.isDigit
  | '+' :: c :: cs => (c :: cs).all Char.isDigit
  | cs => cs.all Char.isDigit

/-- The validator `isInt({ min: 1 })` of express-validator on a number or a string:
the value, written as a string, is a run of decimal digits with a sign before
it or not, and is at least 1 as a number. The value itself is not converted. -/
def isIntMin1 : JSValue → Bool
  | .number n => decide (1 ≤ n)
  | .NaN => false
  | .string s =>
    signedDigits s.data &&
      match stringToNumber s with
      | some n => decide (1 ≤ n)
      | none => false

/-- The comparison `a < b` for a number `a`: `b` is converted to a number, and the
comparison is false when that is `NaN`. -/
def ltNumber (a : Int) (b : JSValue) : Bool :=
  match b.toNumber with
  | some y => decide (a < y)
  | none => false

/-- What an integer column of the datastore (`cart.quantity`, which the handlers
read back as a number) takes for a value sent to it: the number itself, or
the number a run of decimal digits (with a sign before it or not) denotes; any
other value is rejected (`none`), and the call fails. -/
def toInteger : JSValue → Option Int
  | .number n => some n
  | .NaN => none
  | .string s => if signedDigits s.data then stringToNumber s else none

/-! ## Server: datastore

Tables are lists of rows in insertion order; identifiers (UUIDs in the hosted
datastore) are natural numbers; amounts of money are the rational values of
JavaScript numbers, and quantities are integers (an integer column). Every
call to the datastore either fails, in which case it writes nothing and the
handler sees `error` set and `data` null, or succeeds. Which calls fail is an
input of each handler. -/

/-- A row of `products`. -/
structure Product where
  id : Nat
  name : String
  price : ℚ
  stock_quantity : Int
  is_active : Bool
  deriving DecidableEq

/-- A row of `cart`. -/
structure CartRow where
  id : Nat
  user_id : Nat
  product_id : Nat
  quantity : Int
  deriving DecidableEq

/-- The field `shippingAddress` of a request body. -/
structure ShippingAddress where
  streetAddress : String
  city : String
  state : String
  postalCode : String
  country : String
  deriving DecidableEq

/-- A row of `addresses`. -/
structure Address where
  id : Nat
  user_id : Nat
  street_address : String
  city : String
  state : String
  postal_code : String
  country : String
  deriving DecidableEq

/-- A row of `orders`. -/
structure Order where
  id : Nat
  user_id : Nat
  total_amount : ℚ
  shipping_address_id : Nat
  status : String
  payment_method : Option String
  payment_intent_id : Option String
  deriving DecidableEq

/-- A row of `order_items`. -/
structure OrderItem where
  order_id : Nat
  product_id : Nat
  quantity : Int
  price : ℚ
  deriving DecidableEq

/-- The tables the cart, order and payment handlers touch. -/
structure DB where
  products : List Product
  cart : List CartRow
  addresses : List Address
  orders : List Order
  order_items : List OrderItem
  deriving DecidableEq

/-- The tables. -/
inductive Table where
  | products | cart | addresses | orders | order_items
  deriving DecidableEq

/-- The kinds of datastore call. -/
inductive OpKind where
  | select | insert | update | delete
  deriving DecidableEq

/-- One datastore call issued by a handler: its kind, its table, and the
product or row it concerns when the call is made per item. -/
structure DbOp where
  kind : OpKind
  table : Table
  key : Option Nat
  deriving DecidableEq

/-- Body of a JSON response, as far as the handlers here distinguish it. -/
inductive Body where
  /-- The body `{ message }`, possibly with data next to it. -/
  | message (m : String)
  /-- The body `{ errors: errors.array() }` of a validation failure. -/
  | errors
  /-- The body `{ error }` of the payment handlers. -/
  | error (e : String)
  /-- The body of a payment handler that carries no message. -/
  | data (orderId : Option Nat)
  deriving DecidableEq

/-- An HTTP response. -/
structure Response where
  status : Nat
  body : Body
  deriving DecidableEq

/-- What a handler leaves behind: the response, the datastore, and the
datastore calls it issued, in order. -/
structure Result where
  response : Response
  db : DB
  trace : List DbOp

/-- The modifier `.single()`: the row when exactly one row matches, else null. -/
def single {α : Type} : List α → Option α
  | [x] => some x
  | _ => none

/-- Identifier the datastore gives a new row: larger than those in use. -/
def nextId (ids : List Nat) : Nat :=
  ids.foldl max 0 + 1

/-- A cart row with the embedded `products (...)` resource of the select. -/
structure CartItem extends CartRow where
  products : Option Product
  deriving DecidableEq

/-- The embedding `products (...)` of a select on `cart`: the product the row refers to,
null when there is none. -/
def withProduct (db : DB) (row : CartRow) : CartItem :=
  { toCartRow := row, products := db.products.find? fun p => p.id = row.product_id }

/-- The select `from("cart").select("*, products (...)").eq("user_id", userId)`. -/
def selectCart (db : DB) (userId : Nat) : List CartItem :=
  (db.cart.filter fun row => row.user_id = userId).map (withProduct db)

/-! ## Server: cart routes (`server/routes/cart.js`) -/

/-- Which datastore calls of a cart request fail. -/
structure CartFaults where
  selectProduct : Bool
  selectCart : Bool
  updateCart : Bool
  insertCart : Bool
  deriving DecidableEq

/-- No call fails. -/
def CartFaults.none : CartFaults :=
  { selectProduct := false, selectCart := false, updateCart := false, insertCart := false }

/-- The update `from("cart").update({ quantity }).eq("id", id)`. -/
def setCartQuantity (cart : List CartRow) (id : Nat) (quantity : Int) : List CartRow :=
  cart.map fun row => if row.id = id then { row with quantity := quantity } else row

/-- The handler `router.post("/")` of the cart routes: add an item to the cart.
`quantity` is the field of the JSON body, a number or a string, which the
validator leaves as it is. An update or insert whose quantity the integer
column rejects fails like any other failed call. -/
def addToCart (db : DB) (f : CartFaults) (userId productId : Nat) (quantity : JSValue) :
    Result :=
  if ¬ isIntMin1 quantity then
    ⟨⟨400, .errors⟩, db, []⟩
  else
    let t1 : List DbOp := [⟨.select, .products, some productId⟩]
    let product : Option Product :=
      if f.selectProduct then none else single (db.products.filter fun p => p.id = productId)
    match product with
    | none => ⟨⟨404, .message "Product not found or inactive"⟩, db, t1⟩
    | some product =>
      if ¬ product.is_active then
        ⟨⟨404, .message "Product not found or inactive"⟩, db, t1⟩
      else if ltNumber product.stock_quantity quantity then
        ⟨⟨400, .message "Insufficient stock"⟩, db, t1⟩
      else
        let t2 := t1 ++ [⟨.select, .cart, some productId⟩]
        let existingItem : Option CartRow :=
          if f.selectCart then none
          else single (db.cart.filter fun row => row.user_id = userId ∧ row.product_id = productId)
        match existingItem with
        | some existingItem =>
          let newQuantity := (JSValue.number existingItem.quantity).add quantity
          if ltNumber product.stock_quantity newQuantity then
            ⟨⟨400, .message "Insufficient stock"⟩, db, t2⟩
          else
            let t3 := t2 ++ [⟨.update, .cart, some existingItem.id⟩]
            match (if f.updateCart then none else toInteger newQuantity) with
            | none => ⟨⟨500, .message "Failed to update cart"⟩, db, t3⟩
            | some stored =>
              ⟨⟨200, .message "Cart updated successfully"⟩,
                { db with cart := setCartQuantity db.cart existingItem.id stored }, t3⟩
        | none =>
          let t3 := t2 ++ [⟨.insert, .cart, some productId⟩]
          match (if f.insertCart then none else toInteger quantity) with
          | none => ⟨⟨500, .message "Failed to add to cart"⟩, db, t3⟩
          | some stored =>
            ⟨⟨201, .message "Item added to cart successfully"⟩,
              { db with cart := db.cart ++
                  [{ id := nextId (db.cart.map (·.id)), user_id := userId,
                     product_id := productId, quantity := stored }] }, t3⟩

/-- The handler `router.put("/:id")` of the cart routes: set the quantity of a cart item.
`quantity` is the field of the JSON body, as in `addToCart`. -/
def updateCartItem (db : DB) (f : CartFaults) (userId id : Nat) (quantity : JSValue) :
    Result :=
  if ¬ isIntMin1 quantity then
    ⟨⟨400, .errors⟩, db, []⟩
  else
    let t1 : List DbOp := [⟨.select, .cart, some id⟩]
    let cartItem : Option CartItem :=
      if f.selectCart then none
      else single ((db.cart.filter fun row => row.id = id ∧ row.user_id = userId).map
        (withProduct db))
    match cartItem with
    | none => ⟨⟨404, .message "Cart item not found"⟩, db, t1⟩
    | some cartItem =>
      match cartItem.products with
      | none => ⟨⟨500, .message "Server error"⟩, db, t1⟩
      | some products =>
        if ¬ products.is_active then
          ⟨⟨400, .message "Product is no longer available"⟩, db, t1⟩
        else if ltNumber products.stock_quantity quantity then
          ⟨⟨400, .message "Insufficient stock"⟩, db, t1⟩
        else
          let t2 := t1 ++ [⟨.update, .cart, some id⟩]
          match (if f.updateCart then none else toInteger quantity) with
          | none => ⟨⟨500, .message "Failed to update cart item"⟩, db, t2⟩
          | some stored =>
            ⟨⟨200, .message "Cart item updated successfully"⟩,
              { db with cart := setCartQuantity db.cart id stored }, t2⟩

/-- At most one cart row for every pair of user and product: no two rows of
the table agree on both. -/
def onePerPair (cart : List CartRow) : Prop :=
  cart.Pairwise fun a b => ¬ (a.user_id = b.user_id ∧ a.product_id = b.product_id)

instance (cart : List CartRow) : Decidable (onePerPair cart) := by
  unfold onePerPair; infer_instance

/-! ## Numbers

Amounts are JavaScript numbers, binary64 floating-point numbers, and every `+`
and `*` on them returns the exact result rounded to the nearest such number.
The handlers below take the rounding as a parameter `fl`: `binary64` is the
rounding of the program, the identity is exact arithmetic. -/

/-- The integer nearest to `m`; of two integers equally near, the even one. -/
def roundHalfEven (m : ℚ) : ℤ :=
  let f := ⌊m⌋
  if m - f < 1 / 2 then f
  else if 1 / 2 < m - f then f + 1
  else if f % 2 = 0 then f else f + 1

/-- Rounding to the nearest binary64 number, ties to even: 53 significant bits.
Overflow and subnormal numbers are not embedded (amounts stay far from
both). -/
def binary64 (x : ℚ) : ℚ :=
  if x = 0 then 0
  else
    let ulp : ℚ := 2 ^ (Int.log 2 |x| - 52)
    (if x < 0 then -1 else 1) * (roundHalfEven (|x| / ulp) : ℚ) * ulp

/-! ## Server: order creation (`server/routes/orders.js`) -/

/-- Which datastore calls of an order or payment request fail; the calls made
once per cart item are indexed by the position of the item. -/
structure OrderFaults where
  selectCart : Bool
  insertAddress : Bool
  insertOrder : Bool
  insertOrderItem : Nat → Bool
  selectStock : Nat → Bool
  updateStock : Nat → Bool
  deleteCart : Bool
  selectOrder : Bool

/-- No call fails. -/
def OrderFaults.none : OrderFaults :=
  { selectCart := false, insertAddress := false, insertOrder := false,
    insertOrderItem := fun _ => false, selectStock := fun _ => false,
    updateStock := fun _ => false, deleteCart := false, selectOrder := false }

/-- The loop "Validate stock and calculate total" of order creation: the response it
returns early, or the total. A cart row whose embedded product is null makes
`item.products.is_active` throw, which the handler's `catch` answers with 500.

`fl` is the rounding of the number arithmetic (`binary64` in the program). -/
def validateCart (fl : ℚ → ℚ) : List CartItem → ℚ → Except Response ℚ
  | [], totalAmount => .ok totalAmount
  | item :: rest, totalAmount =>
    match item.products with
    | none => .error ⟨500, .message "Server error"⟩
    | some products =>
      if ¬ products.is_active then
        .error ⟨400, .message ("Product " ++ products.name ++ " is no longer available")⟩
      else if products.stock_quantity < item.quantity then
        .error ⟨400, .message ("Insufficient stock for " ++ products.name)⟩
      else
        validateCart fl rest (fl (totalAmount + fl (products.price * (item.quantity : ℚ))))

/-- The row inserted into `addresses` for a shipping address. -/
def addressRow (db : DB) (userId : Nat) (a : ShippingAddress) : Address :=
  { id := nextId (db.addresses.map (·.id)), user_id := userId,
    street_address := a.streetAddress, city := a.city, state := a.state,
    postal_code := a.postalCode, country := a.country }

/-- The update `from("products").update({ stock_quantity }).eq("id", productId)`. -/
def setStock (products : List Product) (productId : Nat) (stock : Int) : List Product :=
  products.map fun p => if p.id = productId then { p with stock_quantity := stock } else p

/-- The delete `from("cart").delete().eq("user_id", userId)`, unless the call fails. -/
def clearCart (db : DB) (failed : Bool) (userId : Nat) : DB :=
  if failed then db else { db with cart := db.cart.filter fun row => ¬ row.user_id = userId }

/-- The loop "Create order items and update stock" of order creation, from item
number `i` on: the datastore, the calls issued, and the response if the loop
returned early. -/
def createOrderItems (f : OrderFaults) (orderId : Nat) :
    Nat → List CartItem → DB → DB × List DbOp × Option Response
  | _, [], db => (db, [], none)
  | i, item :: rest, db =>
    match item.products with
    | none => (db, [], some ⟨500, .message "Server error"⟩)
    | some products =>
      let t1 : List DbOp := [⟨.insert, .order_items, some item.product_id⟩]
      if f.insertOrderItem i then
        (db, t1, some ⟨500, .message "Failed to create order items"⟩)
      else
        let db := { db with order_items := db.order_items ++
          [{ order_id := orderId, product_id := item.product_id, quantity := item.quantity,
             price := products.price }] }
        let t2 := t1 ++ [⟨.update, .products, some item.product_id⟩]
        if f.updateStock i then
          (db, t2, some ⟨500, .message "Failed to update product stock"⟩)
        else
          let newStock := products.stock_quantity - item.quantity
          let db := { db with products := setStock db.products item.product_id newStock }
          let r := createOrderItems f orderId (i + 1) rest db
          (r.1, t2 ++ r.2.1, r.2.2)

/-- The handler `router.post("/")` of the order routes: create an order from the user's cart.
`valid` is `errors.isEmpty()` for the validators of `shippingAddress`. -/
def createOrder (fl : ℚ → ℚ) (db : DB) (f : OrderFaults) (userId : Nat) (valid : Bool)
    (shippingAddress : ShippingAddress) : Result :=
  if ¬ valid then
    ⟨⟨400, .errors⟩, db, []⟩
  else
    let t1 : List DbOp := [⟨.select, .cart, none⟩]
    let cartItems := selectCart db userId
    if f.selectCart ∨ cartItems.length = 0 then
      ⟨⟨400, .message "Cart is empty"⟩, db, t1⟩
    else
      match validateCart fl cartItems 0 with
      | .error response => ⟨response, db, t1⟩
      | .ok totalAmount =>
        let t2 := t1 ++ [⟨.insert, .addresses, none⟩]
        if f.insertAddress then
          ⟨⟨500, .message "Failed to create shipping address"⟩, db, t2⟩
        else
          let address := addressRow db userId shippingAddress
          let db := { db with addresses := db.addresses ++ [address] }
          let t3 := t2 ++ [⟨.insert, .orders, none⟩]
          if f.insertOrder then
            ⟨⟨500, .message "Failed to create order"⟩, db, t3⟩
          else
            let order : Order :=
              { id := nextId (db.orders.map (·.id)), user_id := userId,
                total_amount := totalAmount, shipping_address_id := address.id,
                status := "pending", payment_method := none, payment_intent_id := none }
            let db := { db with orders := db.orders ++ [order] }
            match createOrderItems f order.id 0 cartItems db with
            | (db, t4, some response) => ⟨response, db, t3 ++ t4⟩
            | (db, t4, none) =>
              let t5 := t3 ++ t4 ++ [⟨.delete, .cart, none⟩]
              ⟨⟨201, .message "Order created successfully"⟩, clearCart db f.deleteCart userId, t5⟩

/-- Sum of price times quantity over the order items of an order, taken in the
order of the rows with the arithmetic of the handlers, as a `reduce` from 0. -/
def itemsTotal (fl : ℚ → ℚ) (db : DB) (orderId : Nat) : ℚ :=
  (db.order_items.filter fun it => it.order_id = orderId).foldl
    (fun sum it => fl (sum + fl (it.price * (it.quantity : ℚ)))) 0

/-! ## Server: payment routes (`server/routes/payments.js`) -/

/-- The embedded `products` object of a cart item sent by the browser. -/
structure PayProduct where
  id : Nat
  price : ℚ
  deriving DecidableEq

/-- A cart item as the browser sends it to the payment routes (and as it is
stored in the metadata of a checkout session): `price` is a number (a session
whose items lack it cannot be created), `products` may be absent. -/
structure PayItem where
  product_id : Nat
  quantity : Int
  price : ℚ
  products : Option PayProduct
  deriving DecidableEq

/-- The expression `Number.parseFloat(item.products?.price || item.price)`. -/
def payPrice (item : PayItem) : ℚ :=
  match item.products with
  | some products => if products.price ≠ 0 then products.price else item.price
  | none => item.price

/-- The method `toFixed(2)`: the multiple of 1/100 nearest to the value of the number, ties
away from zero. -/
def toFixed2 (x : ℚ) : ℚ :=
  if 0 ≤ x then (⌊x * 100 + 1 / 2⌋ : ℚ) / 100 else -((⌊-x * 100 + 1 / 2⌋ : ℚ) / 100)

/-- The lines `shipping`, `tax`, `total` of the payment handlers; the literals
`9.99` and `0.08` are the numbers nearest to them. -/
def payTotal (fl : ℚ → ℚ) (subtotal : ℚ) : ℚ :=
  let shipping : ℚ := if 50 ≤ subtotal then 0 else fl (999 / 100)
  let tax := fl (subtotal * fl (8 / 100))
  fl (fl (subtotal + shipping) + tax)

/-- One round of the loop that lowers the stock in the payment handlers: read the
current stock, write `Math.max(0, newStock)`; no result is checked. -/
def lowerOne (f : OrderFaults) (i : Nat) (item : PayItem) (db : DB) : DB × List DbOp :=
  let t1 : List DbOp := [⟨.select, .products, some item.product_id⟩]
  let product : Option Product :=
    if f.selectStock i then none
    else single (db.products.filter fun p => p.id = item.product_id)
  match product with
  | none => (db, t1)
  | some product =>
    let newStock := product.stock_quantity - item.quantity
    let t2 := t1 ++ [⟨.update, .products, some item.product_id⟩]
    if f.updateStock i then (db, t2)
    else ({ db with products := setStock db.products item.product_id (max 0 newStock) }, t2)

/-- The loop over the cart items that lowers the stock in the payment handlers. -/
def lowerStock (f : OrderFaults) : Nat → List PayItem → DB → DB × List DbOp
  | _, [], db => (db, [])
  | i, item :: rest, db =>
    let r1 := lowerOne f i item db
    let r := lowerStock f (i + 1) rest r1.1
    (r.1, r1.2 ++ r.2)

/-- The part the two payment handlers share: address, order, order items,
stock, cart. `total` is computed by the caller; a failed insert is thrown
and reported by `none`. -/
def recordPaidOrder (db : DB) (f : OrderFaults) (userId : Nat) (total : ℚ)
    (method intent : String) (cartItems : List PayItem)
    (shippingAddress : ShippingAddress) : DB × List DbOp × Option Nat :=
  let t1 : List DbOp := [⟨.insert, .addresses, none⟩]
  if f.insertAddress then (db, t1, none)
  else
    let address := addressRow db userId shippingAddress
    let db := { db with addresses := db.addresses ++ [address] }
    let t2 := t1 ++ [⟨.insert, .orders, none⟩]
    if f.insertOrder then (db, t2, none)
    else
      let order : Order :=
        { id := nextId (db.orders.map (·.id)), user_id := userId,
          total_amount := toFixed2 total, shipping_address_id := address.id,
          status := "confirmed", payment_method := some method,
          payment_intent_id := some intent }
      let db := { db with orders := db.orders ++ [order] }
      let orderItems : List OrderItem := cartItems.map fun item =>
        { order_id := order.id, product_id := item.product_id, quantity := item.quantity,
          price := payPrice item }
      let t3 := t2 ++ [⟨.insert, .order_items, none⟩]
      if f.insertOrderItem 0 then (db, t3, none)
      else
        let db := { db with order_items := db.order_items ++ orderItems }
        let r := lowerStock f 0 cartItems db
        (clearCart r.1 f.deleteCart userId, t3 ++ r.2 ++ [⟨.delete, .cart, none⟩], some order.id)

/-- Outcome of `ordersController.captureOrder`: a status code, or a thrown
`ApiError` with its `statusCode`, or another thrown error. -/
inductive Capture where
  | returned (statusCode : Nat)
  | apiError (statusCode : Option Nat) (message : String)
  | thrown
  deriving DecidableEq

/-- The handler `router.post("/paypal/orders/:orderID/capture")`. -/
def capturePayPalOrder (fl : ℚ → ℚ) (db : DB) (f : OrderFaults) (capture : Capture) (userId : Nat)
    (orderID : String) (cartItems : List PayItem) (shippingAddress : ShippingAddress) :
    Result :=
  match capture with
  | .apiError statusCode message =>
    ⟨⟨match statusCode with | some c => if c ≠ 0 then c else 500 | none => 500,
      .error message⟩, db, []⟩
  | .thrown => ⟨⟨500, .error "Failed to capture order."⟩, db, []⟩
  | .returned statusCode =>
    if statusCode = 201 then
      let subtotal := cartItems.foldl
        (fun sum item => fl (sum + fl (payPrice item * (item.quantity : ℚ)))) 0
      let total := payTotal fl subtotal
      match recordPaidOrder db f userId total "paypal" orderID cartItems shippingAddress with
      | (db, t, none) => ⟨⟨500, .error "Failed to capture order."⟩, db, t⟩
      | (db, t, some _) => ⟨⟨statusCode, .data none⟩, db, t⟩
    else
      ⟨⟨statusCode, .data none⟩, db, []⟩

/-- A checkout session as `stripe.checkout.sessions.retrieve` returns it, with
the metadata written when the session was created. -/
structure Session where
  status : String
  payment_status : String
  payment_intent : String
  user_id : Nat
  cart_items : List PayItem
  shipping_address : ShippingAddress
  deriving DecidableEq

/-- The handler `router.get("/session-status")`; `none` is a `retrieve` that throws. -/
def sessionStatus (fl : ℚ → ℚ) (db : DB) (f : OrderFaults) (session : Option Session) :
    Result :=
  match session with
  | none => ⟨⟨500, .error "Failed to retrieve session status"⟩, db, []⟩
  | some session =>
    if session.status = "complete" ∧ session.payment_status = "paid" then
      let t1 : List DbOp := [⟨.select, .orders, none⟩]
      let existingOrder : Option Order :=
        if f.selectOrder then none
        else single (db.orders.filter fun o => o.payment_intent_id = some session.payment_intent)
      match existingOrder with
      | some existingOrder => ⟨⟨200, .data (some existingOrder.id)⟩, db, t1⟩
      | none =>
        let cartItems := session.cart_items
        let subtotal := cartItems.foldl
          (fun sum item => fl (sum + fl (item.price * (item.quantity : ℚ)))) 0
        let total := payTotal fl subtotal
        match recordPaidOrder db f session.user_id total "stripe" session.payment_intent
            cartItems session.shipping_address with
        | (db, t, none) => ⟨⟨500, .error "Failed to retrieve session status"⟩, db, t1 ++ t⟩
        | (db, t, some orderId) => ⟨⟨200, .data (some orderId)⟩, db, t1 ++ t⟩
    else
      ⟨⟨200, .data none⟩, db, []⟩

/-! ## Server: sample values and predicates used by the theorems -/

/-- Price of the product embedded in a cart item (0 when it is null). -/
def unitPrice (item : CartItem) : ℚ :=
  match item.products with
  | some products => products.price
  | none => 0

/-- The order item the order-creation loop inserts for a cart item. -/
def orderItemOf (orderId : Nat) (item : CartItem) : OrderItem :=
  { order_id := orderId, product_id := item.product_id, quantity := item.quantity,
    price := unitPrice item }

/-- The two datastore calls the order-creation loop issues for a cart item. -/
def itemOps (item : CartItem) : List DbOp :=
  [⟨.insert, .order_items, some item.product_id⟩, ⟨.update, .products, some item.product_id⟩]

/-- No insert into `order_items` is issued after an update of `products`. -/
def insertsBeforeDecrements : List DbOp → Bool
  | [] => true
  | op :: rest =>
    if op.kind = .update ∧ op.table = .products then
      rest.all (fun o => ¬ (o.kind = .insert ∧ o.table = .order_items))
        && insertsBeforeDecrements rest
    else
      insertsBeforeDecrements rest

/-- The order row order creation inserts, given the total it computed. -/
def newOrder (db : DB) (userId : Nat) (a : ShippingAddress) (totalAmount : ℚ) : Order :=
  { id := nextId (db.orders.map (·.id)), user_id := userId, total_amount := totalAmount,
    shipping_address_id := (addressRow db userId a).id, status := "pending",
    payment_method := none, payment_intent_id := none }

/-- The datastore after order creation has inserted the address and the order. -/
def withOrder (db : DB) (userId : Nat) (a : ShippingAddress) (totalAmount : ℚ) : DB :=
  { db with addresses := db.addresses ++ [addressRow db userId a],
            orders := db.orders ++ [newOrder db userId a totalAmount] }

/-- The `subtotal` of the PayPal capture handler: its `reduce` over the cart items. -/
def captureSubtotal (fl : ℚ → ℚ) (cartItems : List PayItem) : ℚ :=
  cartItems.foldl (fun sum item => fl (sum + fl (payPrice item * (item.quantity : ℚ)))) 0

/-- The `subtotal` of the session-status handler: its `reduce` over the cart items. -/
def sessionSubtotal (fl : ℚ → ℚ) (cartItems : List PayItem) : ℚ :=
  cartItems.foldl (fun sum item => fl (sum + fl (item.price * (item.quantity : ℚ)))) 0

/-- The order row the payment handlers insert, given the total they computed. -/
def paidOrder (db : DB) (userId : Nat) (a : ShippingAddress) (total : ℚ)
    (method intent : String) : Order :=
  { id := nextId (db.orders.map (·.id)), user_id := userId,
    total_amount := toFixed2 total,
    shipping_address_id := (addressRow db userId a).id, status := "confirmed",
    payment_method := some method, payment_intent_id := some intent }

/-- The order item the payment handlers insert for a cart item. -/
def paidItemOf (orderId : Nat) (item : PayItem) : OrderItem :=
  { order_id := orderId, product_id := item.product_id, quantity := item.quantity,
    price := payPrice item }

/-- A mug as the browser sends it to the payment routes. -/
def exPayItem : PayItem :=
  { product_id := 1, quantity := 1, price := 10, products := none }

/-- One item at 1.40 and three at 16.20, the prices being the binary64 numbers
nearest to these. -/
def exRoundedItems : List PayItem :=
  [{ product_id := 1, quantity := 1, price := binary64 (7 / 5), products := none },
   { product_id := 2, quantity := 3, price := binary64 (81 / 5), products := none }]

/-- Two products in stock. -/
def exProducts : List Product :=
  [{ id := 1, name := "Mug", price := 10, stock_quantity := 5, is_active := true },
   { id := 2, name := "Lamp", price := 20, stock_quantity := 3, is_active := true }]

/-- A datastore in which user 1 has one mug and two lamps in the cart. -/
def exDB : DB :=
  { products := exProducts,
    cart := [{ id := 1, user_id := 1, product_id := 1, quantity := 1 },
             { id := 2, user_id := 1, product_id := 2, quantity := 2 }],
    addresses := [], orders := [], order_items := [] }

/-- The datastore `exDB` with twenty mugs in stock. -/
def exStockedDB : DB :=
  { exDB with products := [{ id := 1, name := "Mug", price := 10, stock_quantity := 20,
                             is_active := true }] }

/-- A shipping address. -/
def exAddress : ShippingAddress :=
  { streetAddress := "1 Main St", city := "Springfield", state := "IL",
    postalCode := "62701", country := "US" }

/-- A datastore in which user 1 has one mug and four lamps in the cart, one
lamp more than in stock. -/
def exOverDB : DB :=
  { exDB with cart := [{ id := 1, user_id := 1, product_id := 1, quantity := 1 },
                       { id := 2, user_id := 1, product_id := 2, quantity := 4 }] }

/-! ## Server: authentication middleware (`server/middleware/auth.js`) -/

/-- A row of `users`, as far as the middleware and the handlers read it. -/
structure UserRow where
  id : Nat
  email : String
  role : Option String
  is_active : Bool
  deriving DecidableEq

/-- The user object of the auth provider. -/
structure AuthUser where
  id : Nat
  email_confirmed_at : Option String
  deriving DecidableEq

/-- The object the middleware stores in `req.user`: the columns of the row,
`email_verified` and `supabase_user`. -/
structure ReqUser extends UserRow where
  email_verified : Bool
  supabase_user : AuthUser
  deriving DecidableEq

/-- Outcome of `supabase.auth.getUser(token)`: a user, an error (or no user),
or an exception. -/
inductive GetUser where
  | user (user : AuthUser)
  | error
  | thrown
  deriving DecidableEq

/-- What a middleware does: call `next()` (with `req.user` as it then is) or
send a response. -/
inductive Handled where
  | next (user : Option ReqUser)
  | respond (response : Response)
  deriving DecidableEq

/-- The method `split(" ")` on the characters of a string. -/
def splitSpace : List Char → List String
  | [] => [""]
  | c :: cs =>
    if c = ' ' then "" :: splitSpace cs
    else
      match splitSpace cs with
      | [] => [String.singleton c]
      | w :: ws => (String.singleton c ++ w) :: ws

/-- The expression `authHeader && authHeader.split(" ")[1]`; `none` stands for a
falsy value that is not a string. -/
def bearerToken (authHeader : Option String) : Option String :=
  match authHeader with
  | none => none
  | some h => if h = "" then some "" else (splitSpace h.data).get? 1

/-- The middleware `authenticateToken`. `getUser` is the auth provider, `selectFails` tells
whether the select on `users` fails. -/
def authenticateToken (users : List UserRow) (getUser : String → GetUser) (selectFails : Bool)
    (authHeader : Option String) : Handled :=
  let token := bearerToken authHeader
  if ¬ truthy token then
    .respond ⟨401, .message "Access token required"⟩
  else
    match getUser (render token) with
    | .thrown => .respond ⟨403, .message "Invalid token"⟩
    | .error => .respond ⟨401, .message "Invalid token"⟩
    | .user user =>
      let userData : Option UserRow :=
        if selectFails then none else single (users.filter fun row => row.id = user.id)
      match userData with
      | none => .respond ⟨401, .message "User not found"⟩
      | some userData =>
        if ¬ userData.is_active then
          .respond ⟨401, .message "Account is deactivated"⟩
        else
          .next (some { toUserRow := userData,
                        email_verified := truthy user.email_confirmed_at,
                        supabase_user := user })

/-- The middleware `requireAdmin`. -/
def requireAdmin (user : Option ReqUser) : Handled :=
  match user with
  | none => .respond ⟨401, .message "Authentication required"⟩
  | some u =>
    if u.role ≠ some "admin" then
      .respond ⟨403, .message "Admin access required"⟩
    else
      .next (some u)

/-! ## Server: single order, password reset, reviews, cart total -/

/-- The handler `router.get("/:id")` of the order routes: the response and the order it
carries. Without the role `"admin"` the query is narrowed to the requester's
own orders. -/
def getOrder (db : DB) (selectFails : Bool) (user : ReqUser) (id : Nat) :
    Response × Option Order :=
  let query : List Order := db.orders.filter fun o => o.id = id
  let query : List Order :=
    if user.role ≠ some "admin" then query.filter fun o => o.user_id = user.id else query
  let order : Option Order := if selectFails then none else single query
  match order with
  | none => (⟨404, .message "Order not found"⟩, none)
  | some order => (⟨200, .data (some order.id)⟩, some order)

/-- Outcome of a call to the auth provider that returns `{ error }`. -/
inductive AuthCall where
  | ok
  | error (message : String)
  | thrown
  deriving DecidableEq

/-- The handler `router.post("/forgot-password")`. `isEmail` and `normalizeEmail` are the
validator and the sanitizer of the `email` field, `resetPasswordForEmail` is the auth
provider. -/
def forgotPassword (isEmail : String → Bool) (normalizeEmail : String → String)
    (resetPasswordForEmail : String → AuthCall) (email : String) : Response :=
  if ¬ isEmail email then
    ⟨400, .errors⟩
  else
    match resetPasswordForEmail (normalizeEmail email) with
    | .thrown => ⟨500, .message "Server error"⟩
    | .error _ => ⟨200, .message "If the email exists, a reset link has been sent"⟩
    | .ok => ⟨200, .message "If the email exists, a reset link has been sent"⟩

/-- A row of `reviews`. -/
structure Review where
  id : Nat
  product_id : Nat
  user_id : Nat
  rating : Int
  comment : String
  deriving DecidableEq

/-- Which datastore calls of `POST /reviews` fail. -/
structure ReviewFaults where
  selectOrderItems : Bool
  selectReview : Bool
  insertReview : Bool
  deriving DecidableEq

/-- No call fails. -/
def ReviewFaults.none : ReviewFaults :=
  { selectOrderItems := false, selectReview := false, insertReview := false }

/-- The select on `order_items` with `orders!inner (user_id, status)`: the items of the
product in delivered orders of the user. -/
def purchasedItems (db : DB) (userId productId : Nat) : List OrderItem :=
  db.order_items.filter fun it =>
    it.product_id = productId
      ∧ db.orders.any fun o => o.id = it.order_id ∧ o.user_id = userId ∧ o.status = "delivered"

/-- The handler `router.post("/")` of the review routes: the response and the table
`reviews` afterwards. -/
def addReview (db : DB) (reviews : List Review) (f : ReviewFaults) (userId product_id : Nat)
    (rating : Int) (comment : String) : Response × List Review :=
  let orderItems : Option (List OrderItem) :=
    if f.selectOrderItems then none else some (purchasedItems db userId product_id)
  match orderItems with
  | none => (⟨400, .error "You can only review products you have purchased"⟩, reviews)
  | some orderItems =>
    if orderItems.length = 0 then
      (⟨400, .error "You can only review products you have purchased"⟩, reviews)
    else
      let existingReview : Option Review :=
        if f.selectReview then none
        else single (reviews.filter fun r => r.product_id = product_id ∧ r.user_id = userId)
      match existingReview with
      | some _ => (⟨400, .error "You have already reviewed this product"⟩, reviews)
      | none =>
        if f.insertReview then
          (⟨500, .error "Failed to add review"⟩, reviews)
        else
          (⟨201, .data none⟩,
            reviews ++ [{ id := nextId (reviews.map (·.id)), product_id := product_id,
                          user_id := userId, rating := rating, comment := comment }])

/-- At most one review for every pair of user and product. -/
def oneReviewPerPair (reviews : List Review) : Prop :=
  reviews.Pairwise fun a b => ¬ (a.user_id = b.user_id ∧ a.product_id = b.product_id)

instance (reviews : List Review) : Decidable (oneReviewPerPair reviews) := by
  unfold oneReviewPerPair; infer_instance

/-- The reduction `cartItems.reduce((sum, item) => sum + item.products.price * item.quantity, 0)`
of `GET /cart`; `none` when an embedded product is null and the property
access throws. `fl` is the rounding of the number arithmetic. -/
def reduceTotal (fl : ℚ → ℚ) : List CartItem → ℚ → Option ℚ
  | [], sum => some sum
  | item :: rest, sum =>
    match item.products with
    | none => none
    | some products =>
      reduceTotal fl rest (fl (sum + fl (products.price * (item.quantity : ℚ))))

/-- The handler `router.get("/")` of the cart routes: the response and the total it
carries. The rows come newest first (`order("created_at", { ascending: false })`). -/
def getCart (fl : ℚ → ℚ) (db : DB) (selectFails : Bool) (userId : Nat) :
    Response × Option ℚ :=
  if selectFails then
    (⟨500, .message "Failed to fetch cart"⟩, none)
  else
    let cartItems := (selectCart db userId).reverse
    match reduceTotal fl cartItems 0 with
    | none => (⟨500, .message "Server error"⟩, none)
    | some total => (⟨200, .data none⟩, some total)

/-- The total as the specification words it: the sum over the cart rows of product
price times quantity. -/
def cartSum (items : List CartItem) : ℚ :=
  (items.map fun item => unitPrice item * (item.quantity : ℚ)).sum

/-- A row of `users` with role `"user"`. -/
def exUserRow : UserRow :=
  { id := 7, email := "b@x.io", role := some "user", is_active := true }

/-- The provider's user for `exUserRow`, with a confirmed email. -/
def exAuthUser : AuthUser :=
  { id := 7, email_confirmed_at := some "2024-05-01T10:00:00Z" }

/-- The object `req.user` for `exUserRow`. -/
def exReqUser : ReqUser :=
  { toUserRow := exUserRow, email_verified := true, supabase_user := exAuthUser }

/-- An auth provider that knows the token `"abc"` only. -/
def exGetUser (token : String) : GetUser :=
  if token = "abc" then .user exAuthUser else .error

/-- The object `req.user` of an administrator. -/
def exAdmin : ReqUser :=
  { id := 1, email := "a@x.io", role := some "admin", is_active := true, email_verified := true,
    supabase_user := { id := 1, email_confirmed_at := some "2024-01-01T09:00:00Z" } }

/-- A datastore with one order, of user 9. -/
def exOrderDB : DB :=
  { exDB with orders := [{ id := 4, user_id := 9, total_amount := 50, shipping_address_id := 1,
                           status := "delivered", payment_method := none,
                           payment_intent_id := none }] }

/-- A validator that asks for an `@` in the address. -/
def exIsEmail (email : String) : Bool :=
  email.data.contains '@'

/-- An auth provider that reports an error for every address but `known@x.io`. -/
def exReset (email : String) : AuthCall :=
  if email = "known@x.io" then .ok else .error "User not found"

/-- A datastore in which user 7 has a delivered order with one mug. -/
def exDeliveredDB : DB :=
  { exDB with
    orders := [{ id := 4, user_id := 7, total_amount := 10, shipping_address_id := 1,
                 status := "delivered", payment_method := none, payment_intent_id := none }],
    order_items := [{ order_id := 4, product_id := 1, quantity := 1, price := 10 }] }

/-- The table `reviews` with one review, of user 7 for the mug. -/
def exReviews : List Review :=
  [{ id := 1, product_id := 1, user_id := 7, rating := 5, comment := "Good" }]

/-- A checkout session of user 1 for one mug, complete and paid. -/
def exSession : Session :=
  { status := "complete", payment_status := "paid", payment_intent := "pi_1", user_id := 1,
    cart_items := [exPayItem], shipping_address := exAddress }

/-- The insert of the second order item fails, every other call succeeds. -/
def exSecondItemFails : OrderFaults :=
  { OrderFaults.none with insertOrderItem := fun i => i == 1 }

/-- The insert into `order_items` fails, every other call succeeds. -/
def exItemsFail : OrderFaults :=
  { OrderFaults.none with insertOrderItem := fun _ => true }

/-! ## Server: the status of every other response

The handlers that are not embedded in full above are embedded by the status of
their response. A handler of these has the shape
`try { if (c₁) return res.status(s₁)...; ...; res.json(...) } catch { res.status(s)... }`;
its conditions depend on the request and on the answers of the upstream
services, so they are inputs here, in the order of the source, after `thrown`,
which tells whether a statement of the `try` block throws before a response is
sent. -/

/-- Handler `POST /auth/register`. -/
def register (thrown invalid signUpError : Bool) : Nat :=
  if thrown then 500 else if invalid then 400 else if signUpError then 400 else 201

/-- Handler `POST /auth/resend-verification`. -/
def resendVerification (thrown invalid error : Bool) : Nat :=
  if thrown then 500 else if invalid then 400 else if error then 400 else 200

/-- Handler `POST /auth/login`. -/
def login (thrown invalid error : Bool) : Nat :=
  if thrown then 500 else if invalid then 400 else if error then 401 else 200

/-- Handler `POST /auth/refresh`. -/
def refresh (thrown noRefreshToken error : Bool) : Nat :=
  if thrown then 401 else if noRefreshToken then 401 else if error then 401 else 200

/-- Handler `POST /auth/logout`. -/
def logout (thrown : Bool) : Nat :=
  if thrown then 500 else 200

/-- Handler `POST /auth/reset-password`. -/
def resetPassword (thrown invalid noToken userError error : Bool) : Nat :=
  if thrown then 400 else if invalid then 400 else if noToken then 401
  else if userError then 401 else if error then 400 else 200

/-- Handler `POST /auth/verify-email`. -/
def verifyEmail (thrown : Bool) : Nat :=
  if thrown then 400 else 200

/-- Handler `POST /auth/create-admin`. -/
def createAdmin (thrown signUpError : Bool) : Nat :=
  if thrown then 500 else if signUpError then 400 else 200

/-- Handler `GET /auth/profile`. -/
def getProfile (thrown : Bool) : Nat :=
  if thrown then 500 else 200

/-- Handler `PUT /auth/profile`. -/
def updateProfile (thrown invalid error : Bool) : Nat :=
  if thrown then 500 else if invalid then 400 else if error then 500 else 200

/-- Handler `GET /products`. -/
def getProducts (thrown error : Bool) : Nat :=
  if thrown then 500 else if error then 500 else 200

/-- Handler `GET /products/:id`. -/
def getProduct (thrown notFound : Bool) : Nat :=
  if thrown then 500 else if notFound then 404 else 200

/-- Handler `POST /products`. -/
def createProduct (thrown invalid error : Bool) : Nat :=
  if thrown then 500 else if invalid then 400 else if error then 500 else 201

/-- Handler `PUT /products/:id`. -/
def updateProduct (thrown invalid notFound : Bool) : Nat :=
  if thrown then 500 else if invalid then 400 else if notFound then 404 else 200

/-- Handler `DELETE /products/:id`. -/
def deleteProduct (thrown error : Bool) : Nat :=
  if thrown then 500 else if error then 500 else 200

/-- Handler `GET /categories`. -/
def getCategories (thrown error : Bool) : Nat :=
  if thrown then 500 else if error then 500 else 200

/-- Handler `GET /categories/:id`. -/
def getCategory (thrown notFound : Bool) : Nat :=
  if thrown then 500 else if notFound then 404 else 200

/-- Handler `POST /categories`; `duplicate` is `error.code === "23505"`. -/
def createCategory (thrown invalid error duplicate : Bool) : Nat :=
  if thrown then 500 else if invalid then 400
  else if error then (if duplicate then 400 else 500) else 201

/-- Handler `PUT /categories/:id`; `duplicate` is `error?.code === "23505"`. -/
def updateCategory (thrown invalid failed duplicate : Bool) : Nat :=
  if thrown then 500 else if invalid then 400
  else if failed then (if duplicate then 400 else 404) else 200

/-- Handler `DELETE /categories/:id`. -/
def deleteCategory (thrown productsError hasProducts error : Bool) : Nat :=
  if thrown then 500 else if productsError then 500 else if hasProducts then 400
  else if error then 500 else 200

/-- Handler `DELETE /cart/:id`. -/
def removeCartItem (thrown error : Bool) : Nat :=
  if thrown then 500 else if error then 500 else 200

/-- Handler `DELETE /cart`. -/
def deleteCart (thrown error : Bool) : Nat :=
  if thrown then 500 else if error then 500 else 200

/-- Handler `GET /orders`. -/
def getOrders (thrown error : Bool) : Nat :=
  if thrown then 500 else if error then 500 else 200

/-- Handler `PUT /orders/:id/status`. -/
def updateOrderStatus (thrown invalid notFound : Bool) : Nat :=
  if thrown then 500 else if invalid then 400 else if notFound then 404 else 200

/-- Handler `GET /admin/dashboard`. -/
def getDashboard (thrown error : Bool) : Nat :=
  if thrown then 500 else if error then 500 else 200

/-- Handler `GET /admin/orders`. -/
def getAdminOrders (thrown error : Bool) : Nat :=
  if thrown then 500 else if error then 500 else 200

/-- Handler `GET /admin/users`. -/
def getAdminUsers (thrown error : Bool) : Nat :=
  if thrown then 500 else if error then 500 else 200

/-- Handler `GET /reviews/product/:productId`; its `error` is thrown to the `catch`. -/
def getProductReviews (thrown error : Bool) : Nat :=
  if thrown then 500 else if error then 500 else 200

/-- Handler `PUT /reviews/:id`; its `error` is thrown to the `catch`. -/
def updateReview (thrown error notFound : Bool) : Nat :=
  if thrown then 500 else if error then 500 else if notFound then 404 else 200

/-- Handler `DELETE /reviews/:id`; its `error` is thrown to the `catch`. -/
def deleteReview (thrown error : Bool) : Nat :=
  if thrown then 500 else if error then 500 else 200

/-- Handler `GET /wishlist`; its `error` is thrown to the `catch`. -/
def getWishlist (thrown error : Bool) : Nat :=
  if thrown then 500 else if error then 500 else 200

/-- Handler `POST /wishlist`; its `error` is thrown to the `catch`. -/
def addToWishlist (thrown existing error : Bool) : Nat :=
  if thrown then 500 else if existing then 400 else if error then 500 else 201

/-- Handler `DELETE /wishlist/:productId`; its `error` is thrown to the `catch`. -/
def removeFromWishlist (thrown error : Bool) : Nat :=
  if thrown then 500 else if error then 500 else 200

/-- Handler `POST /payments/create-checkout-session`. -/
def createCheckoutSession (thrown : Bool) : Nat :=
  if thrown then 500 else 200

/-- The `catch` block of a handler that is embedded in full (the cart, order and review
handlers): "Server error" or its like, with status 500. -/
def caughtError : Nat := 500

/-- Handler `GET /api/health`. -/
def health : Nat := 200

/-- The error-handling middleware of `server.js`. -/
def errorHandler : Nat := 500

/-- Handler `app.get("*")`: `res.sendFile`, whose failure goes to the error-handling
middleware. -/
def serveFrontend (sendFails : Bool) : Nat :=
  if sendFails then errorHandler else 200

/-- The last middleware of `server.js`, for a route that is not found. -/
def routeNotFound : Nat := 404

/-- The handlers embedded by their status. -/
inductive Route where
  | register | resendVerification | login | refresh | logout | resetPassword | verifyEmail
  | createAdmin | getProfile | updateProfile
  | getProducts | getProduct | createProduct | updateProduct | deleteProduct
  | getCategories | getCategory | createCategory | updateCategory | deleteCategory
  | removeCartItem | deleteCart | getOrders | updateOrderStatus
  | getDashboard | getAdminOrders | getAdminUsers
  | getProductReviews | updateReview | deleteReview
  | getWishlist | addToWishlist | removeFromWishlist
  | createCheckoutSession | caughtError | health | errorHandler | serveFrontend | routeNotFound
  deriving DecidableEq

/-- The status a handler answers with; `thrown` and `c 0`, `c 1`, ... are its conditions in
the order of the source. -/
def Route.status (thrown : Bool) (c : Nat → Bool) : Route → Nat
  | .register => EShop.register thrown (c 0) (c 1)
  | .resendVerification => EShop.resendVerification thrown (c 0) (c 1)
  | .login => EShop.login thrown (c 0) (c 1)
  | .refresh => EShop.refresh thrown (c 0) (c 1)
  | .logout => EShop.logout thrown
  | .resetPassword => EShop.resetPassword thrown (c 0) (c 1) (c 2) (c 3)
  | .verifyEmail => EShop.verifyEmail thrown
  | .createAdmin => EShop.createAdmin thrown (c 0)
  | .getProfile => EShop.getProfile thrown
  | .updateProfile => EShop.updateProfile thrown (c 0) (c 1)
  | .getProducts => EShop.getProducts thrown (c 0)
  | .getProduct => EShop.getProduct thrown (c 0)
  | .createProduct => EShop.createProduct thrown (c 0) (c 1)
  | .updateProduct => EShop.updateProduct thrown (c 0) (c 1)
  | .deleteProduct => EShop.deleteProduct thrown (c 0)
  | .getCategories => EShop.getCategories thrown (c 0)
  | .getCategory => EShop.getCategory thrown (c 0)
  | .createCategory => EShop.createCategory thrown (c 0) (c 1) (c 2)
  | .updateCategory => EShop.updateCategory thrown (c 0) (c 1) (c 2)
  | .deleteCategory => EShop.deleteCategory thrown (c 0) (c 1) (c 2)
  | .removeCartItem => EShop.removeCartItem thrown (c 0)
  | .deleteCart => EShop.deleteCart thrown (c 0)
  | .getOrders => EShop.getOrders thrown (c 0)
  | .updateOrderStatus => EShop.updateOrderStatus thrown (c 0) (c 1)
  | .getDashboard => EShop.getDashboard thrown (c 0)
  | .getAdminOrders => EShop.getAdminOrders thrown (c 0)
  | .getAdminUsers => EShop.getAdminUsers thrown (c 0)
  | .getProductReviews => EShop.getProductReviews thrown (c 0)
  | .updateReview => EShop.updateReview thrown (c 0) (c 1)
  | .deleteReview => EShop.deleteReview thrown (c 0)
  | .getWishlist => EShop.getWishlist thrown (c 0)
  | .addToWishlist => EShop.addToWishlist thrown (c 0) (c 1)
  | .removeFromWishlist => EShop.removeFromWishlist thrown (c 0)
  | .createCheckoutSession => EShop.createCheckoutSession thrown
  | .caughtError => EShop.caughtError
  | .health => EShop.health
  | .errorHandler => EShop.errorHandler
  | .serveFrontend => EShop.serveFrontend (c 0)
  | .routeNotFound => EShop.routeNotFound

/-- Handler `POST /payments/paypal/orders`: the status of the answer of
`ordersController.createOrder`, or of its `ApiError`. -/
def createPayPalOrder (create : Capture) : Nat :=
  match create with
  | .returned statusCode => statusCode
  | .apiError statusCode _ => match statusCode with | some c => if c ≠ 0 then c else 500 | none => 500
  | .thrown => 500

/-- Handlers `POST /payments/api/orders` and `POST /payments/api/orders/:orderID/capture`:
the status of the answer of the PayPal SDK, or 500. -/
def officialPayPalRoute (call : Capture) : Nat :=
  match call with
  | .returned statusCode => statusCode
  | .apiError _ _ => 500
  | .thrown => 500

/-- The statuses the specification lists for failures, and the two the handlers
use for success. -/
def listedStatus (status : Nat) : Prop :=
  status ∈ [200, 201, 400, 401, 403, 404, 500]

instance (status : Nat) : Decidable (listedStatus status) := by
  unfold listedStatus; infer_instance

/-! ## Client and server together: what the interceptor reads from a response -/

/-- Storage that holds an access token and no refresh token. -/
def exNoRefresh : Storage :=
  { accessToken := some "old", refreshToken := none }

/-- The field `code` of a response body as the client reads it
(`error.response?.data?.code`). The bodies `{ message }`, `{ errors }` and
`{ error }` the handlers build have no such field. A body without a message may
be JSON the payment handlers pass on from the payment provider: `relayed` is
its field `code`, if it has one. -/
def bodyCode (relayed : Option String) : Body → Option String
  | .message _ => none
  | .errors => none
  | .error _ => none
  | .data _ => relayed

/-- The error axios hands to the response interceptor when the server answers the
request `config` with `response` (a status outside 2xx). -/
def axiosError (relayed : Option String) (config : Config) (response : Response) : AxiosError :=
  { config := config, status := some response.status,
    code := bodyCode relayed response.body }

/-! ## Server: figures of a product's reviews (`server/routes/reviews.js`) -/

/-- `Math.round`: the integer nearest to `x`; of two integers equally near, the
larger one. -/
def mathRound (x : ℚ) : ℤ :=
  if x - ⌊x⌋ < 1 / 2 then ⌊x⌋ else ⌊x⌋ + 1

/-- The figures `GET /reviews/product/:productId` sends next to the page of reviews. -/
structure ReviewFigures where
  averageRating : ℚ
  totalReviews : Nat

/-- Lines 29-39 of the handler `router.get("/product/:productId")`. `avgData` holds
the `rating` of the rows the second select returns. Numbers are exact. -/
def reviewFigures (avgData : List Int) : ReviewFigures :=
  let averageRating : ℚ :=
    if avgData.length > 0 then
      ((avgData.foldl (fun sum rating => sum + rating) 0 : Int) : ℚ) / (avgData.length : ℚ)
    else 0
  { averageRating := (mathRound (averageRating * 10) : ℚ) / 10,
    totalReviews := avgData.length }

/-! ## Server: pagination (`products.js`, `orders.js`, `reviews.js`, `admin.js`)

`page` and `limit` are read from `req.query`, where a supplied parameter is a
string; the arithmetic on them follows JavaScript's coercions. -/

/-- A destructured query parameter with its default, `const { page = 1 } = req.query`:
the string supplied, or the default number when none is supplied. -/
def queryParam (value : Option String) (default : Int) : JSValue :=
  match value with
  | some s => .string s
  | none => .number default

/-- The two arguments the handlers pass to `.range`:
`const offset = (page - 1) * limit` and `offset + limit - 1`. -/
def pageRange (page limit : JSValue) : JSValue × JSValue :=
  let offset := (page.sub (.number 1)).mul limit
  (offset, (offset.add limit).sub (.number 1))

/-- The range `GET /products` requests (`limit = 12` by default). -/
def productsRange (page limit : Option String) : JSValue × JSValue :=
  pageRange (queryParam page 1) (queryParam limit 12)

/-- The range `GET /orders` requests (`limit = 10` by default). -/
def ordersRange (page limit : Option String) : JSValue × JSValue :=
  pageRange (queryParam page 1) (queryParam limit 10)

/-- The range `GET /reviews/product/:productId` requests (`limit = 10` by default). -/
def reviewsRange (page limit : Option String) : JSValue × JSValue :=
  pageRange (queryParam page 1) (queryParam limit 10)

/-- The range `GET /admin/orders` requests (`limit = 20` by default). -/
def adminOrdersRange (page limit : Option String) : JSValue × JSValue :=
  pageRange (queryParam page 1) (queryParam limit 20)

/-- The range `GET /admin/users` requests (`limit = 20` by default). -/
def adminUsersRange (page limit : Option String) : JSValue × JSValue :=
  pageRange (queryParam page 1) (queryParam limit 20)

/-- One pass of stock decrements over the cart items, stated on the table alone:
for each item in turn, the stock of the item's product is lowered by the
item's quantity, but not below 0. The stock loop of the payment handlers is
compared with it. -/
def decrementedOnce (products : List Product) (items : List PayItem) : List Product :=
  items.foldl (fun ps item => ps.map fun p =>
    if p.id = item.product_id then
      { p with stock_quantity := max 0 (p.stock_quantity - item.quantity) }
    else p) products

/-! ## API client: theorems -/

theorem run_append (st : ClientState) (evs evs' : List Event) :
    run st (evs ++ evs') =
      ((run (run st evs).1 evs').1, (run st evs).2 ++ (run (run st evs).1 evs').2) := by
  induction evs generalizing st with
  | nil => simp [run]
  | cons ev evs ih => simp [run, ih, List.append_assoc]

theorem responseError_queued (st : ClientState) (error : AxiosError)
    (hr : st.isRefreshing = true) (he : isExpiry error) :
    responseError st error =
      ({ st with failedQueue := st.failedQueue ++ [error.config] }, []) := by
  obtain ⟨h1, h2, h3⟩ := he
  simp [responseError, h1, h2, h3, hr]

theorem run_queued (es : List AxiosError) (st : ClientState)
    (hr : st.isRefreshing = true) (he : ∀ x ∈ es, isExpiry x) :
    run st (es.map Event.failure) =
      ({ st with failedQueue := st.failedQueue ++ es.map (·.config) }, []) := by
  induction es generalizing st with
  | nil => simp [run]
  | cons e es ih =>
    have h1 := responseError_queued st e hr (he e (List.mem_cons_self _ _))
    have h2 := ih { st with failedQueue := st.failedQueue ++ [e.config] } hr
      (fun x hx => he x (List.mem_cons_of_mem _ hx))
    simp only [List.map_cons, run, step, h1, h2]
    simp

theorem responseError_leader (storage : Storage) (error : AxiosError)
    (hrt : truthy storage.refreshToken = true) (he : isExpiry error) :
    responseError (idle storage) error =
      ({ isRefreshing := true, failedQueue := [], storage := storage,
         awaiting := [{ error.config with _retry := true }] },
        [Effect.refreshCall (render storage.refreshToken)]) := by
  obtain ⟨h1, h2, h3⟩ := he
  simp [responseError, idle, h1, h2, h3, hrt]

/-- C1 (single flight). From the idle client with a refresh token in storage,
if `N ≥ 1` requests fail with 401 `TOKEN_EXPIRED` (no `_retry` mark) and all
failures are handled before the refresh call settles, then exactly one refresh
call is issued (by the first failure), the other `N - 1` failures issue nothing
and their requests are appended to `failedQueue` in arrival order. -/
theorem single_flight (storage : Storage) (N : Nat) (errs : List AxiosError)
    (hN : 1 ≤ N) (hlen : errs.length = N)
    (hrt : truthy storage.refreshToken = true)
    (hexp : ∀ x ∈ errs, isExpiry x) :
    refreshCalls (run (idle storage) (errs.map Event.failure)).2 = 1
    ∧ (run (idle storage) (errs.map Event.failure)).2
        = [Effect.refreshCall (render storage.refreshToken)]
    ∧ (run (run (idle storage) ((errs.take 1).map Event.failure)).1
        ((errs.drop 1).map Event.failure)).2 = []
    ∧ (run (idle storage) (errs.map Event.failure)).1.failedQueue
        = (errs.drop 1).map (·.config)
    ∧ (run (idle storage) (errs.map Event.failure)).1.failedQueue.length = N - 1
    ∧ (run (idle storage) (errs.map Event.failure)).1.isRefreshing = true := by
  cases errs with
  | nil => simp at hlen; omega
  | cons e es =>
    have h1 := responseError_leader storage e hrt (hexp e (List.mem_cons_self _ _))
    have h2 := run_queued es
      { isRefreshing := true, failedQueue := [], storage := storage,
        awaiting := [{ e.config with _retry := true }] } rfl
      (fun x hx => hexp x (List.mem_cons_of_mem _ hx))
    simp only [List.length_cons] at hlen
    simp only [List.map_cons, List.take_succ_cons, List.take_zero, List.drop_succ_cons,
      List.drop_zero, List.map_nil, run, step, h1, h2]
    simp [refreshCalls]
    omega

/-- Witness for `single_flight`: three expired requests, one refresh call. -/
theorem single_flight_witness :
    refreshCalls (run (idle exStorage)
      ([expired exCart, expired exOrders, expired exWishlist].map Event.failure)).2 = 1 :=
  (single_flight exStorage 3 [expired exCart, expired exOrders, expired exWishlist]
    (by decide) rfl (by decide) (by decide)).1

theorem getHeader_setHeader_same (h : Headers) (k v : String) :
    getHeader (setHeader h k v) k = some v := by
  induction h with
  | nil => simp [setHeader, getHeader]
  | cons p rest ih =>
    obtain ⟨k', v'⟩ := p
    by_cases hk : k' = k
    · simp [setHeader, getHeader, hk]
    · simp [setHeader, getHeader, hk, ih]

theorem getHeader_setHeader_other (h : Headers) (k v k₂ : String) (hne : k₂ ≠ k) :
    getHeader (setHeader h k v) k₂ = getHeader h k₂ := by
  induction h with
  | nil => simp [setHeader, getHeader, hne.symm]
  | cons p rest ih =>
    obtain ⟨k', v'⟩ := p
    by_cases hk : k' = k
    · subst hk
      simp [setHeader, getHeader, hne.symm]
    · by_cases hk₂ : k' = k₂
      · subst hk₂
        simp [setHeader, getHeader, hk]
      · simp [setHeader, getHeader, hk, hk₂, ih]

theorem setHeader_setHeader (h : Headers) (k v w : String) :
    setHeader (setHeader h k v) k w = setHeader h k w := by
  induction h with
  | nil => simp [setHeader]
  | cons p rest ih =>
    obtain ⟨k', v'⟩ := p
    by_cases hk : k' = k
    · simp [setHeader, hk]
    · simp [setHeader, hk, ih]

theorem flatMap_continuation_resolve (q : List Config) (token : Option String) :
    (q.map fun c => Effect.resolve c token).flatMap continuation
      = q.map fun c => Effect.api (resumed c token) := by
  induction q with
  | nil => rfl
  | cons c q ih => simp [List.flatMap_cons, continuation, ih]

theorem flatMap_continuation_reject (q : List Config) (e : AxiosError) :
    (q.map fun c => Effect.reject c e).flatMap continuation
      = q.map fun c => Effect.rejected c e := by
  induction q with
  | nil => rfl
  | cons c q ih => simp [List.flatMap_cons, continuation, ih]

/-- C2 (FIFO release with one credential). For every queue and every token,
`processQueue(null, token)` calls the `resolve` callbacks of the entries in
the order they were enqueued, each with that token, calls no `reject`
callback and empties the queue; each continuation then hands its request to
`api` with `Authorization: Bearer <token>`, in the same order, and with that
token in storage the request interceptor sends it with that very header. -/
theorem processQueue_fifo (st : ClientState) (token : Option String) :
    (processQueue none token st).2 = st.failedQueue.map (fun c => Effect.resolve c token)
    ∧ (∀ c e, Effect.reject c e ∉ (processQueue none token st).2)
    ∧ (processQueue none token st).1.failedQueue = []
    ∧ (processQueue none token st).2.flatMap continuation
        = st.failedQueue.map (fun c => Effect.api (resumed c token))
    ∧ (∀ c, getHeader (resumed c token).headers "Authorization"
        = some ("Bearer " ++ render token))
    ∧ (∀ c storage, storage.accessToken = token →
        getHeader (requestInterceptor storage (resumed c token)).headers "Authorization"
          = some ("Bearer " ++ render token)) := by
  refine ⟨rfl, ?_, rfl, ?_, ?_, ?_⟩
  · intro c e h
    simp [processQueue] at h
  · simp [processQueue, flatMap_continuation_resolve]
  · intro c
    simp [resumed, getHeader_setHeader_same]
  · intro c storage hs
    subst hs
    unfold requestInterceptor
    by_cases ht : truthy storage.accessToken = true
    · simp [ht, getHeader_setHeader_same]
    · simp [ht, resumed, getHeader_setHeader_same]

/-- Witness for `processQueue_fifo`: with token `t` stored, a resumed request
leaves the request interceptor with `Bearer t`. -/
theorem processQueue_fifo_witness :
    getHeader (requestInterceptor { accessToken := some "t", refreshToken := some "r" }
      (resumed exOrders (some "t"))).headers "Authorization"
      = some ("Bearer " ++ render (some "t")) :=
  (processQueue_fifo exRefreshing (some "t")).2.2.2.2.2 exOrders
    { accessToken := some "t", refreshToken := some "r" } rfl

/-- C3 (refresh failure). When the refresh call fails with `e`, every queued
continuation is rejected with `e` in order and none is resolved, the leading
request is rejected with `e`, nothing is replayed, `failedQueue` is empty, both
tokens are removed from storage, `isRefreshing` is false, and the request
interceptor then attaches no `Authorization` header to any request. -/
theorem refresh_failure (st : ClientState) (originalRequest : Config) (e : AxiosError) :
    (refreshRejected st originalRequest e).2
        = st.failedQueue.map (fun c => Effect.reject c e)
          ++ [Effect.rejected originalRequest e]
          ++ st.failedQueue.map (fun c => Effect.rejected c e)
    ∧ (refreshRejected st originalRequest e).1.failedQueue = []
    ∧ (refreshRejected st originalRequest e).1.storage.accessToken = none
    ∧ (refreshRejected st originalRequest e).1.storage.refreshToken = none
    ∧ (refreshRejected st originalRequest e).1.isRefreshing = false
    ∧ (∀ config,
        requestInterceptor (refreshRejected st originalRequest e).1.storage config = config)
    ∧ (∀ rest, st.awaiting = originalRequest :: rest →
        step st (Event.refreshErr e) = refreshRejected { st with awaiting := rest } originalRequest e) := by
  refine ⟨?_, rfl, rfl, rfl, rfl, ?_, ?_⟩
  · simp [refreshRejected, processQueue, flatMap_continuation_reject]
  · intro config
    simp [refreshRejected, processQueue, requestInterceptor, truthy]
  · intro rest h
    simp [step, h]

/-- Witness for `refresh_failure`: the leader's frame is resumed by the failure
of the refresh call and two queued requests are rejected. -/
theorem refresh_failure_witness :
    step exRefreshing (Event.refreshErr exRefreshError)
      = refreshRejected { exRefreshing with awaiting := [] }
          { exCart with _retry := true } exRefreshError :=
  (refresh_failure exRefreshing { exCart with _retry := true } exRefreshError).2.2.2.2.2.2 [] rfl

theorem responseError_passthrough (st : ClientState) (error : AxiosError)
    (h : ¬ (error.status = some 401 ∧ error.code = some "TOKEN_EXPIRED"
      ∧ error.config._retry = false)) :
    responseError st error = (st, [Effect.rejected error.config error]) := by
  unfold responseError
  by_cases h1 : error.status = some 401 ∧ error.config._retry = false
  · by_cases h2 : error.code = some "TOKEN_EXPIRED"
    · exact absurd ⟨h1.1, h2, h1.2⟩ h
    · simp [h1, h2]
  · simp only [h1, if_false]

/-- C4 (after a successful refresh). Once the handler of a refresh that
succeeded with access token `t` has finished, the stored `accessToken` is `t`,
`isRefreshing` is false, and (for a non-empty `t`) every request that passes
through the request interceptor is sent with `Authorization: Bearer t`; a
response error that is not a 401 with code `TOKEN_EXPIRED` is rejected without
any refresh call and without changing the state. -/
theorem refresh_success (st : ClientState) (originalRequest : Config) (t : String) :
    (refreshFulfilled st originalRequest (some t)).1.storage.accessToken = some t
    ∧ (refreshFulfilled st originalRequest (some t)).1.isRefreshing = false
    ∧ (t ≠ "" → ∀ config,
        getHeader (requestInterceptor (refreshFulfilled st originalRequest (some t)).1.storage
          config).headers "Authorization" = some ("Bearer " ++ t))
    ∧ (∀ error, ¬ (error.status = some 401 ∧ error.code = some "TOKEN_EXPIRED") →
        responseError (refreshFulfilled st originalRequest (some t)).1 error
          = ((refreshFulfilled st originalRequest (some t)).1,
              [Effect.rejected error.config error])
        ∧ refreshCalls
            (responseError (refreshFulfilled st originalRequest (some t)).1 error).2 = 0) := by
  refine ⟨rfl, rfl, ?_, ?_⟩
  · intro ht config
    have : truthy (some t) = true := by simp [truthy, ht]
    simp [refreshFulfilled, processQueue, requestInterceptor, this, render, stringOf,
      getHeader_setHeader_same]
  · intro error h
    have hp := responseError_passthrough (refreshFulfilled st originalRequest (some t)).1 error
      (fun hx => h ⟨hx.1, hx.2.1⟩)
    rw [hp]
    exact ⟨rfl, rfl⟩

/-- Witness for `refresh_success`: after a refresh that returned `"new"`, a
request is sent with `Bearer new`. -/
theorem refresh_success_witness :
    getHeader (requestInterceptor
      (refreshFulfilled { exRefreshing with awaiting := [] }
        { exCart with _retry := true } (some "new")).1.storage exWishlist).headers
      "Authorization" = some ("Bearer " ++ "new") :=
  (refresh_success { exRefreshing with awaiting := [] }
    { exCart with _retry := true } "new").2.2.1 (by decide) exWishlist

/-- The leader's replay carries the `_retry` mark: a second expiry failure of it
is rejected with no refresh call and no replay. -/
theorem leader_single_replay (st : ClientState) (error : AxiosError)
    (h : error.config._retry = true) :
    responseError st error = (st, [Effect.rejected error.config error]) :=
  responseError_passthrough st error (fun hx => by simp [h] at hx)

/-- The continuation of a queued request does not set the `_retry` mark. -/
theorem resumed_retry (c : Config) (token : Option String) :
    (resumed c token)._retry = c._retry := rfl

/-- C5 (single replay), evaluated on the code. Requests `/cart` and `/orders`
fail with an expiry; `/cart` leads the refresh and `/orders` is queued. After
the refresh succeeds `/orders` is replayed without a `_retry` mark, so when its
replay fails with an expiry again the interceptor issues a second refresh call
and replays `/orders` a second time. -/
theorem queued_request_replayed_twice :
    refreshCalls (run (idle exStorage)
      [Event.failure (expired exCart),
       Event.failure (expired exOrders),
       Event.refreshOk (some "t1"),
       Event.failure (expired (requestInterceptor { exStorage with accessToken := some "t1" }
         (resumed exOrders (some "t1")))),
       Event.refreshOk (some "t2")]).2 = 2
    ∧ apiCalls "/orders" (run (idle exStorage)
      [Event.failure (expired exCart),
       Event.failure (expired exOrders),
       Event.refreshOk (some "t1"),
       Event.failure (expired (requestInterceptor { exStorage with accessToken := some "t1" }
         (resumed exOrders (some "t1")))),
       Event.refreshOk (some "t2")]).2 = 2 := by
  decide

/-- C6 (request interceptor). With a non-empty `accessToken` stored the
interceptor sets `headers.Authorization` to `"Bearer "` followed by the token
and changes no other header; with none stored (or an empty one) it returns the
config as it is; `url`, `method`, `data` and `_retry` are never changed. -/
theorem requestInterceptor_spec (storage : Storage) (config : Config) :
    (∀ t, storage.accessToken = some t → t ≠ "" →
        (requestInterceptor storage config).headers
          = setHeader config.headers "Authorization" ("Bearer " ++ t)
        ∧ getHeader (requestInterceptor storage config).headers "Authorization"
          = some ("Bearer " ++ t)
        ∧ ∀ k, k ≠ "Authorization" →
          getHeader (requestInterceptor storage config).headers k = getHeader config.headers k)
    ∧ (storage.accessToken = none → requestInterceptor storage config = config)
    ∧ (storage.accessToken = some "" → requestInterceptor storage config = config)
    ∧ (requestInterceptor storage config).url = config.url
    ∧ (requestInterceptor storage config).method = config.method
    ∧ (requestInterceptor storage config).data = config.data
    ∧ (requestInterceptor storage config)._retry = config._retry := by
  refine ⟨?_, ?_, ?_, ?_, ?_, ?_, ?_⟩
  · intro t hs ht
    have : truthy (some t) = true := by simp [truthy, ht]
    have hr : requestInterceptor storage config
        = { config with headers := setHeader config.headers "Authorization" ("Bearer " ++ t) } := by
      simp [requestInterceptor, hs, this, render]
    rw [hr]
    exact ⟨rfl, getHeader_setHeader_same _ _ _,
      fun k hk => getHeader_setHeader_other _ _ _ _ hk⟩
  · intro hs
    simp [requestInterceptor, hs, truthy]
  · intro hs
    simp [requestInterceptor, hs, truthy]
  all_goals
    simp only [requestInterceptor]
    split <;> rfl

/-- Witness for `requestInterceptor_spec`: token `abc` stored, the request
leaves with `Bearer abc` and keeps its `Content-Type`. -/
theorem requestInterceptor_spec_witness :
    (requestInterceptor { accessToken := some "abc", refreshToken := none } exCart).headers
      = setHeader exCart.headers "Authorization" ("Bearer " ++ "abc") :=
  ((requestInterceptor_spec { accessToken := some "abc", refreshToken := none } exCart).1
    "abc" rfl (by decide)).1

/-! ## Server: cart theorems -/

theorem single_eq_some {α : Type} (l : List α) (x : α) (h : single l = some x) : l = [x] := by
  match l, h with
  | [y], h => simp [single] at h; simp [h]

theorem single_mem_filter {α : Type} (l : List α) (p : α → Bool) (x : α)
    (h : single (l.filter p) = some x) : x ∈ l ∧ p x = true := by
  have hx : x ∈ l.filter p := by rw [single_eq_some _ _ h]; simp
  exact List.mem_filter.mp hx

theorem setCartQuantity_onePerPair (cart : List CartRow) (id : Nat) (q : Int)
    (h : onePerPair cart) : onePerPair (setCartQuantity cart id q) := by
  unfold onePerPair setCartQuantity at *
  rw [List.pairwise_map]
  refine h.imp ?_
  intro a b hab
  by_cases ha : a.id = id <;> by_cases hb : b.id = id <;> simpa [ha, hb] using hab

theorem length_le_one_of_pairwise {α : Type} (R : α → α → Prop) :
    ∀ l : List α, l.Pairwise R → (∀ a ∈ l, ∀ b ∈ l, ¬ R a b) → l.length ≤ 1
  | [], _, _ => by simp
  | [_], _, _ => by simp
  | a :: b :: _, hp, hn =>
    absurd ((List.pairwise_cons.mp hp).1 b (by simp)) (hn a (by simp) b (by simp))

theorem filter_length_le_one (cart : List CartRow) (u p : Nat) (h : onePerPair cart) :
    (cart.filter fun row => row.user_id = u ∧ row.product_id = p).length ≤ 1 := by
  apply length_le_one_of_pairwise _ _ (List.Pairwise.sublist (List.filter_sublist _) h)
  intro a ha b hb
  have ha' := (List.mem_filter.mp ha).2
  have hb' := (List.mem_filter.mp hb).2
  simp only [decide_eq_true_eq] at ha' hb'
  exact fun hn => hn ⟨ha'.1.trans hb'.1.symm, ha'.2.trans hb'.2.symm⟩

theorem filter_eq_nil_of_single_none {α : Type} (l : List α) (h1 : single l = none)
    (h2 : l.length ≤ 1) : l = [] := by
  match l, h1, h2 with
  | [], _, _ => rfl
  | [_], h1, _ => simp [single] at h1
  | _ :: _ :: _, _, h2 => simp at h2

/-- When the lookup of the existing row does not fail, `POST /cart` keeps at
most one cart row per user and product. -/
theorem addToCart_onePerPair (db : DB) (f : CartFaults) (u p : Nat) (q : JSValue)
    (hf : f.selectCart = false) (h : onePerPair db.cart) :
    onePerPair (addToCart db f u p q).db.cart := by
  unfold addToCart
  split
  · exact h
  · simp only []
    split
    · exact h
    · split
      · exact h
      · split
        · exact h
        · simp only [hf, Bool.false_eq_true, if_false]
          split
          · split
            · exact h
            · split
              · exact h
              · exact setCartQuantity_onePerPair _ _ _ h
          · rename_i hnone
            split
            · exact h
            · have hlen := filter_length_le_one db.cart u p h
              have hnil := filter_eq_nil_of_single_none _ hnone hlen
              unfold onePerPair at *
              simp only []
              rw [List.pairwise_append]
              refine ⟨h, by simp, ?_⟩
              intro a ha b hb
              simp only [List.mem_singleton] at hb
              subst hb
              simp only []
              intro hab
              have : a ∈ db.cart.filter fun row => row.user_id = u ∧ row.product_id = p := by
                apply List.mem_filter.mpr
                exact ⟨ha, by simpa using hab⟩
              rw [hnil] at this
              simp at this

/-- C8 (one cart row per user and product), evaluated on the code. User 1 has
one mug (product 1) in the cart and posts two more; the lookup of the existing
row fails, the handler ignores `existingError`, takes the row as absent and
inserts a second row for the same user and product, answering 201. -/
theorem addToCart_duplicates_on_failed_lookup :
    onePerPair exDB.cart
    ∧ (addToCart exDB { CartFaults.none with selectCart := true } 1 1
        (.number 2)).response.status = 201
    ∧ (addToCart exDB { CartFaults.none with selectCart := true } 1 1 (.number 2)).db.cart
        = [{ id := 1, user_id := 1, product_id := 1, quantity := 1 },
           { id := 2, user_id := 1, product_id := 2, quantity := 2 },
           { id := 3, user_id := 1, product_id := 1, quantity := 2 }]
    ∧ ¬ onePerPair
        (addToCart exDB { CartFaults.none with selectCart := true } 1 1 (.number 2)).db.cart := by
  decide

theorem toInteger_toNumber (v : JSValue) (n : Int) (h : toInteger v = some n) :
    v.toNumber = some n := by
  cases v with
  | number m => simpa [toInteger, JSValue.toNumber] using h
  | NaN => simp [toInteger] at h
  | string s =>
    simp only [toInteger] at h
    split_ifs at h
    exact h

/-- A value that passed the stock test and that the integer column accepts is
stored as an integer that is at most the stock. -/
theorem le_of_not_ltNumber (stock : Int) (v : JSValue) (n : Int)
    (h : ¬ ltNumber stock v = true) (hn : toInteger v = some n) : n ≤ stock := by
  have hv := toInteger_toNumber v n hn
  simp only [ltNumber, hv, decide_eq_true_eq, not_lt] at h
  exact h

theorem stored_of_match (failed : Bool) (v : JSValue) (stored : Int)
    (h : (if failed = true then none else toInteger v) = some stored) :
    toInteger v = some stored := by
  cases failed with
  | true => simp at h
  | false => simpa using h

/-- What a successful `POST /cart` writes: with an existing row (status 200)
the quantity of that row becomes the integer stored for the old quantity `+`
the requested one (their sum when the request carries a number) and no row is
added; with none (status 201) exactly one row with the requested quantity is
appended; in both cases the written quantity is at most the stock read. -/
theorem addToCart_success (db : DB) (f : CartFaults) (u p : Nat) (q : JSValue) :
    ((addToCart db f u p q).response.status = 200 →
      ∃ product existing stored, product ∈ db.products ∧ product.id = p ∧ existing ∈ db.cart
        ∧ existing.user_id = u ∧ existing.product_id = p
        ∧ toInteger ((JSValue.number existing.quantity).add q) = some stored
        ∧ stored ≤ product.stock_quantity
        ∧ (addToCart db f u p q).db
            = { db with cart := setCartQuantity db.cart existing.id stored })
    ∧ ((addToCart db f u p q).response.status = 201 →
      ∃ product stored, product ∈ db.products ∧ product.id = p
        ∧ toInteger q = some stored ∧ stored ≤ product.stock_quantity
        ∧ (addToCart db f u p q).db
            = { db with cart := db.cart ++
                [{ id := nextId (db.cart.map (·.id)), user_id := u, product_id := p,
                   quantity := stored }] })
    ∧ ((addToCart db f u p q).response.status ≠ 200 →
        (addToCart db f u p q).response.status ≠ 201 → (addToCart db f u p q).db = db) := by
  unfold addToCart
  split
  · simp
  · simp only []
    split
    · simp
    · rename_i product hprod
      split
      · simp
      · split
        · simp
        · rename_i hstock
          have hp : product ∈ db.products ∧ product.id = p := by
            by_cases hsp : f.selectProduct = true
            · simp [hsp] at hprod
            · simp only [hsp, if_false] at hprod
              have := single_mem_filter _ _ _ hprod
              simpa using this
          split
          · rename_i existing hex
            have he : existing ∈ db.cart ∧ existing.user_id = u ∧ existing.product_id = p := by
              by_cases hsc : f.selectCart = true
              · simp [hsc] at hex
              · simp only [hsc, if_false] at hex
                have := single_mem_filter _ _ _ hex
                simpa using this
            split
            · simp
            · rename_i hnew
              split
              · simp
              · rename_i stored hst
                have hs := stored_of_match _ _ _ hst
                refine ⟨fun _ => ⟨product, existing, stored, hp.1, hp.2, he.1, he.2.1, he.2.2,
                  hs, le_of_not_ltNumber _ _ _ hnew hs, rfl⟩, by simp, by simp⟩
          · split
            · simp
            · rename_i stored hst
              have hs := stored_of_match _ _ _ hst
              refine ⟨by simp, fun _ => ⟨product, stored, hp.1, hp.2, hs,
                le_of_not_ltNumber _ _ _ hstock hs, rfl⟩, by simp⟩

/-- The stock test of `POST /cart`: when the product is read and active and
the quantity asked for, or the quantity the existing row would get, exceeds
the stock, the answer is 400 "Insufficient stock" and nothing is written. -/
theorem addToCart_insufficient (db : DB) (f : CartFaults) (u p : Nat) (q : JSValue)
    (product : Product) (hq : isIntMin1 q = true) (hf : f.selectProduct = false)
    (hprod : single (db.products.filter fun x => x.id = p) = some product)
    (hact : product.is_active = true) :
    (∀ m, q.toNumber = some m → product.stock_quantity < m →
      (addToCart db f u p q).response = ⟨400, .message "Insufficient stock"⟩
      ∧ (addToCart db f u p q).db = db)
    ∧ (∀ existing m, f.selectCart = false →
        single (db.cart.filter fun row => row.user_id = u ∧ row.product_id = p) = some existing →
        ((JSValue.number existing.quantity).add q).toNumber = some m →
        product.stock_quantity < m →
        (addToCart db f u p q).response = ⟨400, .message "Insufficient stock"⟩
        ∧ (addToCart db f u p q).db = db) := by
  constructor
  · intro m hm hlt
    have h1 : ltNumber product.stock_quantity q = true := by simp [ltNumber, hm, hlt]
    simp [addToCart, hq, hf, hprod, hact, h1]
  · intro existing m hsc hex hm hlt
    simp only [Bool.decide_and] at hex
    have h2 : ltNumber product.stock_quantity ((JSValue.number existing.quantity).add q)
        = true := by simp [ltNumber, hm, hlt]
    by_cases h1 : ltNumber product.stock_quantity q = true
    · simp [addToCart, hq, hf, hprod, hact, h1]
    · simp [addToCart, hq, hf, hprod, hact, h1, hsc, hex, h2]

/-- What `PUT /cart/:id` writes: on success (status 200) the integer stored for
the quantity asked for, which is at most the stock of the row's product;
otherwise nothing. -/
theorem updateCartItem_success (db : DB) (f : CartFaults) (u id : Nat) (q : JSValue) :
    ((updateCartItem db f u id q).response.status = 200 →
      ∃ products row stored, products ∈ db.products ∧ row ∈ db.cart ∧ row.id = id
        ∧ row.user_id = u ∧ products.id = row.product_id
        ∧ toInteger q = some stored ∧ stored ≤ products.stock_quantity
        ∧ (updateCartItem db f u id q).db
            = { db with cart := setCartQuantity db.cart id stored })
    ∧ ((updateCartItem db f u id q).response.status ≠ 200 →
        (updateCartItem db f u id q).db = db) := by
  unfold updateCartItem
  split
  · simp
  · simp only []
    split
    · simp
    · rename_i cartItem hitem
      split
      · simp
      · rename_i products hproducts
        split
        · simp
        · split
          · simp
          · rename_i hstock
            split
            · simp
            · rename_i stored hst
              have hs := stored_of_match _ _ _ hst
              refine ⟨fun _ => ?_, by simp⟩
              by_cases hsc : f.selectCart = true
              · simp [hsc] at hitem
              · simp only [hsc, if_false] at hitem
                have hl := single_eq_some _ _ hitem
                have hmem : cartItem ∈
                    (db.cart.filter fun row => row.id = id ∧ row.user_id = u).map
                      (withProduct db) := by
                  rw [hl]; simp
                obtain ⟨row, hrow, hrow'⟩ := List.mem_map.mp hmem
                have hr := List.mem_filter.mp hrow
                have hr2 := hr.2
                simp only [decide_eq_true_eq] at hr2
                subst hrow'
                simp only [withProduct] at hproducts
                have hfind := List.find?_some hproducts
                simp only [decide_eq_true_eq] at hfind
                exact ⟨products, row, stored, List.mem_of_find?_eq_some hproducts, hr.1,
                  hr2.1, hr2.2, hfind, hs, le_of_not_ltNumber _ _ _ hstock hs, rfl⟩

/-- The stock test of `PUT /cart/:id`: when the row is read, its product is
active and the quantity asked for exceeds the stock, the answer is 400
"Insufficient stock" and nothing is written. -/
theorem updateCartItem_insufficient (db : DB) (f : CartFaults) (u id : Nat) (q : JSValue)
    (cartItem : CartItem) (products : Product) (m : Int) (hq : isIntMin1 q = true)
    (hf : f.selectCart = false)
    (hitem : single ((db.cart.filter fun row => row.id = id ∧ row.user_id = u).map
      (withProduct db)) = some cartItem)
    (hprod : cartItem.products = some products) (hact : products.is_active = true)
    (hm : q.toNumber = some m) (hlt : products.stock_quantity < m) :
    (updateCartItem db f u id q).response = ⟨400, .message "Insufficient stock"⟩
    ∧ (updateCartItem db f u id q).db = db := by
  simp only [Bool.decide_and] at hitem
  have h1 : ltNumber products.stock_quantity q = true := by simp [ltNumber, hm, hlt]
  simp [updateCartItem, hq, hf, hitem, hprod, hact, h1]

/-! ## Numbers: evaluating `binary64` -/

theorem roundHalfEven_eq (m : ℚ) (k : ℤ) (h1 : (k : ℚ) - 1 / 2 < m) (h2 : m < k + 1 / 2) :
    roundHalfEven m = k := by
  unfold roundHalfEven
  simp only []
  by_cases hm : (k : ℚ) ≤ m
  · have hf : ⌊m⌋ = k := by
      rw [Int.floor_eq_iff]
      constructor <;> linarith
    rw [hf, if_pos (by linarith)]
  · have hf : ⌊m⌋ = k - 1 := by
      rw [Int.floor_eq_iff]
      push_cast
      constructor <;> linarith
    rw [hf, if_neg (by push_cast; linarith), if_pos (by push_cast; linarith)]
    omega

theorem roundHalfEven_tie_even (m : ℚ) (f : ℤ) (hm : m = f + 1 / 2) (he : f % 2 = 0) :
    roundHalfEven m = f := by
  unfold roundHalfEven
  simp only []
  have hf : ⌊m⌋ = f := by
    rw [Int.floor_eq_iff]
    constructor <;> linarith
  rw [hf, if_neg (by linarith), if_neg (by linarith), if_pos he]

theorem roundHalfEven_tie_odd (m : ℚ) (f : ℤ) (hm : m = f + 1 / 2) (ho : f % 2 = 1) :
    roundHalfEven m = f + 1 := by
  unfold roundHalfEven
  simp only []
  have hf : ⌊m⌋ = f := by
    rw [Int.floor_eq_iff]
    constructor <;> linarith
  rw [hf, if_neg (by linarith), if_neg (by linarith), if_neg (by omega)]

/-- The value of `binary64` at a positive number, from its binary exponent and
its significand of 53 bits. -/
theorem binary64_eval (x : ℚ) (e k : ℤ) (hx : 0 < x) (hlo : (2 : ℚ) ^ (e + 52) ≤ x)
    (hhi : x < (2 : ℚ) ^ (e + 52 + 1)) (hr : roundHalfEven (x / 2 ^ e) = k) :
    binary64 x = k * 2 ^ e := by
  have hlog : Int.log 2 x = e + 52 := by
    apply le_antisymm
    · have := (Int.lt_zpow_iff_log_lt (b := 2) (by norm_num) hx).mp (by exact_mod_cast hhi)
      omega
    · exact (Int.zpow_le_iff_le_log (b := 2) (by norm_num) hx).mp (by exact_mod_cast hlo)
  unfold binary64
  simp only [hx.ne', if_false, not_lt.mpr hx.le, abs_of_pos hx, hlog]
  have he : e + 52 - 52 = e := by omega
  rw [he, hr]
  ring

theorem binary64_ten : binary64 (10) = 10 := by
  rw [binary64_eval (10) (-49) 5629499534213120 (by norm_num) (by norm_num) (by norm_num)
    (roundHalfEven_eq _ 5629499534213120 (by norm_num) (by norm_num))]
  norm_num

theorem binary64_forty : binary64 (40) = 40 := by
  rw [binary64_eval (40) (-47) 5629499534213120 (by norm_num) (by norm_num) (by norm_num)
    (roundHalfEven_eq _ 5629499534213120 (by norm_num) (by norm_num))]
  norm_num

theorem binary64_fifty : binary64 (50) = 50 := by
  rw [binary64_eval (50) (-47) 7036874417766400 (by norm_num) (by norm_num) (by norm_num)
    (roundHalfEven_eq _ 7036874417766400 (by norm_num) (by norm_num))]
  norm_num

/-! ## Server: order-creation theorems -/

theorem validateCart_ok (fl : ℚ → ℚ) (items : List CartItem) (t total : ℚ)
    (h : validateCart fl items t = .ok total) :
    total = items.foldl
      (fun sum item => fl (sum + fl (unitPrice item * (item.quantity : ℚ)))) t
    ∧ ∀ item ∈ items, ∃ products, item.products = some products ∧ products.is_active = true
        ∧ item.quantity ≤ products.stock_quantity := by
  induction items generalizing t with
  | nil =>
    simp [validateCart] at h
    simp [h]
  | cons item rest ih =>
    unfold validateCart at h
    split at h
    · simp at h
    · rename_i products hp
      split at h
      · simp at h
      · rename_i hact
        split at h
        · simp at h
        · rename_i hstock
          obtain ⟨h1, h2⟩ := ih _ h
          constructor
          · rw [h1]
            simp [unitPrice, hp]
          · intro x hx
            rcases List.mem_cons.mp hx with hx | hx
            · subst hx
              exact ⟨products, hp, by simpa using hact, not_lt.mp hstock⟩
            · exact h2 x hx

theorem validateCart_error (fl : ℚ → ℚ) (items : List CartItem) (t : ℚ) (r : Response)
    (h : validateCart fl items t = .error r) : r.status = 400 ∨ r.status = 500 := by
  induction items generalizing t with
  | nil => simp [validateCart] at h
  | cons item rest ih =>
    unfold validateCart at h
    split at h
    · simp at h; simp [← h]
    · split at h
      · simp at h; simp [← h]
      · split at h
        · simp at h; simp [← h]
        · exact ih _ h

theorem createOrderItems_error (f : OrderFaults) (orderId : Nat) (items : List CartItem) :
    ∀ (i : Nat) (db : DB) (r : Response),
      (createOrderItems f orderId i items db).2.2 = some r → r.status = 500 := by
  induction items with
  | nil => intro i db r h; simp [createOrderItems] at h
  | cons item rest ih =>
    intro i db r h
    unfold createOrderItems at h
    split at h
    · simp at h; simp [← h]
    · simp only [] at h
      split at h
      · simp at h; simp [← h]
      · split at h
        · simp at h; simp [← h]
        · exact ih _ _ _ h

theorem createOrderItems_done (f : OrderFaults) (orderId : Nat) (items : List CartItem) :
    ∀ (i : Nat) (db : DB),
      (createOrderItems f orderId i items db).2.2 = none →
      (createOrderItems f orderId i items db).1.order_items
          = db.order_items ++ items.map (orderItemOf orderId)
      ∧ (createOrderItems f orderId i items db).2.1 = items.flatMap itemOps
      ∧ (createOrderItems f orderId i items db).1.cart = db.cart
      ∧ (createOrderItems f orderId i items db).1.orders = db.orders
      ∧ (createOrderItems f orderId i items db).1.addresses = db.addresses := by
  induction items with
  | nil => intro i db _; simp [createOrderItems]
  | cons item rest ih =>
    intro i db h
    unfold createOrderItems at h ⊢
    split
    · rename_i hp; simp [hp] at h
    · rename_i products hp
      simp only [hp] at h
      simp only [] at h ⊢
      split
      · rename_i h1; simp [h1] at h
      · rename_i h1
        simp only [h1, if_false] at h
        split
        · rename_i h2; simp [h2] at h
        · rename_i h2
          simp only [h2, if_false] at h
          obtain ⟨a, b, c, d, e⟩ := ih _ _ h
          refine ⟨?_, ?_, ?_, ?_, ?_⟩
          · rw [a]; simp [orderItemOf, unitPrice, hp]
          · rw [b]; simp [itemOps]
          · rw [c]
          · rw [d]
          · rw [e]

/-- Order creation writes nothing unless the validation loop accepted the cart. -/
theorem createOrder_writes_only_validated (fl : ℚ → ℚ)
    (db : DB) (f : OrderFaults) (u : Nat) (valid : Bool)
    (a : ShippingAddress) :
    (createOrder fl db f u valid a).db = db
    ∨ ∃ total, validateCart fl (selectCart db u) 0 = .ok total := by
  unfold createOrder
  split
  · exact Or.inl rfl
  · simp only []
    split
    · exact Or.inl rfl
    · split
      · exact Or.inl rfl
      · rename_i total htotal
        exact Or.inr ⟨total, htotal⟩

/-- Order creation once the cart is read and validated and the address and the
order are inserted: what remains is the loop over the items and the cart
delete. -/
theorem createOrder_after_inserts (fl : ℚ → ℚ) (db : DB) (f : OrderFaults) (u : Nat) (valid : Bool)
    (a : ShippingAddress) (total : ℚ) (hv : valid = true) (hs : f.selectCart = false)
    (hne : selectCart db u ≠ []) (ht : validateCart fl (selectCart db u) 0 = .ok total)
    (h1 : f.insertAddress = false) (h2 : f.insertOrder = false) :
    createOrder fl db f u valid a =
      match createOrderItems f (newOrder db u a total).id 0 (selectCart db u)
          (withOrder db u a total) with
      | (db', t4, some response) =>
        ⟨response, db',
          [⟨.select, .cart, none⟩, ⟨.insert, .addresses, none⟩, ⟨.insert, .orders, none⟩] ++ t4⟩
      | (db', t4, none) =>
        ⟨⟨201, .message "Order created successfully"⟩, clearCart db' f.deleteCart u,
          [⟨.select, .cart, none⟩, ⟨.insert, .addresses, none⟩, ⟨.insert, .orders, none⟩]
            ++ t4 ++ [⟨.delete, .cart, none⟩]⟩ := by
  simp only [createOrder, hv, hs, ht, h1, h2, newOrder, withOrder]
  simp [hne]

/-- A successful order creation (status 201): the cart was validated, both
inserts and the whole loop succeeded, and the calls were issued in the order
cart read, address insert, order insert, the loop's calls, cart delete. -/
theorem createOrder_created (fl : ℚ → ℚ) (db : DB) (f : OrderFaults) (u : Nat) (valid : Bool)
    (a : ShippingAddress) (h : (createOrder fl db f u valid a).response.status = 201) :
    ∃ total, validateCart fl (selectCart db u) 0 = .ok total
      ∧ (createOrderItems f (newOrder db u a total).id 0 (selectCart db u)
          (withOrder db u a total)).2.2 = none
      ∧ (createOrder fl db f u valid a).db
          = clearCart (createOrderItems f (newOrder db u a total).id 0 (selectCart db u)
              (withOrder db u a total)).1 f.deleteCart u
      ∧ (createOrder fl db f u valid a).trace
          = [⟨.select, .cart, none⟩, ⟨.insert, .addresses, none⟩, ⟨.insert, .orders, none⟩]
            ++ (createOrderItems f (newOrder db u a total).id 0 (selectCart db u)
                (withOrder db u a total)).2.1
            ++ [⟨.delete, .cart, none⟩] := by
  by_cases hv : valid = true
  swap
  · simp [createOrder, hv] at h
  by_cases hs : f.selectCart = true
  · simp [createOrder, hv, hs] at h
  by_cases hne : selectCart db u = []
  · simp [createOrder, hv, hne] at h
  cases ht : validateCart fl (selectCart db u) 0 with
  | error r =>
    have := validateCart_error fl _ _ _ ht
    simp [createOrder, hv, hs, hne, ht] at h
    omega
  | ok total =>
    by_cases h1 : f.insertAddress = true
    · simp [createOrder, hv, hs, hne, ht, h1] at h
    by_cases h2 : f.insertOrder = true
    · simp [createOrder, hv, hs, hne, ht, h1, h2] at h
    have hs' : f.selectCart = false := by simpa using hs
    have h1' : f.insertAddress = false := by simpa using h1
    have h2' : f.insertOrder = false := by simpa using h2
    have heq := createOrder_after_inserts fl db f u valid a total hv hs' hne ht h1' h2'
    rw [heq] at h ⊢
    refine ⟨total, rfl, ?_⟩
    rcases hr : createOrderItems f (newOrder db u a total).id 0 (selectCart db u)
        (withOrder db u a total) with ⟨db', t4, r⟩
    rw [hr] at h
    cases r with
    | some r =>
      have := createOrderItems_error f _ _ _ _ r (by rw [hr])
      simp only [] at h
      omega
    | none => exact ⟨rfl, rfl, rfl⟩

/-! ## Server: payment theorems -/

theorem clearCart_keeps (db : DB) (failed : Bool) (u : Nat) :
    (clearCart db failed u).orders = db.orders
    ∧ (clearCart db failed u).order_items = db.order_items
    ∧ (clearCart db failed u).addresses = db.addresses
    ∧ (clearCart db failed u).products = db.products := by
  unfold clearCart
  split <;> exact ⟨rfl, rfl, rfl, rfl⟩

theorem lowerOne_keeps (f : OrderFaults) (i : Nat) (item : PayItem) (db : DB) :
    (lowerOne f i item db).1.orders = db.orders
    ∧ (lowerOne f i item db).1.order_items = db.order_items
    ∧ (lowerOne f i item db).1.addresses = db.addresses
    ∧ (lowerOne f i item db).1.cart = db.cart := by
  unfold lowerOne
  simp only []
  split
  · exact ⟨rfl, rfl, rfl, rfl⟩
  · split <;> exact ⟨rfl, rfl, rfl, rfl⟩

theorem lowerStock_keeps (f : OrderFaults) (items : List PayItem) :
    ∀ (i : Nat) (db : DB),
      (lowerStock f i items db).1.orders = db.orders
      ∧ (lowerStock f i items db).1.order_items = db.order_items
      ∧ (lowerStock f i items db).1.addresses = db.addresses
      ∧ (lowerStock f i items db).1.cart = db.cart := by
  induction items with
  | nil => intro i db; simp [lowerStock]
  | cons item rest ih =>
    intro i db
    obtain ⟨a, b, c, d⟩ := ih (i + 1) (lowerOne f i item db).1
    obtain ⟨a', b', c', d'⟩ := lowerOne_keeps f i item db
    simp only [lowerStock]
    exact ⟨a.trans a', b.trans b', c.trans c', d.trans d'⟩

/-- The order the shared part of the payment handlers inserts, once the address
and the order inserts succeed; with the item insert succeeding too, the order
items it inserts. -/
theorem recordPaidOrder_rows (db : DB) (f : OrderFaults) (u : Nat) (subtotal : ℚ)
    (method intent : String) (items : List PayItem) (a : ShippingAddress)
    (h1 : f.insertAddress = false) (h2 : f.insertOrder = false) :
    (recordPaidOrder db f u subtotal method intent items a).1.orders
        = db.orders ++ [paidOrder db u a subtotal method intent]
    ∧ (f.insertOrderItem 0 = false →
        (recordPaidOrder db f u subtotal method intent items a).1.order_items
          = db.order_items ++ items.map (paidItemOf (paidOrder db u a subtotal method intent).id)
        ∧ (recordPaidOrder db f u subtotal method intent items a).2.2
          = some (paidOrder db u a subtotal method intent).id) := by
  cases h3 : f.insertOrderItem 0 with
  | true =>
    simp only [recordPaidOrder, h1, h2, h3, Bool.false_eq_true, if_false, if_true]
    exact ⟨rfl, fun h => by simp at h⟩
  | false =>
    simp only [recordPaidOrder, h1, h2, h3, Bool.false_eq_true, if_false]
    refine ⟨?_, fun _ => ⟨?_, rfl⟩⟩
    · rw [(clearCart_keeps _ _ _).1, (lowerStock_keeps f items 0 _).1]
      rfl
    · rw [(clearCart_keeps _ _ _).2.1, (lowerStock_keeps f items 0 _).2.1]
      rfl

theorem capturePayPalOrder_db (fl : ℚ → ℚ) (db : DB) (f : OrderFaults) (u : Nat)
    (orderID : String) (items : List PayItem) (a : ShippingAddress) :
    (capturePayPalOrder fl db f (.returned 201) u orderID items a).db
      = (recordPaidOrder db f u (payTotal fl (captureSubtotal fl items))
          "paypal" orderID items a).1 := by
  simp only [capturePayPalOrder, if_true, captureSubtotal]
  split <;> simp_all

theorem sessionStatus_db (fl : ℚ → ℚ) (db : DB) (f : OrderFaults) (session : Session)
    (hc : session.status = "complete") (hp : session.payment_status = "paid")
    (hex : (if f.selectOrder then none
      else single (db.orders.filter fun o => o.payment_intent_id = some session.payment_intent))
      = none) :
    (sessionStatus fl db f (some session)).db
      = (recordPaidOrder db f session.user_id
          (payTotal fl (sessionSubtotal fl session.cart_items))
          "stripe" session.payment_intent session.cart_items session.shipping_address).1 := by
  simp only [sessionStatus, hc, hp, and_self, if_true, hex, sessionSubtotal]
  split <;> simp_all

theorem le_foldl_max (l : List Nat) :
    ∀ acc : Nat, acc ≤ l.foldl max acc ∧ ∀ x ∈ l, x ≤ l.foldl max acc := by
  induction l with
  | nil => intro acc; simp
  | cons y l ih =>
    intro acc
    obtain ⟨h1, h2⟩ := ih (max acc y)
    simp only [List.foldl_cons]
    refine ⟨le_trans (le_max_left _ _) h1, ?_⟩
    intro x hx
    rcases List.mem_cons.mp hx with hx | hx
    · subst hx; exact le_trans (le_max_right _ _) h1
    · exact h2 x hx

/-- The identifier given to a new row is not in use. -/
theorem lt_nextId (ids : List Nat) (x : Nat) (hx : x ∈ ids) : x < nextId ids := by
  have := (le_foldl_max ids 0).2 x hx
  unfold nextId
  omega

theorem itemsTotal_fresh (fl : ℚ → ℚ) (db : DB) (old new : List OrderItem) (orderId : Nat)
    (h : db.order_items = old ++ new) (hold : ∀ it ∈ old, it.order_id ≠ orderId)
    (hnew : ∀ it ∈ new, it.order_id = orderId) :
    itemsTotal fl db orderId
      = new.foldl (fun sum it => fl (sum + fl (it.price * (it.quantity : ℚ)))) 0 := by
  unfold itemsTotal
  rw [h, List.filter_append]
  have h1 : old.filter (fun it => it.order_id = orderId) = [] := by
    rw [List.filter_eq_nil_iff]
    intro it hit
    simpa using hold it hit
  have h2 : new.filter (fun it => it.order_id = orderId) = new := by
    rw [List.filter_eq_self]
    intro it hit
    simpa using hnew it hit
  rw [h1, h2, List.nil_append]

/-- One item at 1.40 and three at 16.20 captured through PayPal, in binary64
arithmetic: the subtotal is 49.99999999999999, below 50, so 9.99 of shipping
is charged and the total is written as 63.99. In exact arithmetic the
subtotal is 50, no shipping is charged and the total is 54. -/
theorem payTotal_rounding :
    captureSubtotal binary64 exRoundedItems = 7036874417766399 / 140737488355328
    ∧ toFixed2 (payTotal binary64 (captureSubtotal binary64 exRoundedItems)) = 6399 / 100
    ∧ toFixed2 (payTotal id (7 / 5 * 1 + 81 / 5 * 3)) = 54 := by
  have p1 : binary64 (7 / 5) = 3152519739159347 / 2251799813685248 := by
    rw [binary64_eval (7 / 5) (-52) 6305039478318694 (by norm_num) (by norm_num) (by norm_num)
      (roundHalfEven_eq _ 6305039478318694 (by norm_num) (by norm_num))]
    norm_num
  have p2 : binary64 (81 / 5) = 4559894622712627 / 281474976710656 := by
    rw [binary64_eval (81 / 5) (-48) 4559894622712627 (by norm_num) (by norm_num) (by norm_num)
      (roundHalfEven_eq _ 4559894622712627 (by norm_num) (by norm_num))]
    norm_num
  have a1 : binary64 (3152519739159347 / 2251799813685248) =
      3152519739159347 / 2251799813685248 := by
    rw [binary64_eval (3152519739159347 / 2251799813685248) (-52) 6305039478318694
      (by norm_num) (by norm_num) (by norm_num)
      (roundHalfEven_eq _ 6305039478318694 (by norm_num) (by norm_num))]
    norm_num
  have a2 : binary64 (13679683868137881 / 281474976710656) = 1709960483517235 / 35184372088832 := by
    rw [binary64_eval (13679683868137881 / 281474976710656) (-47) 6839841934068940
      (by norm_num) (by norm_num) (by norm_num)
      (roundHalfEven_tie_even _ 6839841934068940 (by norm_num) (by decide))]
    norm_num
  have s2 : binary64 (112589990684262387 / 2251799813685248) =
      7036874417766399 / 140737488355328 := by
    rw [binary64_eval (112589990684262387 / 2251799813685248) (-47) 7036874417766399
      (by norm_num) (by norm_num) (by norm_num)
      (roundHalfEven_eq _ 7036874417766399 (by norm_num) (by norm_num))]
    norm_num
  have sh : binary64 (999 / 100) = 5623870034678907 / 562949953421312 := by
    rw [binary64_eval (999 / 100) (-49) 5623870034678907 (by norm_num) (by norm_num) (by norm_num)
      (roundHalfEven_eq _ 5623870034678907 (by norm_num) (by norm_num))]
    norm_num
  have t0 : binary64 (2 / 25) = 5764607523034235 / 72057594037927936 := by
    rw [binary64_eval (2 / 25) (-56) 5764607523034235 (by norm_num) (by norm_num) (by norm_num)
      (roundHalfEven_eq _ 5764607523034235 (by norm_num) (by norm_num))]
    norm_num
  have tx : binary64 (40564819207303335927711909669765 / 10141204801825835211973625643008) =
      9007199254740991 / 2251799813685248 := by
    rw [binary64_eval (40564819207303335927711909669765 / 10141204801825835211973625643008) (-51) 9007199254740991
      (by norm_num) (by norm_num) (by norm_num)
      (roundHalfEven_eq _ 9007199254740991 (by norm_num) (by norm_num))]
    norm_num
  have u : binary64 (33771367705744503 / 562949953421312) = 4221420963218063 / 70368744177664 := by
    rw [binary64_eval (33771367705744503 / 562949953421312) (-47) 8442841926436126
      (by norm_num) (by norm_num) (by norm_num)
      (roundHalfEven_eq _ 8442841926436126 (by norm_num) (by norm_num))]
    norm_num
  have v : binary64 (144092670077719007 / 2251799813685248) =
      4502895939928719 / 70368744177664 := by
    rw [binary64_eval (144092670077719007 / 2251799813685248) (-47) 9005791879857438
      (by norm_num) (by norm_num) (by norm_num)
      (roundHalfEven_eq _ 9005791879857438 (by norm_num) (by norm_num))]
    norm_num
  have hsub : captureSubtotal binary64 exRoundedItems = 7036874417766399 / 140737488355328 := by
    simp only [captureSubtotal, exRoundedItems, payPrice, List.foldl_cons, List.foldl_nil,
      p1, p2]
    norm_num [a1, a2, s2]
  have hfl : (⌊(4502895939928719 / 70368744177664 : ℚ) * 100 + 1 / 2⌋ : ℤ) = 6399 := by
    rw [Int.floor_eq_iff]; norm_num
  have hex : (⌊((54 : ℚ)) * 100 + 1 / 2⌋ : ℤ) = 5400 := by
    rw [Int.floor_eq_iff]; norm_num
  refine ⟨hsub, ?_, ?_⟩
  · rw [hsub]
    have h50 : ¬ ((50 : ℚ) ≤ 7036874417766399 / 140737488355328) := by norm_num
    simp only [payTotal, h50, if_false]
    norm_num [sh, t0, tx, u, v]
    have hpos : (0 : ℚ) ≤ 4502895939928719 / 70368744177664 := by norm_num
    simp only [toFixed2, hpos, if_true, hfl]
    norm_num
  · have h50 : (50 : ℚ) ≤ 7 / 5 * 1 + 81 / 5 * 3 := by norm_num
    simp only [payTotal, h50, if_true, id_eq]
    norm_num [toFixed2, hex]

/-- The validation loop on the cart of user 1 in `exDB`, in binary64 arithmetic:
one mug at 10 and two lamps at 20 make 50. -/
theorem validateCart_exDB : validateCart binary64 (selectCart exDB 1) 0 = .ok 50 := by
  simp only [validateCart, selectCart, withProduct, exDB, exProducts, List.filter_cons,
    List.filter_nil, List.map_cons, List.map_nil, List.find?_cons, List.find?_nil]
  norm_num [binary64_ten, binary64_forty, binary64_fifty]

/-- The order creation of user 1 on `exDB` when the insert of the second order
item fails: the order row with the total of the whole cart and the first
order item stay. -/
theorem createOrder_second_item_fails :
    createOrder binary64 exDB exSecondItemFails 1 true exAddress
      = ⟨⟨500, .message "Failed to create order items"⟩,
          { products := [{ id := 1, name := "Mug", price := 10, stock_quantity := 4,
                           is_active := true },
                         { id := 2, name := "Lamp", price := 20, stock_quantity := 3,
                           is_active := true }],
            cart := exDB.cart,
            addresses := [addressRow exDB 1 exAddress],
            orders := [{ id := 1, user_id := 1, total_amount := 50, shipping_address_id := 1,
                         status := "pending", payment_method := none,
                         payment_intent_id := none }],
            order_items := [{ order_id := 1, product_id := 1, quantity := 1, price := 10 }] },
          [⟨.select, .cart, none⟩, ⟨.insert, .addresses, none⟩, ⟨.insert, .orders, none⟩,
           ⟨.insert, .order_items, some 1⟩, ⟨.update, .products, some 1⟩,
           ⟨.insert, .order_items, some 2⟩]⟩ := by
  rw [createOrder_after_inserts binary64 exDB exSecondItemFails 1 true exAddress 50 rfl rfl
    (by decide) validateCart_exDB rfl rfl]
  rfl

/-- C7 as stated fails on the code, at two places. (1) One mug at 10.00 is
captured through PayPal: the order row stores 20.79 (10.00 plus 9.99 shipping
plus 0.80 tax) while its only order item amounts to 10. (2) User 1 orders one
mug and two lamps through `POST /orders` and the insert of the second order
item fails: the answer is 500, and the order row created stores 50 while its
only order item amounts to 10. Both are evaluated in binary64 arithmetic. -/
theorem order_total_exceeds_items :
    ((capturePayPalOrder binary64 exDB OrderFaults.none (.returned 201) 1 "PAYPAL-1" [exPayItem]
        exAddress).response.status = 201
      ∧ (capturePayPalOrder binary64 exDB OrderFaults.none (.returned 201) 1 "PAYPAL-1" [exPayItem]
          exAddress).db.orders
          = [{ id := 1, user_id := 1, total_amount := 2079 / 100, shipping_address_id := 1,
               status := "confirmed", payment_method := some "paypal",
               payment_intent_id := some "PAYPAL-1" }]
      ∧ itemsTotal binary64 (capturePayPalOrder binary64 exDB OrderFaults.none (.returned 201) 1 "PAYPAL-1"
          [exPayItem] exAddress).db 1 = 10
      ∧ (2079 / 100 : ℚ) ≠ 10)
    ∧ ((createOrder binary64 exDB exSecondItemFails 1 true exAddress).response
        = ⟨500, .message "Failed to create order items"⟩
      ∧ (createOrder binary64 exDB exSecondItemFails 1 true exAddress).db.orders
          = [{ id := 1, user_id := 1, total_amount := 50, shipping_address_id := 1,
               status := "pending", payment_method := none, payment_intent_id := none }]
      ∧ itemsTotal binary64 (createOrder binary64 exDB exSecondItemFails 1 true exAddress).db 1 = 10
      ∧ (50 : ℚ) ≠ 10) := by
  have hs : captureSubtotal binary64 [exPayItem] = 10 := by
    norm_num [captureSubtotal, exPayItem, payPrice, binary64_ten]
  have hten : toFixed2 (payTotal binary64 10) = 2079 / 100 := by
    have e1 : binary64 (999 / 100) = 5623870034678907 / 562949953421312 := by
      rw [binary64_eval (999 / 100) (-49) 5623870034678907 (by norm_num) (by norm_num) (by norm_num)
        (roundHalfEven_eq _ 5623870034678907 (by norm_num) (by norm_num))]
      norm_num
    have e2 : binary64 (8 / 100) = 5764607523034235 / 72057594037927936 := by
      rw [binary64_eval (8 / 100) (-56) 5764607523034235 (by norm_num) (by norm_num) (by norm_num)
        (roundHalfEven_eq _ 5764607523034235 (by norm_num) (by norm_num))]
      norm_num
    have e3 : binary64 (10 * (5764607523034235 / 72057594037927936)) =
        3602879701896397 / 4503599627370496 := by
      rw [binary64_eval (10 * (5764607523034235 / 72057594037927936)) (-53) 7205759403792794
        (by norm_num) (by norm_num) (by norm_num)
        (roundHalfEven_eq _ 7205759403792794 (by norm_num) (by norm_num))]
      norm_num
    have e4 : binary64 (10 + 5623870034678907 / 562949953421312) =
        2813342392223007 / 140737488355328 := by
      rw [binary64_eval (10 + 5623870034678907 / 562949953421312) (-48) 5626684784446014
        (by norm_num) (by norm_num) (by norm_num)
        (roundHalfEven_tie_odd _ 5626684784446013 (by norm_num) (by decide))]
      norm_num
    have e5 : binary64 (2813342392223007 / 140737488355328 + 3602879701896397 / 4503599627370496) =
        5851864765814539 / 281474976710656 := by
      rw [binary64_eval (2813342392223007 / 140737488355328 + 3602879701896397 / 4503599627370496) (-48) 5851864765814539
        (by norm_num) (by norm_num) (by norm_num)
        (roundHalfEven_eq _ 5851864765814539 (by norm_num) (by norm_num))]
      norm_num
    have h50 : ¬ ((50 : ℚ) ≤ 10) := by norm_num
    have hfl : (⌊(5851864765814539 / 281474976710656 : ℚ) * 100 + 1 / 2⌋ : ℤ) = 2079 := by
      rw [Int.floor_eq_iff]; norm_num
    simp only [payTotal, h50, if_false, e1, e2, e3, e4, e5]
    have hpos : (0 : ℚ) ≤ 5851864765814539 / 281474976710656 := by norm_num
    simp only [toFixed2, hpos, if_true, hfl]
    norm_num
  obtain ⟨ho, hi⟩ := recordPaidOrder_rows exDB OrderFaults.none 1 (payTotal binary64 10) "paypal"
    "PAYPAL-1" [exPayItem] exAddress rfl rfl
  obtain ⟨hi, _⟩ := hi rfl
  refine ⟨⟨by decide, ?_, ?_, by norm_num⟩, ?_⟩
  · rw [capturePayPalOrder_db, hs, ho]
    simp only [paidOrder, hten]
    rfl
  · rw [itemsTotal_fresh binary64 _ [] ([exPayItem].map (paidItemOf 1)) 1
      (by rw [capturePayPalOrder_db, hs, hi]; rfl) (by simp) (by simp [paidItemOf])]
    norm_num [paidItemOf, exPayItem, payPrice, binary64_ten]
  · rw [createOrder_second_item_fails]
    refine ⟨rfl, rfl, ?_, by norm_num⟩
    norm_num [itemsTotal, binary64_ten]

theorem fresh_order_id (db : DB) (h : ∀ it ∈ db.order_items, ∃ o ∈ db.orders, o.id = it.order_id) :
    ∀ it ∈ db.order_items, it.order_id ≠ nextId (db.orders.map (·.id)) := by
  intro it hit
  obtain ⟨o, ho, hoid⟩ := h it hit
  have := lt_nextId (db.orders.map (·.id)) o.id (List.mem_map.mpr ⟨o, ho, rfl⟩)
  omega

/-- A successful `POST /orders` stores as `total_amount` the sum of price times
quantity over the order items it inserted for the order. -/
theorem createOrder_total (fl : ℚ → ℚ) (db : DB) (f : OrderFaults) (u : Nat) (valid : Bool)
    (a : ShippingAddress) (h : (createOrder fl db f u valid a).response.status = 201)
    (hfk : ∀ it ∈ db.order_items, ∃ o ∈ db.orders, o.id = it.order_id) :
    ∃ order, (createOrder fl db f u valid a).db.orders = db.orders ++ [order]
      ∧ (createOrder fl db f u valid a).db.order_items
          = db.order_items ++ (selectCart db u).map (orderItemOf order.id)
      ∧ order.total_amount = itemsTotal fl (createOrder fl db f u valid a).db order.id := by
  obtain ⟨total, ht, hnone, hdb, _⟩ := createOrder_created fl db f u valid a h
  obtain ⟨hitems, _, _, horders, _⟩ := createOrderItems_done f _ _ _ _ hnone
  obtain ⟨htotal, _⟩ := validateCart_ok fl _ _ _ ht
  have hoi : (createOrder fl db f u valid a).db.order_items
      = db.order_items ++ (selectCart db u).map (orderItemOf (newOrder db u a total).id) := by
    rw [hdb, (clearCart_keeps _ _ _).2.1, hitems]
    rfl
  refine ⟨newOrder db u a total, ?_, hoi, ?_⟩
  · rw [hdb, (clearCart_keeps _ _ _).1, horders]
    rfl
  · have hsum := itemsTotal_fresh fl (createOrder fl db f u valid a).db db.order_items
      ((selectCart db u).map (orderItemOf (newOrder db u a total).id)) (newOrder db u a total).id
      hoi (fresh_order_id db hfk) (by simp [orderItemOf])
    rw [hsum, List.foldl_map]
    show total = _
    rw [htotal]
    rfl

/-- C7, amended. A `POST /orders` that is answered 201 stores as `total_amount`
the sum over the order's items of price times quantity. An order row the
PayPal capture or the session-status handler creates stores instead
`toFixed(2)` of subtotal plus shipping plus tax, where subtotal is the sum over
the submitted cart items of price times quantity (which is also the sum over
the order's items once they are inserted), shipping is 0 from a subtotal of 50
and 9.99 below, and tax is 0.08 times the subtotal. Every sum and product is
taken in the handler's number arithmetic, whatever its rounding `fl`.
(Existing order items refer to existing orders.) -/
theorem order_total_by_handler (fl : ℚ → ℚ) (db : DB) (f : OrderFaults) (u : Nat)
    (valid : Bool) (a : ShippingAddress) (orderID : String) (items : List PayItem)
    (session : Session)
    (hfk : ∀ it ∈ db.order_items, ∃ o ∈ db.orders, o.id = it.order_id) :
    ((createOrder fl db f u valid a).response.status = 201 →
      ∃ order, (createOrder fl db f u valid a).db.orders = db.orders ++ [order]
        ∧ order.total_amount = itemsTotal fl (createOrder fl db f u valid a).db order.id)
    ∧ (f.insertAddress = false → f.insertOrder = false →
      ∃ order subtotal,
        (capturePayPalOrder fl db f (.returned 201) u orderID items a).db.orders
          = db.orders ++ [order]
        ∧ subtotal = items.foldl
            (fun sum item => fl (sum + fl (payPrice item * (item.quantity : ℚ)))) 0
        ∧ order.total_amount
          = toFixed2 (fl (fl (subtotal + (if 50 ≤ subtotal then 0 else fl (999 / 100)))
              + fl (subtotal * fl (8 / 100))))
        ∧ (f.insertOrderItem 0 = false →
          itemsTotal fl (capturePayPalOrder fl db f (.returned 201) u orderID items a).db
            order.id = subtotal))
    ∧ (f.insertAddress = false → f.insertOrder = false →
      session.status = "complete" → session.payment_status = "paid" →
      (if f.selectOrder then none
        else single (db.orders.filter fun o => o.payment_intent_id = some session.payment_intent))
        = none →
      ∃ order subtotal,
        (sessionStatus fl db f (some session)).db.orders = db.orders ++ [order]
        ∧ subtotal = session.cart_items.foldl
            (fun sum item => fl (sum + fl (item.price * (item.quantity : ℚ)))) 0
        ∧ order.total_amount
          = toFixed2 (fl (fl (subtotal + (if 50 ≤ subtotal then 0 else fl (999 / 100)))
              + fl (subtotal * fl (8 / 100))))
        ∧ (f.insertOrderItem 0 = false →
          itemsTotal fl (sessionStatus fl db f (some session)).db order.id
            = session.cart_items.foldl
                (fun sum item => fl (sum + fl (payPrice item * (item.quantity : ℚ)))) 0)) := by
  refine ⟨?_, ?_, ?_⟩
  · intro h
    obtain ⟨order, h1, _, h3⟩ := createOrder_total fl db f u valid a h hfk
    exact ⟨order, h1, h3⟩
  · intro h1 h2
    obtain ⟨ho, hi⟩ := recordPaidOrder_rows db f u
      (payTotal fl (captureSubtotal fl items)) "paypal" orderID items a h1 h2
    refine ⟨paidOrder db u a _ "paypal" orderID, _, ?_, rfl, rfl, ?_⟩
    · rw [capturePayPalOrder_db]; exact ho
    · intro h3
      have hsum := itemsTotal_fresh fl
        (capturePayPalOrder fl db f (.returned 201) u orderID items a).db
        db.order_items _ (nextId (db.orders.map (·.id)))
        (by rw [capturePayPalOrder_db]; exact (hi h3).1)
        (fresh_order_id db hfk) (by simp [paidItemOf, paidOrder])
      refine hsum.trans ?_
      rw [List.foldl_map]
      rfl
  · intro h1 h2 hc hp hex
    obtain ⟨ho, hi⟩ := recordPaidOrder_rows db f session.user_id
      (payTotal fl (sessionSubtotal fl session.cart_items)) "stripe"
      session.payment_intent session.cart_items session.shipping_address h1 h2
    refine ⟨paidOrder db session.user_id session.shipping_address _ "stripe"
      session.payment_intent, _, ?_, rfl, rfl, ?_⟩
    · rw [sessionStatus_db fl db f session hc hp hex]; exact ho
    · intro h3
      have hsum := itemsTotal_fresh fl (sessionStatus fl db f (some session)).db
        db.order_items _ (nextId (db.orders.map (·.id)))
        (by rw [sessionStatus_db fl db f session hc hp hex]; exact (hi h3).1)
        (fresh_order_id db hfk) (by simp [paidItemOf, paidOrder])
      refine hsum.trans ?_
      rw [List.foldl_map]
      rfl

/-- Witness for `order_total_by_handler`: user 1 orders one mug and two lamps;
the order row stores the sum over its items. -/
theorem order_total_by_handler_witness :
    ∃ order, (createOrder binary64 exDB OrderFaults.none 1 true exAddress).db.orders
        = exDB.orders ++ [order]
      ∧ order.total_amount
        = itemsTotal binary64 (createOrder binary64 exDB OrderFaults.none 1 true exAddress).db order.id :=
  (order_total_by_handler binary64 exDB OrderFaults.none 1 true exAddress "PAYPAL-1" [exPayItem]
    { status := "open", payment_status := "unpaid", payment_intent := "pi_1", user_id := 1,
      cart_items := [exPayItem], shipping_address := exAddress }
    (by decide)).1 (by decide)

/-! ## Server: the claims on stock and on the order of the calls -/

theorem quantity_after_update (cart : List CartRow) (id : Nat) (stored : Int) :
    (∀ row ∈ cart.map (fun r => if r.id = id then { r with quantity := stored } else r),
      row.id = id → row.quantity = stored)
    ∧ (∀ r ∈ cart, r.id = id →
      { r with quantity := stored } ∈
        cart.map (fun r => if r.id = id then { r with quantity := stored } else r)) := by
  constructor
  · intro row hrow hid
    obtain ⟨r, _, hr⟩ := List.mem_map.mp hrow
    by_cases h : r.id = id
    · simp only [h, if_true] at hr
      rw [← hr]
    · simp only [h, if_false] at hr
      rw [hr] at h
      exact absurd hid h
  · intro r hr hid
    exact List.mem_map.mpr ⟨r, hr, by simp [hid]⟩

/-- A quantity sent as the JSON string `"2"`: with one mug in the cart the new
quantity is `1 + "2"`, the string `"12"`. Over a stock of 5 the answer is 400
"Insufficient stock"; over a stock of 20 the row is written with quantity 12. -/
theorem addToCart_string_quantity :
    (addToCart exDB CartFaults.none 1 1 (.string "2")).response
      = ⟨400, .message "Insufficient stock"⟩
    ∧ (addToCart exStockedDB CartFaults.none 1 1 (.string "2")).response.status = 200
    ∧ (addToCart exStockedDB CartFaults.none 1 1 (.string "2")).db.cart
        = [{ id := 1, user_id := 1, product_id := 1, quantity := 12 },
           { id := 2, user_id := 1, product_id := 2, quantity := 2 }] := by
  decide

/-- C9 (stock covers the reserved quantity). A successful `POST /cart`
(200 with an existing row, 201 with a new one) and a successful
`PUT /cart/:id` (200) write a cart row whose resulting quantity is at most the
stock of the product read in the request: after a 200 the row that was
updated carries the stored quantity, which is at most the stock, and after a
201 the row appended does; nothing is written on any other status. When the
stock test fails the answer is 400 "Insufficient stock" with the cart
unchanged. And `POST /orders` inserts an order only if every cart item's
quantity is at most the stock of its product. The quantity of the request is
a JSON number or string; the stored quantity is the integer the datastore
takes for it (for a number, the old quantity plus the number, or the number). -/
theorem stock_covers_reserved (fl : ℚ → ℚ) (db : DB) (fc : CartFaults) (fo : OrderFaults)
    (u p id : Nat) (q : JSValue) (valid : Bool) (a : ShippingAddress) :
    ((addToCart db fc u p q).response.status = 200 →
      ∃ product existing stored, product ∈ db.products ∧ product.id = p ∧ existing ∈ db.cart
        ∧ existing.user_id = u ∧ existing.product_id = p
        ∧ toInteger ((JSValue.number existing.quantity).add q) = some stored
        ∧ (∀ k, q = .number k → stored = existing.quantity + k)
        ∧ stored ≤ product.stock_quantity
        ∧ (addToCart db fc u p q).db
            = { db with cart := db.cart.map fun row =>
                  if row.id = existing.id then { row with quantity := stored } else row }
        ∧ (∃ row ∈ (addToCart db fc u p q).db.cart, row.id = existing.id ∧ row.user_id = u
            ∧ row.product_id = p ∧ row.quantity = stored)
        ∧ (∀ row ∈ (addToCart db fc u p q).db.cart,
            row.id = existing.id → row.quantity = stored))
    ∧ ((addToCart db fc u p q).response.status = 201 →
      ∃ product stored, product ∈ db.products ∧ product.id = p
        ∧ toInteger q = some stored ∧ (∀ k, q = .number k → stored = k)
        ∧ stored ≤ product.stock_quantity
        ∧ (addToCart db fc u p q).db
            = { db with cart := db.cart ++
                [{ id := nextId (db.cart.map (·.id)), user_id := u, product_id := p,
                   quantity := stored }] })
    ∧ ((addToCart db fc u p q).response.status ≠ 200 →
        (addToCart db fc u p q).response.status ≠ 201 → (addToCart db fc u p q).db = db)
    ∧ (∀ product, isIntMin1 q = true → fc.selectProduct = false →
        single (db.products.filter fun x => x.id = p) = some product →
        product.is_active = true →
        (∀ m, q.toNumber = some m → product.stock_quantity < m →
          (addToCart db fc u p q).response = ⟨400, .message "Insufficient stock"⟩
          ∧ (addToCart db fc u p q).db = db)
        ∧ (∀ existing m, fc.selectCart = false →
          single (db.cart.filter fun row => row.user_id = u ∧ row.product_id = p)
            = some existing →
          ((JSValue.number existing.quantity).add q).toNumber = some m →
          product.stock_quantity < m →
          (addToCart db fc u p q).response = ⟨400, .message "Insufficient stock"⟩
          ∧ (addToCart db fc u p q).db = db))
    ∧ ((updateCartItem db fc u id q).response.status = 200 →
      ∃ products row stored, products ∈ db.products ∧ row ∈ db.cart ∧ row.id = id
        ∧ row.user_id = u ∧ products.id = row.product_id
        ∧ toInteger q = some stored ∧ (∀ k, q = .number k → stored = k)
        ∧ stored ≤ products.stock_quantity
        ∧ (updateCartItem db fc u id q).db
            = { db with cart := db.cart.map fun r =>
                  if r.id = id then { r with quantity := stored } else r }
        ∧ (∃ r ∈ (updateCartItem db fc u id q).db.cart, r.id = id ∧ r.user_id = u
            ∧ r.product_id = row.product_id ∧ r.quantity = stored)
        ∧ (∀ r ∈ (updateCartItem db fc u id q).db.cart, r.id = id → r.quantity = stored))
    ∧ ((updateCartItem db fc u id q).response.status ≠ 200 →
        (updateCartItem db fc u id q).db = db)
    ∧ (∀ cartItem products m, isIntMin1 q = true → fc.selectCart = false →
        single ((db.cart.filter fun row => row.id = id ∧ row.user_id = u).map
          (withProduct db)) = some cartItem →
        cartItem.products = some products → products.is_active = true →
        q.toNumber = some m → products.stock_quantity < m →
        (updateCartItem db fc u id q).response = ⟨400, .message "Insufficient stock"⟩
        ∧ (updateCartItem db fc u id q).db = db)
    ∧ ((createOrder fl db fo u valid a).db.orders ≠ db.orders →
        ∀ item ∈ selectCart db u, ∃ products, item.products = some products
          ∧ item.quantity ≤ products.stock_quantity) := by
  refine ⟨?_, ?_, (addToCart_success db fc u p q).2.2, ?_, ?_,
    (updateCartItem_success db fc u id q).2, ?_, ?_⟩
  · intro h
    obtain ⟨product, existing, stored, h1, h2, h3, h4, h5, h6, h7, hset⟩ :=
      (addToCart_success db fc u p q).1 h
    have h8 : (addToCart db fc u p q).db
        = { db with cart := db.cart.map fun row =>
              if row.id = existing.id then { row with quantity := stored } else row } :=
      hset.trans rfl
    refine ⟨product, existing, stored, h1, h2, h3, h4, h5, h6, ?_, h7, h8, ?_, ?_⟩
    · intro k hk
      subst hk
      simp only [JSValue.add, JSValue.toNumber, toInteger, Option.some.injEq] at h6
      exact h6.symm
    · rw [h8]
      exact ⟨{ existing with quantity := stored },
        (quantity_after_update db.cart existing.id stored).2 existing h3 rfl, rfl, h4, h5, rfl⟩
    · rw [h8]
      exact (quantity_after_update db.cart existing.id stored).1
  · intro h
    obtain ⟨product, stored, h1, h2, h3, h4, h5⟩ := (addToCart_success db fc u p q).2.1 h
    refine ⟨product, stored, h1, h2, h3, ?_, h4, h5⟩
    intro k hk
    subst hk
    simp only [toInteger, Option.some.injEq] at h3
    exact h3.symm
  · intro product hq hf hprod hact
    exact addToCart_insufficient db fc u p q product hq hf hprod hact
  · intro h
    obtain ⟨products, row, stored, h1, h2, h3, h4, h5, h6, h7, hset⟩ :=
      (updateCartItem_success db fc u id q).1 h
    have h8 : (updateCartItem db fc u id q).db
        = { db with cart := db.cart.map fun r =>
              if r.id = id then { r with quantity := stored } else r } :=
      hset.trans rfl
    refine ⟨products, row, stored, h1, h2, h3, h4, h5, h6, ?_, h7, h8, ?_, ?_⟩
    · intro k hk
      subst hk
      simp only [toInteger, Option.some.injEq] at h6
      exact h6.symm
    · rw [h8]
      exact ⟨{ row with quantity := stored },
        (quantity_after_update db.cart id stored).2 row h2 h3, h3, h4, rfl, rfl⟩
    · rw [h8]
      exact (quantity_after_update db.cart id stored).1
  · intro cartItem products m hq hf hitem hprod hact hm hlt
    exact updateCartItem_insufficient db fc u id q cartItem products m hq hf hitem hprod hact
      hm hlt
  · intro hne item hitem
    rcases createOrder_writes_only_validated fl db fo u valid a with h | ⟨total, ht⟩
    · exact absurd (by rw [h]) hne
    · obtain ⟨products, h1, _, h3⟩ := (validateCart_ok fl _ _ _ ht).2 item hitem
      exact ⟨products, h1, h3⟩

/-- Witness for `stock_covers_reserved`: user 1 adds two mugs to the one in the
cart; the row of the mugs then carries quantity three, at most the five in
stock (the cart after the request is also given in full). User 1 then
orders, and every item of the cart is covered by the stock. Requests for more
than the stock (five more mugs, four lamps added by user 2, four lamps set by
user 1) are answered 400 and write nothing; three lamps set by user 1 are
written; an order for four lamps is answered 400. -/
theorem stock_covers_reserved_witness :
    (∃ product existing stored, product ∈ exDB.products ∧ product.id = 1
      ∧ existing ∈ exDB.cart ∧ existing.user_id = 1 ∧ existing.product_id = 1
      ∧ stored = existing.quantity + 2
      ∧ stored ≤ product.stock_quantity
      ∧ (∀ row ∈ (addToCart exDB CartFaults.none 1 1 (.number 2)).db.cart,
          row.id = existing.id → row.quantity = stored))
    ∧ (addToCart exDB CartFaults.none 1 1 (.number 2)).db.cart
        = [{ id := 1, user_id := 1, product_id := 1, quantity := 3 },
           { id := 2, user_id := 1, product_id := 2, quantity := 2 }]
    ∧ (∀ item ∈ selectCart exDB 1, ∃ products, item.products = some products
        ∧ item.quantity ≤ products.stock_quantity)
    ∧ addToCart exDB CartFaults.none 1 1 (.number 5)
        = ⟨⟨400, .message "Insufficient stock"⟩, exDB,
            [⟨.select, .products, some 1⟩, ⟨.select, .cart, some 1⟩]⟩
    ∧ addToCart exDB CartFaults.none 2 2 (.number 4)
        = ⟨⟨400, .message "Insufficient stock"⟩, exDB, [⟨.select, .products, some 2⟩]⟩
    ∧ updateCartItem exDB CartFaults.none 1 2 (.number 4)
        = ⟨⟨400, .message "Insufficient stock"⟩, exDB, [⟨.select, .cart, some 2⟩]⟩
    ∧ (updateCartItem exDB CartFaults.none 1 2 (.number 3)).db.cart
        = [{ id := 1, user_id := 1, product_id := 1, quantity := 1 },
           { id := 2, user_id := 1, product_id := 2, quantity := 3 }]
    ∧ (createOrder binary64 exOverDB OrderFaults.none 1 true exAddress).response
        = ⟨400, .message "Insufficient stock for Lamp"⟩ :=
  have ⟨product, existing, stored, h1, h2, h3, h4, h5, _, h7, h8, _, _, h11⟩ :=
    (stock_covers_reserved binary64 exDB CartFaults.none OrderFaults.none 1 1 1 (.number 2) true
      exAddress).1 (by decide)
  ⟨⟨product, existing, stored, h1, h2, h3, h4, h5, h7 2 rfl, h8, h11⟩, by decide,
    (stock_covers_reserved binary64 exDB CartFaults.none OrderFaults.none 1 1 1 (.number 2) true
      exAddress).2.2.2.2.2.2.2 (by decide), rfl, rfl, rfl, by decide, by decide⟩

/-- C10 as stated fails on the code. User 1 orders one mug and two lamps: the
stock of the mug is lowered before the order item of the lamps is inserted. -/
theorem createOrder_interleaves_items_and_stock :
    (createOrder binary64 exDB OrderFaults.none 1 true exAddress).response.status = 201
    ∧ (createOrder binary64 exDB OrderFaults.none 1 true exAddress).trace
        = [⟨.select, .cart, none⟩, ⟨.insert, .addresses, none⟩, ⟨.insert, .orders, none⟩,
           ⟨.insert, .order_items, some 1⟩, ⟨.update, .products, some 1⟩,
           ⟨.insert, .order_items, some 2⟩, ⟨.update, .products, some 2⟩,
           ⟨.delete, .cart, none⟩]
    ∧ insertsBeforeDecrements (createOrder binary64 exDB OrderFaults.none 1 true exAddress).trace
        = false := by
  decide

/-- C10, amended. On a successful `POST /orders` the datastore calls are: read
the cart (every item of which passed the stock validation before any write),
insert the address, insert the order, then for each cart item in turn insert
its order item and lower its stock, and finally delete the user's cart rows;
the cart delete is the last call. -/
theorem createOrder_call_order (fl : ℚ → ℚ) (db : DB) (f : OrderFaults) (u : Nat) (valid : Bool)
    (a : ShippingAddress) (h : (createOrder fl db f u valid a).response.status = 201) :
    (createOrder fl db f u valid a).trace
        = [⟨.select, .cart, none⟩, ⟨.insert, .addresses, none⟩, ⟨.insert, .orders, none⟩]
          ++ (selectCart db u).flatMap
              (fun item => [⟨.insert, .order_items, some item.product_id⟩,
                            ⟨.update, .products, some item.product_id⟩])
          ++ [⟨.delete, .cart, none⟩]
    ∧ (∀ item ∈ selectCart db u, ∃ products, item.products = some products
        ∧ products.is_active = true ∧ item.quantity ≤ products.stock_quantity)
    ∧ (createOrder fl db f u valid a).trace.getLast? = some ⟨.delete, .cart, none⟩ := by
  obtain ⟨total, ht, hnone, _, htrace⟩ := createOrder_created fl db f u valid a h
  obtain ⟨_, hops, _⟩ := createOrderItems_done f _ _ _ _ hnone
  rw [hops] at htrace
  refine ⟨htrace, (validateCart_ok fl _ _ _ ht).2, ?_⟩
  rw [htrace]
  exact List.getLast?_concat _

/-- Witness for `createOrder_call_order`: the order of one mug and two lamps. -/
theorem createOrder_call_order_witness :
    (createOrder binary64 exDB OrderFaults.none 1 true exAddress).trace.getLast?
      = some ⟨.delete, .cart, none⟩ :=
  (createOrder_call_order binary64 exDB OrderFaults.none 1 true exAddress (by decide)).2.2

/-! ## Server: partial failure and validation failure of order creation -/

/-- C11 (no rollback on partial failure). In `POST /orders`, when the cart is
read and validated, the address insert succeeds and the order insert fails,
the answer is 500 "Failed to create order", the address row stays in the
datastore and nothing else is written: no order, no order item, no stock
change, no cart deletion; the calls issued are the cart read and the two
inserts. -/
theorem createOrder_no_rollback (fl : ℚ → ℚ) (db : DB) (f : OrderFaults) (u : Nat) (valid : Bool)
    (a : ShippingAddress) (total : ℚ) (hv : valid = true) (hs : f.selectCart = false)
    (hne : selectCart db u ≠ []) (ht : validateCart fl (selectCart db u) 0 = .ok total)
    (h1 : f.insertAddress = false) (h2 : f.insertOrder = true) :
    (createOrder fl db f u valid a).response = ⟨500, .message "Failed to create order"⟩
    ∧ (createOrder fl db f u valid a).db.addresses = db.addresses ++ [addressRow db u a]
    ∧ (createOrder fl db f u valid a).db.orders = db.orders
    ∧ (createOrder fl db f u valid a).db.order_items = db.order_items
    ∧ (createOrder fl db f u valid a).db.products = db.products
    ∧ (createOrder fl db f u valid a).db.cart = db.cart
    ∧ (createOrder fl db f u valid a).trace
        = [⟨.select, .cart, none⟩, ⟨.insert, .addresses, none⟩, ⟨.insert, .orders, none⟩] := by
  simp only [createOrder, hv, hs, ht, h1, h2]
  simp [hne]

/-- Witness for `createOrder_no_rollback`: user 1 orders one mug and two lamps
and the order insert fails. -/
theorem createOrder_no_rollback_witness :
    (createOrder binary64 exDB { OrderFaults.none with insertOrder := true } 1 true exAddress).response
        = ⟨500, .message "Failed to create order"⟩
    ∧ (createOrder binary64 exDB { OrderFaults.none with insertOrder := true } 1 true
        exAddress).db.addresses = exDB.addresses ++ [addressRow exDB 1 exAddress]
    ∧ (createOrder binary64 exDB { OrderFaults.none with insertOrder := true } 1 true
        exAddress).db.orders = exDB.orders :=
  have h := createOrder_no_rollback binary64 exDB { OrderFaults.none with insertOrder := true }
    1 true exAddress 50 rfl rfl (by decide) validateCart_exDB rfl rfl
  ⟨h.1, h.2.1, h.2.2.1⟩

theorem validateCart_offending (fl : ℚ → ℚ) (items : List CartItem) :
    ∀ (t : ℚ), (∀ item ∈ items, item.products ≠ none) →
      (∃ item ∈ items, ∃ products, item.products = some products
        ∧ (products.is_active = false ∨ products.stock_quantity < item.quantity)) →
      ∃ r, validateCart fl items t = .error r ∧ r.status = 400 := by
  induction items with
  | nil => intro t _ h; simp at h
  | cons item rest ih =>
    intro t hall hoff
    cases hp : item.products with
    | none => exact absurd hp (hall item (List.mem_cons_self _ _))
    | some products =>
      by_cases hact : products.is_active = true
      · by_cases hstock : products.stock_quantity < item.quantity
        · exact ⟨⟨400, .message ("Insufficient stock for " ++ products.name)⟩,
            by simp [validateCart, hp, hact, hstock], rfl⟩
        · have hrest : ∃ x ∈ rest, ∃ ps, x.products = some ps
              ∧ (ps.is_active = false ∨ ps.stock_quantity < x.quantity) := by
            obtain ⟨x, hx, ps, hps, hbad⟩ := hoff
            rcases List.mem_cons.mp hx with hx | hx
            · subst hx
              rw [hp] at hps
              cases hps
              rcases hbad with hbad | hbad
              · simp [hact] at hbad
              · exact absurd hbad hstock
            · exact ⟨x, hx, ps, hps, hbad⟩
          obtain ⟨r, hr, hr400⟩ := ih (fl (t + fl (products.price * (item.quantity : ℚ))))
            (fun x hx => hall x (List.mem_cons_of_mem _ hx)) hrest
          exact ⟨r, by simp [validateCart, hp, hact, hstock, hr], hr400⟩
      · exact ⟨⟨400, .message ("Product " ++ products.name ++ " is no longer available")⟩,
          by simp [validateCart, hp, hact], rfl⟩

/-- C18 (order creation is atomic on validation failure). If the cart cannot be
read or is empty, or some cart item (first or not) has an inactive product or a
quantity above its product's stock, `POST /orders` writes nothing: the
datastore is unchanged and the only call issued, if any, is the cart read; and
the answer is 400 (every cart row referring to an existing product). -/
theorem createOrder_atomic (fl : ℚ → ℚ) (db : DB) (f : OrderFaults) (u : Nat) (valid : Bool)
    (a : ShippingAddress)
    (h : f.selectCart = true ∨ selectCart db u = []
      ∨ ∃ item ∈ selectCart db u, ∃ products, item.products = some products
          ∧ (products.is_active = false ∨ products.stock_quantity < item.quantity)) :
    (createOrder fl db f u valid a).db = db
    ∧ (∀ op ∈ (createOrder fl db f u valid a).trace, op.kind = .select)
    ∧ ((∀ item ∈ selectCart db u, item.products ≠ none) →
        (createOrder fl db f u valid a).response.status = 400) := by
  by_cases hv : valid = true
  swap
  · simp [createOrder, hv]
  by_cases hs : f.selectCart = true
  · simp [createOrder, hv, hs]
  by_cases hne : selectCart db u = []
  · simp [createOrder, hv, hne]
  have hoff : ∃ item ∈ selectCart db u, ∃ products, item.products = some products
      ∧ (products.is_active = false ∨ products.stock_quantity < item.quantity) := by
    rcases h with h | h | h
    · exact absurd h hs
    · exact absurd h hne
    · exact h
  cases ht : validateCart fl (selectCart db u) 0 with
  | error r =>
    refine ⟨by simp [createOrder, hv, hs, hne, ht], by simp [createOrder, hv, hs, hne, ht], ?_⟩
    intro hall
    obtain ⟨r', hr', h400⟩ := validateCart_offending fl _ 0 hall hoff
    rw [ht] at hr'
    cases hr'
    simp [createOrder, hv, hs, hne, ht, h400]
  | ok total =>
    exfalso
    obtain ⟨item, hitem, products, hp, hbad⟩ := hoff
    obtain ⟨ps, hps, hact, hq⟩ := (validateCart_ok fl _ _ _ ht).2 item hitem
    rw [hp] at hps
    cases hps
    rcases hbad with hbad | hbad
    · simp [hact] at hbad
    · exact absurd hbad (not_lt.mpr hq)


/-- Witness for `createOrder_atomic`: the second item of the cart, four lamps,
exceeds the stock of three; nothing is written and the answer is 400. -/
theorem createOrder_atomic_witness :
    (createOrder binary64 exOverDB OrderFaults.none 1 true exAddress).db = exOverDB
    ∧ (createOrder binary64 exOverDB OrderFaults.none 1 true exAddress).response.status = 400 :=
  have h := createOrder_atomic binary64 exOverDB OrderFaults.none 1 true exAddress
    (Or.inr (Or.inr ⟨withProduct exOverDB { id := 2, user_id := 1, product_id := 2, quantity := 4 },
      by decide, { id := 2, name := "Lamp", price := 20, stock_quantity := 3, is_active := true },
      by decide, Or.inr (by decide)⟩))
  ⟨h.1, h.2.2 (by decide)⟩

/-! ## Server: middleware theorems -/

/-- C14 (`requireAdmin`). The middleware calls `next` if and only if `req.user`
is set and its role is `"admin"` (and it leaves `req.user` as it is); it
answers 401 when `req.user` is absent and 403 when it is present with any
other role (or none), and then does not call `next`. -/
theorem requireAdmin_spec (user : Option ReqUser) :
    ((∃ v, requireAdmin user = .next v) ↔ ∃ u, user = some u ∧ u.role = some "admin")
    ∧ (∀ v, requireAdmin user = .next v → v = user)
    ∧ (user = none → requireAdmin user = .respond ⟨401, .message "Authentication required"⟩)
    ∧ (∀ u, user = some u → u.role ≠ some "admin" →
        requireAdmin user = .respond ⟨403, .message "Admin access required"⟩) := by
  cases user with
  | none => simp [requireAdmin]
  | some u =>
    by_cases h : u.role = some "admin"
    · simp [requireAdmin, h]
    · simp [requireAdmin, h]

/-- Witness for `requireAdmin_spec`: a user without the role `"admin"` is
answered 403. -/
theorem requireAdmin_spec_witness :
    requireAdmin (some exReqUser) = .respond ⟨403, .message "Admin access required"⟩ :=
  (requireAdmin_spec (some exReqUser)).2.2.2 exReqUser rfl (by decide)

theorem truthy_iff (v : Option String) : truthy v = true ↔ ∃ s, v = some s ∧ s ≠ "" := by
  cases v with
  | none => simp [truthy]
  | some s => simp [truthy]

/-- C20 (`authenticateToken`). The middleware calls `next` if and only if the
header yields a token, the provider resolves it to a user, the select on
`users` returns the row of that user and the row is active; `req.user` is
then that row with `email_verified` true exactly when the provider's user has
`email_confirmed_at` set, so `req.user.id` is the id of the row (and of the
provider's user). In every other case in which the provider does not throw
the answer is 401 and `next` is not called. -/
theorem authenticateToken_spec (users : List UserRow) (getUser : String → GetUser)
    (selectFails : Bool) (authHeader : Option String) :
    (∀ v, authenticateToken users getUser selectFails authHeader = .next v ↔
      ∃ token user row, bearerToken authHeader = some token ∧ token ≠ ""
        ∧ getUser token = .user user ∧ selectFails = false
        ∧ single (users.filter fun r => r.id = user.id) = some row
        ∧ row.is_active = true
        ∧ v = some { toUserRow := row, email_verified := truthy user.email_confirmed_at,
                     supabase_user := user })
    ∧ (∀ u, authenticateToken users getUser selectFails authHeader = .next (some u) →
        u.toUserRow ∈ users ∧ u.id = u.supabase_user.id ∧ u.is_active = true
        ∧ (u.email_verified = true ↔
            ∃ ts, u.supabase_user.email_confirmed_at = some ts ∧ ts ≠ ""))
    ∧ ((∀ token, bearerToken authHeader = some token → getUser token ≠ .thrown) →
        (∃ v, authenticateToken users getUser selectFails authHeader = .next v)
        ∨ ∃ m, authenticateToken users getUser selectFails authHeader
            = .respond ⟨401, .message m⟩) := by
  have key : ∀ v, authenticateToken users getUser selectFails authHeader = .next v ↔
      ∃ token user row, bearerToken authHeader = some token ∧ token ≠ ""
        ∧ getUser token = .user user ∧ selectFails = false
        ∧ single (users.filter fun r => r.id = user.id) = some row
        ∧ row.is_active = true
        ∧ v = some { toUserRow := row, email_verified := truthy user.email_confirmed_at,
                     supabase_user := user } := by
    intro v
    unfold authenticateToken
    cases ht : bearerToken authHeader with
    | none => simp [truthy]
    | some token =>
      by_cases hne : token = ""
      · simp [truthy, hne]
      · have htr : truthy (some token) = true := by simp [truthy, hne]
        simp only [htr, not_true_eq_false, if_false, render]
        cases hg : getUser token with
        | thrown => simp [hg]
        | error => simp [hg]
        | user user =>
          cases selectFails with
          | true => simp
          | false =>
            simp only [Bool.false_eq_true, if_false]
            cases hrow : single (users.filter fun r => r.id = user.id) with
            | none =>
              constructor
              · intro h; cases h
              · rintro ⟨token', user', row', h1, _, h3, _, h5, _⟩
                cases h1
                rw [hg] at h3
                cases h3
                rw [hrow] at h5
                cases h5
            | some row =>
              by_cases hact : row.is_active = true
              · simp only [hact, not_true_eq_false, if_false]
                constructor
                · intro h
                  cases h
                  exact ⟨token, user, row, rfl, hne, hg, trivial, hrow, hact, rfl⟩
                · rintro ⟨token', user', row', h1, _, h3, _, h5, _, h7⟩
                  cases h1
                  rw [hg] at h3
                  cases h3
                  rw [hrow] at h5
                  cases h5
                  rw [h7]
              · simp only [hact, not_false_eq_true, if_true]
                constructor
                · intro h; cases h
                · rintro ⟨token', user', row', h1, _, h3, _, h5, h6, _⟩
                  cases h1
                  rw [hg] at h3
                  cases h3
                  rw [hrow] at h5
                  cases h5
                  exact absurd h6 hact
  refine ⟨key, ?_, ?_⟩
  · intro u hu
    obtain ⟨token, user, row, _, _, _, _, hrow, hact, hv⟩ := (key _).mp hu
    cases hv
    have hmem := single_mem_filter _ _ _ hrow
    refine ⟨hmem.1, by simpa using hmem.2, hact, truthy_iff _⟩
  · intro hnt
    unfold authenticateToken
    cases ht : bearerToken authHeader with
    | none => simp [truthy]
    | some token =>
      by_cases hne : token = ""
      · simp [truthy, hne]
      · have htr : truthy (some token) = true := by simp [truthy, hne]
        simp only [htr, not_true_eq_false, if_false, render]
        cases hg : getUser token with
        | thrown => exact absurd hg (hnt token ht)
        | error => simp
        | user user =>
          cases selectFails with
          | true => simp
          | false =>
            simp only [Bool.false_eq_true, if_false]
            cases hrow : single (users.filter fun r => r.id = user.id) with
            | none => simp
            | some row =>
              by_cases hact : row.is_active = true
              · simp [hact]
              · simp [hact]

/-- Witness for `authenticateToken_spec`: the header `Bearer abc` of an active
user with a confirmed email passes, and `req.user` is that user. -/
theorem authenticateToken_spec_witness :
    authenticateToken [exUserRow] exGetUser false (some "Bearer abc") = .next (some exReqUser)
    ∧ (exReqUser.email_verified = true ↔
        ∃ ts, exReqUser.supabase_user.email_confirmed_at = some ts ∧ ts ≠ "") :=
  ⟨((authenticateToken_spec [exUserRow] exGetUser false (some "Bearer abc")).1
      (some exReqUser)).mpr
      ⟨"abc", exAuthUser, exUserRow, by decide, by decide, by decide, rfl, by decide,
        by decide, rfl⟩,
    ((authenticateToken_spec [exUserRow] exGetUser false (some "Bearer abc")).2.1 exReqUser
      (by decide)).2.2.2⟩

/-! ## Server: order visibility, password reset -/

/-- C15 (order visibility). `GET /orders/:id` answers either 200 with an order
of the datastore that has the id asked for, or 404 "Order not found". For a
requester whose role is not `"admin"` the order returned is owned by the
requester, and when no order with that id is owned by the requester the
answer is 404. For a requester with role `"admin"` the order with that id is
returned whoever owns it, when the select returns it. -/
theorem getOrder_visibility (db : DB) (selectFails : Bool) (user : ReqUser) (id : Nat) :
    ((∃ order, getOrder db selectFails user id = (⟨200, .data (some order.id)⟩, some order)
        ∧ order ∈ db.orders ∧ order.id = id)
      ∨ getOrder db selectFails user id = (⟨404, .message "Order not found"⟩, none))
    ∧ (user.role ≠ some "admin" →
        (∀ order, (getOrder db selectFails user id).2 = some order → order.user_id = user.id)
        ∧ ((¬ ∃ o ∈ db.orders, o.id = id ∧ o.user_id = user.id) →
            getOrder db selectFails user id = (⟨404, .message "Order not found"⟩, none)))
    ∧ (user.role = some "admin" → selectFails = false →
        ∀ order, single (db.orders.filter fun o => o.id = id) = some order →
          getOrder db selectFails user id = (⟨200, .data (some order.id)⟩, some order)) := by
  have hadmin : user.role = some "admin" → getOrder db false user id
      = match single (db.orders.filter fun o => o.id = id) with
        | none => (⟨404, .message "Order not found"⟩, none)
        | some order => (⟨200, .data (some order.id)⟩, some order) := by
    intro h
    simp only [getOrder, ne_eq, h, not_true_eq_false, if_false, Bool.false_eq_true]
  have hother : user.role ≠ some "admin" → getOrder db false user id
      = match single ((db.orders.filter fun o => o.id = id).filter
          fun o => o.user_id = user.id) with
        | none => (⟨404, .message "Order not found"⟩, none)
        | some order => (⟨200, .data (some order.id)⟩, some order) := by
    intro h
    simp only [getOrder, ne_eq, h, not_false_eq_true, if_true, if_false, Bool.false_eq_true]
  have hfail : getOrder db true user id = (⟨404, .message "Order not found"⟩, none) := by
    simp only [getOrder, if_true]
  refine ⟨?_, ?_, ?_⟩
  · cases selectFails with
    | true => exact Or.inr hfail
    | false =>
      by_cases hr : user.role = some "admin"
      · rw [hadmin hr]
        cases hq : single (db.orders.filter fun o => o.id = id) with
        | none => exact Or.inr rfl
        | some o =>
          have h1 := single_mem_filter _ _ _ hq
          exact Or.inl ⟨o, rfl, h1.1, by simpa using h1.2⟩
      · rw [hother hr]
        cases hq : single ((db.orders.filter fun o => o.id = id).filter
            fun o => o.user_id = user.id) with
        | none => exact Or.inr rfl
        | some o =>
          have h1 := single_mem_filter _ _ _ hq
          have h2 := List.mem_filter.mp h1.1
          exact Or.inl ⟨o, rfl, h2.1, by simpa using h2.2⟩
  · intro hr
    constructor
    · intro order hsome
      cases selectFails with
      | true => rw [hfail] at hsome; cases hsome
      | false =>
        rw [hother hr] at hsome
        cases hq : single ((db.orders.filter fun o => o.id = id).filter
            fun o => o.user_id = user.id) with
        | none => rw [hq] at hsome; cases hsome
        | some o =>
          rw [hq] at hsome
          cases hsome
          simpa using (single_mem_filter _ _ _ hq).2
    · intro hno
      have hnil : ((db.orders.filter fun o => o.id = id).filter fun o => o.user_id = user.id)
          = [] := by
        rw [List.filter_eq_nil_iff]
        intro o ho hu
        have ho' := List.mem_filter.mp ho
        exact hno ⟨o, ho'.1, by simpa using ho'.2, by simpa using hu⟩
      cases selectFails with
      | true => exact hfail
      | false => rw [hother hr, hnil]; rfl
  · intro hr hf order hsome
    subst hf
    rw [hadmin hr, hsome]

/-- Witness for `getOrder_visibility`: order 4 of user 9 is not shown to user 7
and is shown to the administrator. -/
theorem getOrder_visibility_witness :
    getOrder exOrderDB false exReqUser 4 = (⟨404, .message "Order not found"⟩, none)
    ∧ (getOrder exOrderDB false exAdmin 4).1 = ⟨200, .data (some 4)⟩ :=
  ⟨((getOrder_visibility exOrderDB false exReqUser 4).2.1 (by decide)).2 (by decide),
    congrArg Prod.fst ((getOrder_visibility exOrderDB false exAdmin 4).2.2 rfl rfl
      { id := 4, user_id := 9, total_amount := 50, shipping_address_id := 1,
        status := "delivered", payment_method := none, payment_intent_id := none } (by decide))⟩

/-- C16 (forgot-password does not reveal whether the account exists). For a
syntactically valid email the answer of `POST /auth/forgot-password` is 200
with the message "If the email exists, a reset link has been sent" whether
the auth provider reports an error or not; so two valid emails for which the
provider does not throw get the same answer. -/
theorem forgotPassword_uniform (isEmail : String → Bool) (normalizeEmail : String → String)
    (resetPasswordForEmail : String → AuthCall) (email : String)
    (hv : isEmail email = true) :
    (resetPasswordForEmail (normalizeEmail email) ≠ .thrown →
      forgotPassword isEmail normalizeEmail resetPasswordForEmail email
        = ⟨200, .message "If the email exists, a reset link has been sent"⟩)
    ∧ (∀ other, isEmail other = true →
        resetPasswordForEmail (normalizeEmail email) ≠ .thrown →
        resetPasswordForEmail (normalizeEmail other) ≠ .thrown →
        forgotPassword isEmail normalizeEmail resetPasswordForEmail email
          = forgotPassword isEmail normalizeEmail resetPasswordForEmail other) := by
  have key : ∀ e, isEmail e = true → resetPasswordForEmail (normalizeEmail e) ≠ .thrown →
      forgotPassword isEmail normalizeEmail resetPasswordForEmail e
        = ⟨200, .message "If the email exists, a reset link has been sent"⟩ := by
    intro e he hne
    unfold forgotPassword
    simp only [he, not_true_eq_false, if_false]
    cases h : resetPasswordForEmail (normalizeEmail e) with
    | thrown => exact absurd h hne
    | error m => rfl
    | ok => rfl
  exact ⟨key email hv, fun other ho h1 h2 => (key email hv h1).trans (key other ho h2).symm⟩

/-- Witness for `forgotPassword_uniform`: the provider reports an error for an
unknown address and none for a known one; both get the same answer. -/
theorem forgotPassword_uniform_witness :
    forgotPassword exIsEmail id exReset "known@x.io"
      = forgotPassword exIsEmail id exReset "nobody@x.io" :=
  (forgotPassword_uniform exIsEmail id exReset "known@x.io" (by decide)).2 "nobody@x.io"
    (by decide) (by decide) (by decide)

/-! ## Server: the total of the cart and the total of the order -/

theorem reduceTotal_eq (items : List CartItem) :
    ∀ (t : ℚ), (∀ item ∈ items, item.products ≠ none) →
      reduceTotal id items t = some (t + cartSum items) := by
  induction items with
  | nil => intro t _; simp [reduceTotal, cartSum]
  | cons item rest ih =>
    intro t hall
    cases hp : item.products with
    | none => exact absurd hp (hall item (List.mem_cons_self _ _))
    | some products =>
      have := ih (t + products.price * (item.quantity : ℚ))
        (fun x hx => hall x (List.mem_cons_of_mem _ hx))
      simp only [reduceTotal, hp, id_eq, this]
      simp [cartSum, unitPrice, hp, add_assoc]

theorem validateCart_eq (items : List CartItem) :
    ∀ (t : ℚ), (∀ item ∈ items, ∃ products, item.products = some products
        ∧ products.is_active = true ∧ item.quantity ≤ products.stock_quantity) →
      validateCart id items t = .ok (t + cartSum items) := by
  induction items with
  | nil => intro t _; simp [validateCart, cartSum]
  | cons item rest ih =>
    intro t hall
    obtain ⟨products, hp, hact, hq⟩ := hall item (List.mem_cons_self _ _)
    have := ih (t + products.price * (item.quantity : ℚ))
      (fun x hx => hall x (List.mem_cons_of_mem _ hx))
    simp only [validateCart, hp, hact, not_true_eq_false, if_false, not_lt.mpr hq, id_eq, this]
    simp [cartSum, unitPrice, hp, add_assoc]

theorem cartSum_perm (items items' : List CartItem) (h : items'.Perm items) :
    cartSum items' = cartSum items := by
  unfold cartSum
  exact (h.map _).sum_eq

/-- C19 (cart total and order total). When `POST /orders` succeeds, the
`total_amount` it writes and the total `GET /cart` returns for the same cart
rows are both the sum over the rows of product price times quantity; and
both computations give that sum whatever the order in which the rows are
read. Prices are exact here as in the claim: the arithmetic of both handlers
is taken without rounding (`id`). -/
theorem cart_total_eq_order_total (db : DB) (f : OrderFaults) (u : Nat) (valid : Bool)
    (a : ShippingAddress) (h : (createOrder id db f u valid a).response.status = 201) :
    ∃ order, (createOrder id db f u valid a).db.orders = db.orders ++ [order]
      ∧ order.total_amount = cartSum (selectCart db u)
      ∧ getCart id db false u = (⟨200, .data none⟩, some order.total_amount)
      ∧ ∀ items, items.Perm (selectCart db u) →
          reduceTotal id items 0 = some order.total_amount
          ∧ validateCart id items 0 = .ok order.total_amount := by
  obtain ⟨total, ht, hnone, hdb, _⟩ := createOrder_created id db f u valid a h
  obtain ⟨_, _, _, horders, _⟩ := createOrderItems_done f _ _ _ _ hnone
  obtain ⟨_, hvalid⟩ := validateCart_ok id _ _ _ ht
  have hsum : total = cartSum (selectCart db u) := by
    have h2 := validateCart_eq (selectCart db u) 0 hvalid
    rw [ht, zero_add] at h2
    injection h2
  have hall : ∀ items : List CartItem, items.Perm (selectCart db u) →
      ∀ item ∈ items, ∃ products : Product, item.products = some products
        ∧ products.is_active = true ∧ item.quantity ≤ products.stock_quantity :=
    fun items hp item hi => hvalid item (hp.mem_iff.mp hi)
  have hred : ∀ items : List CartItem, items.Perm (selectCart db u) →
      reduceTotal id items 0 = some total := by
    intro items hp
    rw [reduceTotal_eq items 0 (fun item hi => by
      obtain ⟨ps, hps, _⟩ := hall items hp item hi
      simp [hps]), zero_add, cartSum_perm _ _ hp, hsum]
  refine ⟨newOrder db u a total, ?_, hsum, ?_, ?_⟩
  · rw [hdb, (clearCart_keeps _ _ _).1, horders]
    rfl
  · simp only [getCart, Bool.false_eq_true, if_false,
      hred _ (List.reverse_perm (selectCart db u))]
    rfl
  · intro items hp
    refine ⟨hred items hp, ?_⟩
    rw [validateCart_eq items 0 (hall items hp), zero_add, cartSum_perm _ _ hp, hsum]
    rfl

/-- Witness for `cart_total_eq_order_total`: the cart of one mug and two lamps. -/
theorem cart_total_eq_order_total_witness :
    ∃ order, (createOrder id exDB OrderFaults.none 1 true exAddress).db.orders
        = exDB.orders ++ [order]
      ∧ order.total_amount = cartSum (selectCart exDB 1)
      ∧ getCart id exDB false 1 = (⟨200, .data none⟩, some order.total_amount) :=
  have ⟨order, h1, h2, h3, _⟩ :=
    cart_total_eq_order_total exDB OrderFaults.none 1 true exAddress (by decide)
  ⟨order, h1, h2, h3⟩

/-! ## Server: review gating -/

/-- The handler of `POST /reviews` inserts only after the purchase select returned a delivered
order item of the user for the product and the review select returned no
review; every other answer leaves the table as it was. -/
theorem addReview_gating (db : DB) (reviews : List Review) (f : ReviewFaults) (u p : Nat)
    (rating : Int) (comment : String) :
    ((addReview db reviews f u p rating comment).1.status = 201 →
      f.selectOrderItems = false ∧ purchasedItems db u p ≠ []
      ∧ (f.selectReview = true
          ∨ single (reviews.filter fun r => r.product_id = p ∧ r.user_id = u) = none)
      ∧ (addReview db reviews f u p rating comment).2
          = reviews ++ [{ id := nextId (reviews.map (·.id)), product_id := p, user_id := u,
                          rating := rating, comment := comment }])
    ∧ ((addReview db reviews f u p rating comment).1.status ≠ 201 →
        (addReview db reviews f u p rating comment).2 = reviews)
    ∧ ((f.selectOrderItems = true ∨ purchasedItems db u p = []
          ∨ (f.selectReview = false
              ∧ ∃ r, single (reviews.filter fun r => r.product_id = p ∧ r.user_id = u)
                  = some r)) →
        (addReview db reviews f u p rating comment).1.status = 400
        ∧ (addReview db reviews f u p rating comment).2 = reviews) := by
  unfold addReview
  cases hso : f.selectOrderItems with
  | true => simp
  | false =>
    simp only [Bool.false_eq_true, if_false]
    by_cases hp : purchasedItems db u p = []
    · simp [hp]
    · have hlen : ¬ (purchasedItems db u p).length = 0 := by
        simpa [List.length_eq_zero] using hp
      simp only [hlen, if_false]
      cases hsr : f.selectReview with
      | true =>
        simp only [if_true]
        cases hi : f.insertReview with
        | true => simp [hp]
        | false => simp [hp]
      | false =>
        simp only [Bool.false_eq_true, if_false]
        cases hq : single (reviews.filter fun r => r.product_id = p ∧ r.user_id = u) with
        | some r => simp [hp]
        | none =>
          cases hi : f.insertReview with
          | true => simp [hp]
          | false => simp [hp]

/-- When the select of the existing review does not fail, `POST /reviews` keeps
at most one review per user and product. -/
theorem addReview_onePerPair (db : DB) (reviews : List Review) (f : ReviewFaults) (u p : Nat)
    (rating : Int) (comment : String) (hf : f.selectReview = false)
    (h : oneReviewPerPair reviews) :
    oneReviewPerPair (addReview db reviews f u p rating comment).2 := by
  by_cases h201 : (addReview db reviews f u p rating comment).1.status = 201
  · obtain ⟨_, _, hnone, heq⟩ := (addReview_gating db reviews f u p rating comment).1 h201
    rcases hnone with hnone | hnone
    · rw [hf] at hnone; cases hnone
    · rw [heq]
      have hlen : (reviews.filter fun r => r.product_id = p ∧ r.user_id = u).length ≤ 1 := by
        apply length_le_one_of_pairwise _ _ (List.Pairwise.sublist (List.filter_sublist _) h)
        intro a ha b hb
        have ha' := (List.mem_filter.mp ha).2
        have hb' := (List.mem_filter.mp hb).2
        simp only [decide_eq_true_eq] at ha' hb'
        exact fun hn => hn ⟨ha'.2.trans hb'.2.symm, ha'.1.trans hb'.1.symm⟩
      have hnil := filter_eq_nil_of_single_none _ hnone hlen
      unfold oneReviewPerPair at *
      rw [List.pairwise_append]
      refine ⟨h, by simp, ?_⟩
      intro a ha b hb
      simp only [List.mem_singleton] at hb
      subst hb
      simp only []
      intro hab
      have : a ∈ reviews.filter fun r => r.product_id = p ∧ r.user_id = u := by
        apply List.mem_filter.mpr
        exact ⟨ha, by simpa using ⟨hab.2, hab.1⟩⟩
      rw [hnil] at this
      simp at this
  · rw [(addReview_gating db reviews f u p rating comment).2.1 h201]
    exact h

/-- C17 (review gating), evaluated on the code. User 7 has bought the mug and
has reviewed it; a second `POST /reviews` for the mug arrives and the select
of the existing review fails. The handler reads no error from that select,
takes the review as absent and inserts a second review of user 7 for the
mug, answering 201. -/
theorem addReview_duplicates_on_failed_lookup :
    oneReviewPerPair exReviews
    ∧ (addReview exDeliveredDB exReviews { ReviewFaults.none with selectReview := true }
        7 1 4 "Again").1.status = 201
    ∧ (addReview exDeliveredDB exReviews { ReviewFaults.none with selectReview := true }
        7 1 4 "Again").2
        = [{ id := 1, product_id := 1, user_id := 7, rating := 5, comment := "Good" },
           { id := 2, product_id := 1, user_id := 7, rating := 4, comment := "Again" }]
    ∧ ¬ oneReviewPerPair (addReview exDeliveredDB exReviews
        { ReviewFaults.none with selectReview := true } 7 1 4 "Again").2 := by
  decide

/-! ## Server: lazy materialisation of the order of a checkout session -/

theorem setStock_ids (products : List Product) (productId : Nat) (stock : Int) :
    (setStock products productId stock).map (·.id) = products.map (·.id) := by
  unfold setStock
  rw [List.map_map]
  apply List.map_congr_left
  intro p _
  by_cases h : p.id = productId <;> simp [h]

theorem filter_id_nil (products : List Product) (productId : Nat)
    (h : productId ∉ products.map (·.id)) :
    products.filter (fun x => x.id = productId) = [] := by
  rw [List.filter_eq_nil_iff]
  intro x hx hid
  simp only [decide_eq_true_eq] at hid
  exact h (List.mem_map.mpr ⟨x, hx, hid⟩)

theorem filter_id_of_nodup (products : List Product) (h : (products.map (·.id)).Nodup) :
    ∀ p ∈ products, products.filter (fun x => x.id = p.id) = [p] := by
  induction products with
  | nil => intro p hp; simp at hp
  | cons a rest ih =>
    intro p hp
    simp only [List.map_cons, List.nodup_cons] at h
    rcases List.mem_cons.mp hp with hpa | hpr
    · subst hpa
      simp only [List.filter_cons, decide_True, if_true]
      rw [filter_id_nil rest p.id h.1]
    · have hne : a.id ≠ p.id := by
        intro he
        exact h.1 (he ▸ List.mem_map.mpr ⟨p, hpr, rfl⟩)
      simp only [List.filter_cons, hne, decide_False]
      exact ih h.2 p hpr

/-- C13 as stated fails on the code. The first call for a paid session inserts
the address and the order, fails to insert the order items and answers 500;
the second call finds the order and returns its id. Two sequential calls
have then created one order with no order item, no stock has been lowered,
the cart is not cleared, and only the second call returned an order id. -/
theorem sessionStatus_partial_then_found :
    (sessionStatus binary64 exDB exItemsFail (some exSession)).response
        = ⟨500, .error "Failed to retrieve session status"⟩
    ∧ (sessionStatus binary64 (sessionStatus binary64 exDB exItemsFail (some exSession)).db OrderFaults.none
        (some exSession)).response = ⟨200, .data (some 1)⟩
    ∧ (sessionStatus binary64 (sessionStatus binary64 exDB exItemsFail (some exSession)).db OrderFaults.none
        (some exSession)).db.orders.map (·.id) = [1]
    ∧ (sessionStatus binary64 (sessionStatus binary64 exDB exItemsFail (some exSession)).db OrderFaults.none
        (some exSession)).db.order_items = []
    ∧ (sessionStatus binary64 (sessionStatus binary64 exDB exItemsFail (some exSession)).db OrderFaults.none
        (some exSession)).db.products.map (·.stock_quantity) = [5, 3]
    ∧ (sessionStatus binary64 (sessionStatus binary64 exDB exItemsFail (some exSession)).db OrderFaults.none
        (some exSession)).db.cart = exDB.cart := by
  decide

theorem recordPaidOrder_addresses (db : DB) (f : OrderFaults) (u : Nat) (subtotal : ℚ)
    (method intent : String) (items : List PayItem) (a : ShippingAddress)
    (h1 : f.insertAddress = false) :
    (recordPaidOrder db f u subtotal method intent items a).1.addresses
      = db.addresses ++ [addressRow db u a] := by
  cases h2 : f.insertOrder with
  | true => simp only [recordPaidOrder, h1, h2, Bool.false_eq_true, if_false, if_true]
  | false =>
    cases h3 : f.insertOrderItem 0 with
    | true => simp only [recordPaidOrder, h1, h2, h3, Bool.false_eq_true, if_false, if_true]
    | false =>
      simp only [recordPaidOrder, h1, h2, h3, Bool.false_eq_true, if_false]
      rw [(clearCart_keeps _ _ _).2.2.1, (lowerStock_keeps f items 0 _).2.2.1]

/-- The session-status handler when its lookup returns an order: the id of that
order, no write. -/
theorem sessionStatus_found (fl : ℚ → ℚ) (db : DB) (f : OrderFaults) (session : Session)
    (existing : Order) (hc : session.status = "complete")
    (hp : session.payment_status = "paid") (hf : f.selectOrder = false)
    (hex : single (db.orders.filter fun o => o.payment_intent_id = some session.payment_intent)
      = some existing) :
    (sessionStatus fl db f (some session)).response = ⟨200, .data (some existing.id)⟩
    ∧ (sessionStatus fl db f (some session)).db = db
    ∧ (sessionStatus fl db f (some session)).trace = [⟨.select, .orders, none⟩] := by
  simp only [sessionStatus, hc, hp, and_self, if_true, hf, Bool.false_eq_true, if_false, hex]

theorem sessionStatus_response (fl : ℚ → ℚ)
    (db : DB) (f : OrderFaults) (session : Session) (orderId : Nat)
    (hc : session.status = "complete") (hp : session.payment_status = "paid")
    (hex : (if f.selectOrder then none
      else single (db.orders.filter fun o => o.payment_intent_id = some session.payment_intent))
      = none)
    (hid : (recordPaidOrder db f session.user_id
        (payTotal fl (sessionSubtotal fl session.cart_items))
        "stripe" session.payment_intent session.cart_items session.shipping_address).2.2
      = some orderId) :
    (sessionStatus fl db f (some session)).response = ⟨200, .data (some orderId)⟩ := by
  simp only [sessionStatus, hc, hp, and_self, if_true, hex]
  simp only [sessionSubtotal] at hid
  split
  · rename_i heq
    rw [heq] at hid
    cases hid
  · rename_i heq
    rw [heq] at hid
    cases hid
    rfl

theorem sessionStatus_trace (fl : ℚ → ℚ) (db : DB) (f : OrderFaults) (session : Session)
    (hc : session.status = "complete") (hp : session.payment_status = "paid")
    (hex : (if f.selectOrder then none
      else single (db.orders.filter fun o => o.payment_intent_id = some session.payment_intent))
      = none) :
    (sessionStatus fl db f (some session)).trace
      = [⟨.select, .orders, none⟩] ++ (recordPaidOrder db f session.user_id
          (payTotal fl (sessionSubtotal fl session.cart_items))
          "stripe" session.payment_intent session.cart_items session.shipping_address).2.1 := by
  simp only [sessionStatus, hc, hp, and_self, if_true, hex, sessionSubtotal]
  split <;> simp_all

/-- The shared part of the payment handlers when its three inserts succeed: the
inserts, then the stock loop on a datastore with the same products, then the
cart delete. -/
theorem recordPaidOrder_loop (db : DB) (f : OrderFaults) (u : Nat) (total : ℚ)
    (method intent : String) (items : List PayItem) (a : ShippingAddress)
    (h1 : f.insertAddress = false) (h2 : f.insertOrder = false)
    (h3 : f.insertOrderItem 0 = false) :
    ∃ db' : DB, db'.products = db.products
      ∧ (recordPaidOrder db f u total method intent items a).2.1
        = [⟨.insert, .addresses, none⟩, ⟨.insert, .orders, none⟩,
            ⟨.insert, .order_items, none⟩]
          ++ (lowerStock f 0 items db').2 ++ [⟨.delete, .cart, none⟩]
      ∧ (recordPaidOrder db f u total method intent items a).1.products
        = (lowerStock f 0 items db').1.products := by
  simp only [recordPaidOrder, h1, h2, h3, Bool.false_eq_true, if_false]
  refine ⟨_, ?_, rfl, (clearCart_keeps _ _ _).2.2.2⟩
  rfl

/-- C13, amended. For a session that is complete and paid, the handler returns
the id of the existing order and writes nothing when its lookup returns the
one order with the session's payment intent. Hence two sequential calls for
the same session, before which no order has that payment intent and in which
the inserts of the first call and the lookup of the second succeed, create
one order, one address and one set of order items and make one pass of stock
decrements, and both return the id of that order: the second call issues the
lookup only and writes nothing, and the first call, when its stock reads
succeed (product ids being unique), issues after its inserts one read and one
update of the stock for each cart item whose product exists, which, when the
updates succeed too, lowers that stock once by the item's quantity, not below
0. -/
theorem sessionStatus_idempotent (fl : ℚ → ℚ) (db : DB) (f₁ f₂ : OrderFaults)
    (session : Session)
    (hc : session.status = "complete") (hp : session.payment_status = "paid") :
    (∀ existing, f₁.selectOrder = false →
      single (db.orders.filter fun o => o.payment_intent_id = some session.payment_intent)
        = some existing →
      (sessionStatus fl db f₁ (some session)).response = ⟨200, .data (some existing.id)⟩
      ∧ (sessionStatus fl db f₁ (some session)).db = db
      ∧ (sessionStatus fl db f₁ (some session)).trace = [⟨.select, .orders, none⟩])
    ∧ ((db.orders.filter fun o => o.payment_intent_id = some session.payment_intent) = [] →
      f₁.insertAddress = false → f₁.insertOrder = false → f₁.insertOrderItem 0 = false →
      f₂.selectOrder = false →
      ∃ order,
        order.payment_intent_id = some session.payment_intent
        ∧ (sessionStatus fl db f₁ (some session)).db.orders = db.orders ++ [order]
        ∧ (sessionStatus fl db f₁ (some session)).db.addresses
            = db.addresses ++ [addressRow db session.user_id session.shipping_address]
        ∧ (sessionStatus fl db f₁ (some session)).db.order_items
            = db.order_items ++ session.cart_items.map (paidItemOf order.id)
        ∧ (sessionStatus fl db f₁ (some session)).response = ⟨200, .data (some order.id)⟩
        ∧ (sessionStatus fl (sessionStatus fl db f₁ (some session)).db f₂
            (some session)).response = ⟨200, .data (some order.id)⟩
        ∧ (sessionStatus fl (sessionStatus fl db f₁ (some session)).db f₂ (some session)).db
            = (sessionStatus fl db f₁ (some session)).db
        ∧ (sessionStatus fl (sessionStatus fl db f₁ (some session)).db f₂ (some session)).trace
            = [⟨.select, .orders, none⟩]
        ∧ ((∀ i, f₁.selectStock i = false) → (db.products.map (·.id)).Nodup →
          (sessionStatus fl db f₁ (some session)).trace
            = [⟨.select, .orders, none⟩, ⟨.insert, .addresses, none⟩,
               ⟨.insert, .orders, none⟩, ⟨.insert, .order_items, none⟩]
              ++ session.cart_items.flatMap (fun item =>
                  if item.product_id ∈ db.products.map (·.id) then
                    [⟨.select, .products, some item.product_id⟩,
                     ⟨.update, .products, some item.product_id⟩]
                  else [⟨.select, .products, some item.product_id⟩])
              ++ [⟨.delete, .cart, none⟩]
          ∧ ((∀ i, f₁.updateStock i = false) →
            (sessionStatus fl db f₁ (some session)).db.products
              = decrementedOnce db.products session.cart_items
            ∧ (sessionStatus fl (sessionStatus fl db f₁ (some session)).db f₂
                (some session)).db.products
              = decrementedOnce db.products session.cart_items))) := by
  refine ⟨fun existing hf hex => sessionStatus_found fl db f₁ session existing hc hp hf hex, ?_⟩
  intro hnil h1 h2 h3 hf2
  have hex : (if f₁.selectOrder then none
      else single (db.orders.filter
        fun o => o.payment_intent_id = some session.payment_intent)) = none := by
    rw [hnil]
    split <;> rfl
  obtain ⟨ho, hi⟩ := recordPaidOrder_rows db f₁ session.user_id
    (payTotal fl (sessionSubtotal fl session.cart_items)) "stripe"
    session.payment_intent session.cart_items session.shipping_address h1 h2
  obtain ⟨hitems, hid⟩ := hi h3
  have hdb := sessionStatus_db fl db f₁ session hc hp hex
  have horders : (sessionStatus fl db f₁ (some session)).db.orders
      = db.orders ++ [paidOrder db session.user_id session.shipping_address
          (payTotal fl (sessionSubtotal fl session.cart_items)) "stripe"
          session.payment_intent] := by
    rw [hdb]; exact ho
  have hsingle : single ((sessionStatus fl db f₁ (some session)).db.orders.filter
      fun o => o.payment_intent_id = some session.payment_intent)
      = some (paidOrder db session.user_id session.shipping_address
          (payTotal fl (sessionSubtotal fl session.cart_items)) "stripe"
          session.payment_intent) := by
    rw [horders, List.filter_append, hnil]
    simp [paidOrder, single]
  obtain ⟨r2, d2, t2⟩ := sessionStatus_found fl (sessionStatus fl db f₁ (some session)).db f₂
    session _ hc hp hf2 hsingle
  refine ⟨_, rfl, horders, ?_, ?_, ?_, r2, d2, t2, ?_⟩
  · rw [hdb]
    exact recordPaidOrder_addresses db f₁ _ _ _ _ _ _ h1
  · rw [hdb]; exact hitems
  · exact sessionStatus_response fl db f₁ session _ hc hp hex hid
  · intro hs hids
    have hone : ∀ (i : Nat) (item : PayItem) (db : DB),
        (db.products.map (·.id)).Nodup →
        (lowerOne f₁ i item db).2
          = (if item.product_id ∈ db.products.map (·.id) then
              [⟨.select, .products, some item.product_id⟩,
               ⟨.update, .products, some item.product_id⟩]
            else [⟨.select, .products, some item.product_id⟩])
        ∧ (lowerOne f₁ i item db).1.products.map (·.id) = db.products.map (·.id)
        ∧ (f₁.updateStock i = false →
          (lowerOne f₁ i item db).1.products = db.products.map fun p =>
            if p.id = item.product_id then
              { p with stock_quantity := max 0 (p.stock_quantity - item.quantity) }
            else p) := by
      intro i item db hids
      have hs := hs i
      by_cases hmem : item.product_id ∈ db.products.map (·.id)
      · obtain ⟨p, hp, hpid⟩ := List.mem_map.mp hmem
        have hf := filter_id_of_nodup db.products hids p hp
        simp only [hpid] at hf
        have hsingle : single (db.products.filter fun x => x.id = item.product_id) = some p := by
          rw [hf]; rfl
        have hmap : setStock db.products item.product_id (max 0 (p.stock_quantity - item.quantity))
            = db.products.map fun x =>
              if x.id = item.product_id then
                { x with stock_quantity := max 0 (x.stock_quantity - item.quantity) }
              else x := by
          unfold setStock
          apply List.map_congr_left
          intro x hx
          by_cases hxi : x.id = item.product_id
          · have hxp : x = p := by
              have hx' : x ∈ db.products.filter fun y => y.id = item.product_id :=
                List.mem_filter.mpr ⟨hx, by simpa using hxi⟩
              rw [hf] at hx'
              simpa using hx'
            simp [hxi, hxp]
          · simp [hxi]
        cases hu : f₁.updateStock i with
        | true =>
          simp only [lowerOne, hs, Bool.false_eq_true, if_false, hsingle, hu, if_true, hmem]
          refine ⟨?_, ?_, ?_⟩ <;> first | trivial | rfl | (intro h; cases h)
        | false =>
          simp only [lowerOne, hs, Bool.false_eq_true, if_false, hsingle, hu, hmem, if_true]
          refine ⟨?_, ?_, ?_⟩ <;>
            first | trivial | rfl | exact setStock_ids _ _ _ | exact fun _ => hmap
      · have hsingle : single (db.products.filter fun x => x.id = item.product_id) = none := by
          rw [filter_id_nil _ _ hmem]; rfl
        simp only [lowerOne, hs, Bool.false_eq_true, if_false, hsingle, hmem]
        refine ⟨trivial, trivial, fun _ => ?_⟩
        symm
        conv_rhs => rw [← List.map_id db.products]
        apply List.map_congr_left
        intro x hx
        have : x.id ≠ item.product_id := fun he => hmem (he ▸ List.mem_map.mpr ⟨x, hx, rfl⟩)
        simp [this]
    have hloop : ∀ (items : List PayItem) (i : Nat) (db' : DB),
        (db'.products.map (·.id)).Nodup →
        (lowerStock f₁ i items db').2
          = items.flatMap (fun item =>
              if item.product_id ∈ db'.products.map (·.id) then
                [⟨.select, .products, some item.product_id⟩,
                 ⟨.update, .products, some item.product_id⟩]
              else [⟨.select, .products, some item.product_id⟩])
        ∧ ((∀ i, f₁.updateStock i = false) →
          (lowerStock f₁ i items db').1.products = decrementedOnce db'.products items) := by
      intro items
      induction items with
      | nil => intro i db' _; simp [lowerStock, decrementedOnce]
      | cons item rest ih =>
        intro i db' hn
        obtain ⟨l1, l2, l3⟩ := hone i item db' hn
        obtain ⟨r1, r2⟩ := ih (i + 1) (lowerOne f₁ i item db').1 (by rw [l2]; exact hn)
        simp only [lowerStock]
        constructor
        · rw [l1, r1]
          simp only [l2, List.flatMap_cons]
        · intro hu
          rw [r2 hu, l3 (hu i)]
          simp only [decrementedOnce, List.foldl_cons]
    obtain ⟨db', hp', ht', hpr'⟩ := recordPaidOrder_loop db f₁ session.user_id
      (payTotal fl (sessionSubtotal fl session.cart_items)) "stripe"
      session.payment_intent session.cart_items session.shipping_address h1 h2 h3
    obtain ⟨hcalls, hstock⟩ := hloop session.cart_items 0 db' (by rw [hp']; exact hids)
    rw [hp'] at hcalls hstock
    constructor
    · rw [sessionStatus_trace fl db f₁ session hc hp hex, ht', hcalls]
      rfl
    · intro hu
      have hfirst : (sessionStatus fl db f₁ (some session)).db.products
          = decrementedOnce db.products session.cart_items := by
        rw [hdb, hpr']; exact hstock hu
      exact ⟨hfirst, by rw [d2]; exact hfirst⟩

/-- Witness for `sessionStatus_idempotent`: two calls for the session of user 1
with no call failing; both return order 1, and the stock of the mug has gone
from five to four, once. The calls of the first request and of the second,
and the ids of the rows the two requests leave, are also given in full. -/
theorem sessionStatus_idempotent_witness :
    (∃ order,
      (sessionStatus binary64 exDB OrderFaults.none (some exSession)).db.orders = exDB.orders ++ [order]
      ∧ (sessionStatus binary64 exDB OrderFaults.none (some exSession)).response
          = ⟨200, .data (some order.id)⟩
      ∧ (sessionStatus binary64 (sessionStatus binary64 exDB OrderFaults.none (some exSession)).db
          OrderFaults.none (some exSession)).response = ⟨200, .data (some order.id)⟩
      ∧ (sessionStatus binary64 (sessionStatus binary64 exDB OrderFaults.none (some exSession)).db
          OrderFaults.none (some exSession)).db
          = (sessionStatus binary64 exDB OrderFaults.none (some exSession)).db
      ∧ (sessionStatus binary64 (sessionStatus binary64 exDB OrderFaults.none (some exSession)).db
          OrderFaults.none (some exSession)).db.products
          = decrementedOnce exDB.products exSession.cart_items)
    ∧ (decrementedOnce exDB.products exSession.cart_items).map (·.stock_quantity) = [4, 3]
    ∧ (sessionStatus binary64 (sessionStatus binary64 exDB OrderFaults.none (some exSession)).db
        OrderFaults.none (some exSession)).db.products.map (·.stock_quantity) = [4, 3]
    ∧ (sessionStatus binary64 exDB OrderFaults.none (some exSession)).trace
        = [⟨.select, .orders, none⟩, ⟨.insert, .addresses, none⟩, ⟨.insert, .orders, none⟩,
           ⟨.insert, .order_items, none⟩, ⟨.select, .products, some 1⟩,
           ⟨.update, .products, some 1⟩, ⟨.delete, .cart, none⟩]
    ∧ (sessionStatus binary64 (sessionStatus binary64 exDB OrderFaults.none (some exSession)).db
        OrderFaults.none (some exSession)).trace = [⟨.select, .orders, none⟩]
    ∧ (sessionStatus binary64 (sessionStatus binary64 exDB OrderFaults.none (some exSession)).db
        OrderFaults.none (some exSession)).db.orders.map (·.id) = [1]
    ∧ (sessionStatus binary64 (sessionStatus binary64 exDB OrderFaults.none (some exSession)).db
        OrderFaults.none (some exSession)).db.addresses.map (·.id) = [1]
    ∧ (sessionStatus binary64 (sessionStatus binary64 exDB OrderFaults.none (some exSession)).db
        OrderFaults.none (some exSession)).db.order_items.map
          (fun it => (it.order_id, it.product_id, it.quantity)) = [(1, 1, 1)] :=
  have ⟨order, _, h1, _, _, h4, h5, h6, _, h8⟩ :=
    (sessionStatus_idempotent binary64 exDB OrderFaults.none OrderFaults.none exSession rfl rfl).2
      (by decide) rfl rfl rfl rfl
  ⟨⟨order, h1, h4, h5, h6, ((h8 (fun _ => rfl) (by decide)).2 (fun _ => rfl)).2⟩, by decide,
    by decide, by decide, by decide, by decide, by decide, by decide⟩

/-! ## Server: the statuses of the responses -/

theorem addToCart_status (db : DB) (f : CartFaults) (u p : Nat) (q : JSValue) :
    listedStatus (addToCart db f u p q).response.status := by
  unfold addToCart listedStatus
  split
  · simp
  · simp only []
    split
    · simp
    · split
      · simp
      · split
        · simp
        · split
          · split
            · simp
            · split <;> simp
          · split <;> simp

theorem updateCartItem_status (db : DB) (f : CartFaults) (u id : Nat) (q : JSValue) :
    listedStatus (updateCartItem db f u id q).response.status := by
  unfold updateCartItem listedStatus
  split
  · simp
  · simp only []
    split
    · simp
    · split
      · simp
      · split
        · simp
        · split
          · simp
          · split <;> simp

theorem createOrder_status (fl : ℚ → ℚ) (db : DB) (f : OrderFaults) (u : Nat) (valid : Bool)
    (a : ShippingAddress) :
    (createOrder fl db f u valid a).response.status = 201
    ∨ (createOrder fl db f u valid a).response.status = 400
    ∨ (createOrder fl db f u valid a).response.status = 500 := by
  unfold createOrder
  split
  · simp
  · simp only []
    split
    · simp
    · split
      · rename_i r hr
        rcases validateCart_error fl _ _ _ hr with h | h <;> simp [h]
      · split
        · simp
        · split
          · simp
          · split
            · rename_i db' t4 r hr
              have := createOrderItems_error f _ _ _ _ r (by rw [hr])
              simp [this]
            · simp

theorem sessionStatus_status (fl : ℚ → ℚ) (db : DB) (f : OrderFaults) (session : Option Session) :
    (sessionStatus fl db f session).response.status = 200
    ∨ (sessionStatus fl db f session).response.status = 500 := by
  unfold sessionStatus
  split
  · simp
  · split
    · simp only []
      split
      · simp
      · split <;> simp
    · simp

theorem getOrder_status (db : DB) (selectFails : Bool) (user : ReqUser) (id : Nat) :
    (getOrder db selectFails user id).1.status = 200
    ∨ (getOrder db selectFails user id).1.status = 404 := by
  unfold getOrder
  simp only []
  split <;> simp

theorem forgotPassword_status (isEmail : String → Bool) (normalizeEmail : String → String)
    (resetPasswordForEmail : String → AuthCall) (email : String) :
    listedStatus (forgotPassword isEmail normalizeEmail resetPasswordForEmail email).status := by
  unfold forgotPassword listedStatus
  split
  · simp
  · split <;> simp

theorem addReview_status (db : DB) (reviews : List Review) (f : ReviewFaults) (u p : Nat)
    (rating : Int) (comment : String) :
    listedStatus (addReview db reviews f u p rating comment).1.status := by
  unfold addReview listedStatus
  simp only []
  split
  · simp
  · split
    · simp
    · split
      · simp
      · split <;> simp

theorem getCart_status (fl : ℚ → ℚ) (db : DB) (selectFails : Bool) (u : Nat) :
    (getCart fl db selectFails u).1.status = 200
    ∨ (getCart fl db selectFails u).1.status = 500 := by
  unfold getCart
  split
  · simp
  · simp only []
    split <;> simp

theorem authenticateToken_status (users : List UserRow) (getUser : String → GetUser)
    (selectFails : Bool) (authHeader : Option String) (r : Response)
    (h : authenticateToken users getUser selectFails authHeader = .respond r) :
    r.status = 401 ∨ r.status = 403 := by
  unfold authenticateToken at h
  simp only [] at h
  split at h
  · cases h; simp
  · split at h
    · cases h; simp
    · cases h; simp
    · split at h
      · cases h; simp
      · split at h
        · cases h; simp
        · cases h

theorem requireAdmin_status (user : Option ReqUser) (r : Response)
    (h : requireAdmin user = .respond r) : r.status = 401 ∨ r.status = 403 := by
  unfold requireAdmin at h
  split at h
  · cases h; simp
  · split at h
    · cases h; simp
    · cases h

theorem capturePayPalOrder_status (fl : ℚ → ℚ)
    (db : DB) (f : OrderFaults) (capture : Capture) (u : Nat)
    (orderID : String) (items : List PayItem) (a : ShippingAddress) :
    (capturePayPalOrder fl db f capture u orderID items a).response.status = 500
    ∨ (∃ statusCode, capture = .returned statusCode
        ∧ (capturePayPalOrder fl db f capture u orderID items a).response.status = statusCode)
    ∨ (∃ statusCode message, capture = .apiError (some statusCode) message
        ∧ (capturePayPalOrder fl db f capture u orderID items a).response.status = statusCode) := by
  unfold capturePayPalOrder
  split
  · rename_i statusCode message
    cases statusCode with
    | none => simp
    | some c =>
      by_cases hc : c = 0
      · simp [hc]
      · exact Or.inr (Or.inr ⟨c, message, rfl, by simp [hc]⟩)
  · simp
  · rename_i statusCode
    split
    · simp only []
      split
      · simp
      · exact Or.inr (Or.inl ⟨statusCode, rfl, rfl⟩)
    · exact Or.inr (Or.inl ⟨statusCode, rfl, rfl⟩)

theorem Route.status_listed (thrown : Bool) (c : Nat → Bool) (r : Route) :
    listedStatus (r.status thrown c) := by
  unfold listedStatus
  cases r <;>
    simp only [Route.status, EShop.register, EShop.resendVerification, EShop.login,
      EShop.refresh, EShop.logout, EShop.resetPassword, EShop.verifyEmail, EShop.createAdmin,
      EShop.getProfile, EShop.updateProfile, EShop.getProducts, EShop.getProduct,
      EShop.createProduct, EShop.updateProduct, EShop.deleteProduct, EShop.getCategories,
      EShop.getCategory, EShop.createCategory, EShop.updateCategory, EShop.deleteCategory,
      EShop.removeCartItem, EShop.deleteCart, EShop.getOrders, EShop.updateOrderStatus,
      EShop.getDashboard, EShop.getAdminOrders, EShop.getAdminUsers, EShop.getProductReviews,
      EShop.updateReview, EShop.deleteReview, EShop.getWishlist, EShop.addToWishlist,
      EShop.removeFromWishlist, EShop.createCheckoutSession, EShop.caughtError, EShop.health,
      EShop.errorHandler, EShop.serveFrontend, EShop.routeNotFound] <;>
    (try split_ifs) <;> simp

/-- C12 as stated fails on the PayPal capture handler: an `ApiError` of the
PayPal SDK with `statusCode` 422 is answered with status 422. -/
theorem paypal_relays_status :
    (capturePayPalOrder binary64 exDB OrderFaults.none (.apiError (some 422) "UNPROCESSABLE_ENTITY") 1
        "PAYPAL-1" [exPayItem] exAddress).response.status = 422
    ∧ createPayPalOrder (.apiError (some 422) "UNPROCESSABLE_ENTITY") = 422
    ∧ (422 : Nat) ∉ [400, 401, 403, 404, 500] := by
  decide

/-- C12, amended. Every response of the server's middleware and route handlers
has status 200 or 201 (success) or a status in {400, 401, 403, 404, 500}, for
every request and every outcome of the upstream calls, except the responses
of the four PayPal order handlers: these carry the status code the PayPal
SDK returned, the two under `/payments/paypal/orders` carry the `statusCode`
of an `ApiError` of the SDK (500 when it has none), and 500 otherwise. -/
theorem error_categories :
    (∀ (r : Route) (thrown : Bool) (c : Nat → Bool), listedStatus (r.status thrown c))
    ∧ (∀ users getUser selectFails authHeader r,
        authenticateToken users getUser selectFails authHeader = .respond r →
        listedStatus r.status)
    ∧ (∀ user r, requireAdmin user = .respond r → listedStatus r.status)
    ∧ (∀ db f u p q, listedStatus (addToCart db f u p q).response.status)
    ∧ (∀ db f u id q, listedStatus (updateCartItem db f u id q).response.status)
    ∧ (∀ fl db selectFails u, listedStatus (getCart fl db selectFails u).1.status)
    ∧ (∀ fl db f u valid a, listedStatus (createOrder fl db f u valid a).response.status)
    ∧ (∀ db selectFails user id, listedStatus (getOrder db selectFails user id).1.status)
    ∧ (∀ isEmail normalizeEmail reset email,
        listedStatus (forgotPassword isEmail normalizeEmail reset email).status)
    ∧ (∀ db reviews f u p rating comment,
        listedStatus (addReview db reviews f u p rating comment).1.status)
    ∧ (∀ fl db f session, listedStatus (sessionStatus fl db f session).response.status)
    ∧ (∀ call, officialPayPalRoute call = 500
        ∨ ∃ statusCode, call = .returned statusCode ∧ officialPayPalRoute call = statusCode)
    ∧ (∀ create, createPayPalOrder create = 500
        ∨ (∃ statusCode, create = .returned statusCode ∧ createPayPalOrder create = statusCode)
        ∨ ∃ statusCode message, create = .apiError (some statusCode) message
            ∧ createPayPalOrder create = statusCode)
    ∧ (∀ fl db f capture u orderID items a,
        (capturePayPalOrder fl db f capture u orderID items a).response.status = 500
        ∨ (∃ statusCode, capture = .returned statusCode
            ∧ (capturePayPalOrder fl db f capture u orderID items a).response.status
                = statusCode)
        ∨ ∃ statusCode message, capture = .apiError (some statusCode) message
            ∧ (capturePayPalOrder fl db f capture u orderID items a).response.status
                = statusCode) := by
  refine ⟨fun r thrown c => Route.status_listed thrown c r, ?_, ?_, addToCart_status,
    updateCartItem_status, ?_, ?_, ?_, forgotPassword_status, addReview_status, ?_, ?_, ?_,
    capturePayPalOrder_status⟩
  · intro users getUser selectFails authHeader r h
    rcases authenticateToken_status users getUser selectFails authHeader r h with h | h <;>
      simp [listedStatus, h]
  · intro user r h
    rcases requireAdmin_status user r h with h | h <;> simp [listedStatus, h]
  · intro fl db selectFails u
    rcases getCart_status fl db selectFails u with h | h <;> simp [listedStatus, h]
  · intro fl db f u valid a
    rcases createOrder_status fl db f u valid a with h | h | h <;> simp [listedStatus, h]
  · intro db selectFails user id
    rcases getOrder_status db selectFails user id with h | h <;> simp [listedStatus, h]
  · intro fl db f session
    rcases sessionStatus_status fl db f session with h | h <;> simp [listedStatus, h]
  · intro call
    cases call with
    | returned statusCode => exact Or.inr ⟨statusCode, rfl, rfl⟩
    | apiError statusCode message => exact Or.inl rfl
    | thrown => exact Or.inl rfl
  · intro create
    cases create with
    | returned statusCode => exact Or.inr (Or.inl ⟨statusCode, rfl, rfl⟩)
    | apiError statusCode message =>
      cases statusCode with
      | none => exact Or.inl rfl
      | some c =>
        by_cases hc : c = 0
        · exact Or.inl (by simp [createPayPalOrder, hc])
        · exact Or.inr (Or.inr ⟨c, message, rfl, by simp [createPayPalOrder, hc]⟩)
    | thrown => exact Or.inl rfl

/-- Witness for `error_categories`: without `req.user` the middleware
`requireAdmin` answers 401. -/
theorem error_categories_witness :
    listedStatus (⟨401, .message "Authentication required"⟩ : Response).status :=
  error_categories.2.2.1 none ⟨401, .message "Authentication required"⟩ rfl


/-! ## API client: the refresh flag -/

/-- After a refresh that succeeded the flag is down and the queue is empty. -/
theorem refreshFulfilled_idle (st : ClientState) (originalRequest : Config)
    (accessToken : Option String) :
    (refreshFulfilled st originalRequest accessToken).1.isRefreshing = false
    ∧ (refreshFulfilled st originalRequest accessToken).1.failedQueue = [] :=
  ⟨rfl, rfl⟩

/-- After a refresh that failed the flag is down and the queue is empty. -/
theorem refreshRejected_idle (st : ClientState) (originalRequest : Config)
    (refreshError : AxiosError) :
    (refreshRejected st originalRequest refreshError).1.isRefreshing = false
    ∧ (refreshRejected st originalRequest refreshError).1.failedQueue = [] :=
  ⟨rfl, rfl⟩

/-- An expiry failure that finds the client idle and no refresh token stored:
the request is rejected, the tokens are removed, and the flag stays up (the
handler returns before its `try`, so `finally` does not run). -/
theorem responseError_no_refresh_token (storage : Storage) (error : AxiosError)
    (hrt : truthy storage.refreshToken = false) (he : isExpiry error) :
    responseError (idle storage) error =
      ({ isRefreshing := true, failedQueue := [],
         storage := { accessToken := none, refreshToken := none }, awaiting := [] },
        [Effect.rejected { error.config with _retry := true } error]) := by
  obtain ⟨h1, h2, h3⟩ := he
  simp [responseError, idle, processQueue, h1, h2, h3, hrt]

/-- With no refresh token stored, the first expiry failure leaves the flag up, and
every later expiry failure is queued: none starts a refresh, none is settled,
whatever is stored by then. -/
theorem isRefreshing_stays_up (storage later_storage : Storage) (error : AxiosError)
    (later : List AxiosError)
    (hrt : truthy storage.refreshToken = false) (he : isExpiry error)
    (hl : ∀ x ∈ later, isExpiry x) :
    run { (responseError (idle storage) error).1 with storage := later_storage }
        (later.map Event.failure) =
      ({ isRefreshing := true, failedQueue := later.map (·.config),
         storage := later_storage, awaiting := [] }, []) := by
  rw [responseError_no_refresh_token storage error hrt he]
  have h := run_queued later
    { isRefreshing := true, failedQueue := [], storage := later_storage, awaiting := [] }
    rfl hl
  simpa using h

/-- C23 (the refresh flag), evaluated on the code. With an access token and no
refresh token stored, the expiry failure of `/cart` finds the client idle, sets
`isRefreshing`, and is rejected by the branch that returns before the `try`:
the handling has finished and `isRefreshing` is still true. A later expiry
failure of `/orders` (also after a new login has stored both tokens) starts no
refresh: it is put on `failedQueue`, where nothing settles it. -/
theorem isRefreshing_stuck_without_refresh_token :
    run (idle exNoRefresh) [Event.failure (expired exCart)] =
      ({ isRefreshing := true, failedQueue := [],
         storage := { accessToken := none, refreshToken := none }, awaiting := [] },
        [Effect.rejected { exCart with _retry := true } (expired exCart)])
    ∧ run (idle exNoRefresh) [Event.failure (expired exCart), Event.failure (expired exOrders)] =
      ({ isRefreshing := true, failedQueue := [exOrders],
         storage := { accessToken := none, refreshToken := none }, awaiting := [] },
        [Effect.rejected { exCart with _retry := true } (expired exCart)])
    ∧ run { (run (idle exNoRefresh) [Event.failure (expired exCart)]).1 with
            storage := exStorage }
        [Event.failure (expired exOrders)] =
      ({ isRefreshing := true, failedQueue := [exOrders], storage := exStorage,
         awaiting := [] }, []) := by
  decide

/-! ## Client and server together: the middleware never triggers a refresh -/

/-- Every response of `authenticateToken` has status 401 or 403 and the body
`{ message }`. -/
theorem authenticateToken_body (users : List UserRow) (getUser : String → GetUser)
    (selectFails : Bool) (authHeader : Option String) (response : Response)
    (h : authenticateToken users getUser selectFails authHeader = .respond response) :
    (response.status = 401 ∨ response.status = 403) ∧ ∃ m, response.body = Body.message m := by
  unfold authenticateToken at h
  simp only [] at h
  repeat' split at h
  all_goals first
    | (cases h; exact ⟨Or.inl rfl, _, rfl⟩)
    | (cases h; exact ⟨Or.inr rfl, _, rfl⟩)
    | cases h

/-- C24 (middleware responses never start a refresh). Every response the
middleware `authenticateToken` sends has status 401 or 403 and a body
`{ message }` with no field `code`; when such a response reaches the response
interceptor, in whatever state the client is, the interceptor rejects with the
original error and leaves the state as it was: no refresh call is issued and
no request is handed to `api` again. -/
theorem authenticateToken_never_refreshes (users : List UserRow) (getUser : String → GetUser)
    (selectFails : Bool) (authHeader : Option String) (response : Response)
    (h : authenticateToken users getUser selectFails authHeader = .respond response)
    (st : ClientState) (config : Config) (relayed : Option String) :
    (response.status = 401 ∨ response.status = 403)
    ∧ (∃ m, response.body = Body.message m)
    ∧ bodyCode relayed response.body ≠ some "TOKEN_EXPIRED"
    ∧ responseError st (axiosError relayed config response)
        = (st, [Effect.rejected config (axiosError relayed config response)])
    ∧ refreshCalls (responseError st (axiosError relayed config response)).2 = 0
    ∧ ∀ c, Effect.api c ∉ (responseError st (axiosError relayed config response)).2 := by
  obtain ⟨hs, m, hm⟩ := authenticateToken_body users getUser selectFails authHeader response h
  have hc : bodyCode relayed response.body = none := by rw [hm]; rfl
  have hp : responseError st (axiosError relayed config response)
      = (st, [Effect.rejected config (axiosError relayed config response)]) :=
    responseError_passthrough st (axiosError relayed config response)
      (fun hx => by simp [axiosError, hc] at hx)
  refine ⟨hs, ⟨m, hm⟩, by simp [hc], hp, ?_, ?_⟩
  · rw [hp]; rfl
  · intro c hmem
    rw [hp] at hmem
    simp at hmem

/-- The answer `401 { message: "Invalid token" }` to `GET /cart`, received while a
refresh is in progress: rejected, nothing else happens. -/
theorem authenticateToken_never_refreshes_witness :
    authenticateToken [] (fun _ => GetUser.error) false (some "Bearer abc")
      = Handled.respond ⟨401, Body.message "Invalid token"⟩
    ∧ responseError exRefreshing (axiosError none exCart ⟨401, Body.message "Invalid token"⟩)
        = (exRefreshing,
            [Effect.rejected exCart (axiosError none exCart ⟨401, Body.message "Invalid token"⟩)]) :=
  ⟨by decide,
   (authenticateToken_never_refreshes [] (fun _ => GetUser.error) false (some "Bearer abc")
      ⟨401, Body.message "Invalid token"⟩ (by decide) exRefreshing exCart none).2.2.2.1⟩


/-! ## Server: figures of a product's reviews, theorems -/

theorem mathRound_eq_floor (x : ℚ) : mathRound x = ⌊x + 1 / 2⌋ := by
  unfold mathRound
  have h1 := Int.floor_le x
  have h2 := Int.lt_floor_add_one x
  split_ifs with h
  · symm
    rw [Int.floor_eq_iff]
    constructor <;> linarith
  · symm
    rw [Int.floor_eq_iff]
    push_cast
    constructor <;> linarith

theorem foldl_rating_eq_sum (avgData : List Int) (acc : Int) :
    avgData.foldl (fun sum rating => sum + rating) acc = acc + avgData.sum := by
  induction avgData generalizing acc with
  | nil => simp
  | cons r rs ih => simp [List.foldl_cons, ih, add_assoc]

theorem reviewFigures_average (avgData : List Int) (h : avgData ≠ []) :
    (reviewFigures avgData).averageRating
      = ((⌊10 * ((avgData.sum : ℚ) / (avgData.length : ℚ)) + 1 / 2⌋ : ℤ) : ℚ) / 10 := by
  have hl : avgData.length > 0 := List.length_pos.mpr h
  simp only [reviewFigures, hl, if_true, mathRound_eq_floor, foldl_rating_eq_sum, zero_add]
  rw [mul_comm]

theorem sum_bounds (avgData : List Int) (hr : ∀ r ∈ avgData, 1 ≤ r ∧ r ≤ 5) :
    (avgData.length : Int) ≤ avgData.sum ∧ avgData.sum ≤ 5 * (avgData.length : Int) := by
  induction avgData with
  | nil => simp
  | cons r rs ih =>
    have h1 := hr r (List.mem_cons_self _ _)
    have h2 := ih (fun x hx => hr x (List.mem_cons_of_mem _ hx))
    simp only [List.length_cons, List.sum_cons, Nat.cast_add, Nat.cast_one]
    constructor <;> linarith [h1.1, h1.2, h2.1, h2.2]

/-- C22, as the claim states its last part: the empty list has all its ratings
in 1..5 (it has none), and the average reported for it is 0, outside 1..5. -/
theorem reviewFigures_empty_average :
    (∀ r ∈ ([] : List Int), 1 ≤ r ∧ r ≤ 5)
    ∧ (reviewFigures []).averageRating = 0
    ∧ ¬ (1 ≤ (reviewFigures []).averageRating ∧ (reviewFigures []).averageRating ≤ 5) := by
  have h0 : (reviewFigures []).averageRating = 0 := by
    simp [reviewFigures, mathRound]
  refine ⟨by simp, h0, ?_⟩
  rw [h0]
  norm_num

/-- C22 (average rating), amended. For every list of integer ratings the handler
reports `totalReviews` equal to the length of the list, and `averageRating`
equal to 0 when the list is empty and otherwise to the arithmetic mean rounded
to one decimal place, `floor(10 * mean + 1/2) / 10`; when the list is not empty
and all its ratings lie in 1..5, the reported average lies in 1..5. -/
theorem reviewFigures_spec (avgData : List Int) :
    (reviewFigures avgData).totalReviews = avgData.length
    ∧ (avgData = [] → (reviewFigures avgData).averageRating = 0)
    ∧ (avgData ≠ [] → (reviewFigures avgData).averageRating
        = ((⌊10 * ((avgData.sum : ℚ) / (avgData.length : ℚ)) + 1 / 2⌋ : ℤ) : ℚ) / 10)
    ∧ (avgData ≠ [] → (∀ r ∈ avgData, 1 ≤ r ∧ r ≤ 5) →
        1 ≤ (reviewFigures avgData).averageRating
        ∧ (reviewFigures avgData).averageRating ≤ 5) := by
  refine ⟨rfl, ?_, reviewFigures_average avgData, ?_⟩
  · intro h
    subst h
    simp [reviewFigures, mathRound]
  · intro h hr
    rw [reviewFigures_average avgData h]
    have hl : (0 : ℚ) < (avgData.length : ℚ) := by
      exact_mod_cast List.length_pos.mpr h
    obtain ⟨hlo, hhi⟩ := sum_bounds avgData hr
    have hlo' : (avgData.length : ℚ) ≤ (avgData.sum : ℚ) := by exact_mod_cast hlo
    have hhi' : (avgData.sum : ℚ) ≤ 5 * (avgData.length : ℚ) := by exact_mod_cast hhi
    have hm1 : (1 : ℚ) ≤ (avgData.sum : ℚ) / (avgData.length : ℚ) := by
      rw [le_div_iff₀ hl]; linarith
    have hm5 : (avgData.sum : ℚ) / (avgData.length : ℚ) ≤ 5 := by
      rw [div_le_iff₀ hl]; linarith
    have h10 : (10 : ℤ) ≤ ⌊10 * ((avgData.sum : ℚ) / (avgData.length : ℚ)) + 1 / 2⌋ := by
      rw [Int.le_floor]; simp only [Int.cast_ofNat]; linarith
    have h50 : ⌊10 * ((avgData.sum : ℚ) / (avgData.length : ℚ)) + 1 / 2⌋ ≤ (50 : ℤ) := by
      have : ⌊10 * ((avgData.sum : ℚ) / (avgData.length : ℚ)) + 1 / 2⌋ < (51 : ℤ) := by
        rw [Int.floor_lt]; simp only [Int.cast_ofNat]; linarith
      omega
    have h10' : (10 : ℚ) ≤ ((⌊10 * ((avgData.sum : ℚ) / (avgData.length : ℚ)) + 1 / 2⌋ : ℤ) : ℚ) := by
      exact_mod_cast h10
    have h50' : ((⌊10 * ((avgData.sum : ℚ) / (avgData.length : ℚ)) + 1 / 2⌋ : ℤ) : ℚ) ≤ 50 := by
      exact_mod_cast h50
    constructor
    · rw [le_div_iff₀ (by norm_num)]; linarith
    · rw [div_le_iff₀ (by norm_num)]; linarith

/-- The ratings 4, 5, 5: three reviews, and an average within 1..5. -/
theorem reviewFigures_spec_witness :
    ([4, 5, 5] : List Int) ≠ []
    ∧ (∀ r ∈ ([4, 5, 5] : List Int), 1 ≤ r ∧ r ≤ 5)
    ∧ 1 ≤ (reviewFigures [4, 5, 5]).averageRating
    ∧ (reviewFigures [4, 5, 5]).averageRating ≤ 5 :=
  ⟨by decide, by decide,
   (reviewFigures_spec [4, 5, 5]).2.2.2 (by decide) (by decide)⟩


/-! ## Server: pagination, theorems -/

theorem digitChar_isDigit (k : Nat) (h : k < 10) :
    (Nat.digitChar k).isDigit = true ∧ (Nat.digitChar k).toNat - 48 = k := by
  interval_cases k <;> decide

theorem toDigitsCore_append (fuel n : Nat) (ds : List Char) :
    Nat.toDigitsCore 10 fuel n ds = Nat.toDigitsCore 10 fuel n [] ++ ds := by
  induction fuel generalizing n ds with
  | zero => simp [Nat.toDigitsCore]
  | succ fuel ih =>
    simp only [Nat.toDigitsCore]
    split_ifs
    · simp
    · rw [ih (n / 10) (Nat.digitChar (n % 10) :: ds), ih (n / 10) [Nat.digitChar (n % 10)]]
      simp

theorem digitsValue_append (xs ys : List Char) (acc : Nat) :
    digitsValue (xs ++ ys) acc = (digitsValue xs acc).bind (digitsValue ys) := by
  induction xs generalizing acc with
  | nil => simp [digitsValue]
  | cons c cs ih =>
    simp only [List.cons_append, digitsValue]
    split_ifs
    · exact ih _
    · rfl

theorem digitsValue_acc (xs : List Char) (acc v : Nat) (h : digitsValue xs 0 = some v) :
    digitsValue xs acc = some (acc * 10 ^ xs.length + v) := by
  induction xs using List.reverseRecOn generalizing v with
  | nil =>
    simp only [digitsValue, Option.some.injEq] at h
    simp [digitsValue, ← h]
  | append_singleton cs c ih =>
    rw [digitsValue_append] at h ⊢
    cases hv : digitsValue cs 0 with
    | none => rw [hv] at h; cases h
    | some w =>
      rw [hv] at h
      rw [ih w hv]
      simp only [Option.some_bind, digitsValue] at h ⊢
      split_ifs at h ⊢ with hc
      simp only [Option.some.injEq] at h ⊢
      rw [List.length_append, List.length_singleton, pow_succ, ← h]
      ring

theorem digitsValue_toDigitsCore (fuel n : Nat) (h : n < fuel) :
    digitsValue (Nat.toDigitsCore 10 fuel n []) 0 = some n := by
  induction fuel generalizing n with
  | zero => omega
  | succ fuel ih =>
    have hd := digitChar_isDigit (n % 10) (Nat.mod_lt _ (by norm_num))
    simp only [Nat.toDigitsCore]
    split_ifs with h0
    · simp only [digitsValue, hd.1, if_true, hd.2, zero_mul, zero_add]
      congr 1
      omega
    · rw [toDigitsCore_append, digitsValue_append, ih (n / 10) (by omega)]
      simp only [Option.some_bind, digitsValue, hd.1, if_true, hd.2]
      congr 1
      omega

/-- Reading the decimal numeral of `n` gives `n` back. -/
theorem digitsValue_repr (n : Nat) : digitsValue (Nat.repr n).data 0 = some n := by
  simp only [Nat.repr, Nat.toDigits, List.asString]
  exact digitsValue_toDigitsCore (n + 1) n (Nat.lt_succ_self n)

theorem stringToNumber_digits (s : String) (v : Nat) (h : digitsValue s.data 0 = some v) :
    stringToNumber s = some (v : Int) := by
  unfold stringToNumber
  split
  · rename_i h0
    rw [h0] at h
    simp only [digitsValue, Option.some.injEq] at h
    simp [← h]
  · rename_i c cs h0
    rw [h0] at h
    have hc : ('-' : Char).isDigit = false := by decide
    simp [digitsValue, hc] at h
  · rename_i c cs h0
    rw [h0] at h
    have hc : ('+' : Char).isDigit = false := by decide
    simp [digitsValue, hc] at h
  · simp [h]

/-- `ToNumber` reads the decimal numeral of `n` as `n`. -/
theorem stringToNumber_repr (n : Nat) : stringToNumber (Nat.repr n) = some (n : Int) :=
  stringToNumber_digits _ n (digitsValue_repr n)

/-- The decimal numeral of `a` followed by that of `b` reads as
`a * 10 ^ (digits of b) + b`. -/
theorem stringToNumber_concat (a b : Nat) :
    stringToNumber (Nat.repr a ++ Nat.repr b)
      = some ((a * 10 ^ (Nat.repr b).length + b : Nat) : Int) := by
  apply stringToNumber_digits
  rw [String.data_append, digitsValue_append, digitsValue_repr a, Option.some_bind]
  exact digitsValue_acc _ a b (digitsValue_repr b)

theorem repr_length_pos (n : Nat) (h : 1 ≤ n) : 1 ≤ (Nat.repr n).length := by
  have hv := digitsValue_repr n
  rcases hd : (Nat.repr n).data with _ | ⟨c, cs⟩
  · rw [hd] at hv
    simp only [digitsValue, Option.some.injEq] at hv
    omega
  · simp [String.length, hd]

/-- With numbers for `page` and `limit` (no query string: the defaults) the
range is `(page - 1) * limit` to `page * limit - 1`. -/
theorem pageRange_numbers (p L : Int) :
    pageRange (.number p) (.number L) = (.number ((p - 1) * L), .number (p * L - 1)) := by
  simp only [pageRange, JSValue.sub, JSValue.mul, JSValue.add, JSValue.toNumber]
  congr 2
  ring

/-- With `page` supplied and `limit` left to its default the range is the one
claimed as well. -/
theorem pageRange_default_limit (p : Nat) (L : Int) :
    pageRange (.string (Nat.repr p)) (.number L)
      = (.number (((p : Int) - 1) * L), .number ((p : Int) * L - 1)) := by
  simp only [pageRange, JSValue.sub, JSValue.mul, JSValue.add, JSValue.toNumber,
    stringToNumber_repr]
  congr 2
  ring

/-- With both parameters supplied as decimal numerals, the offset is
`(p - 1) * L` and the end of the range is the numeral of the offset followed by
the numeral of `L`, less one. -/
theorem pageRange_strings (p L : Nat) (hp : 1 ≤ p) :
    pageRange (.string (Nat.repr p)) (.string (Nat.repr L))
      = (.number (((p - 1) * L : Nat) : Int),
         .number ((((p - 1) * L * 10 ^ (Nat.repr L).length + L : Nat) : Int) - 1)) := by
  have ho : ((p : Int) - 1) * (L : Int) = Int.ofNat ((p - 1) * L) := by
    simp only [Int.ofNat_eq_coe]
    push_cast [Nat.cast_sub hp]
    ring
  simp only [pageRange, JSValue.sub, JSValue.mul, JSValue.toNumber, stringToNumber_repr, ho]
  simp only [JSValue.add, JSValue.toStr, numberToString, JSValue.toNumber,
    stringToNumber_concat, Int.ofNat_eq_coe]

/-- On page 1 the range is the one claimed: rows 0 to `L - 1`. -/
theorem pageRange_first_page (L : Nat) :
    pageRange (.string "1") (.string (Nat.repr L)) = (.number 0, .number ((L : Int) - 1)) := by
  have h := pageRange_strings 1 L le_rfl
  have h1 : Nat.repr 1 = "1" := by decide
  rw [h1] at h
  rw [h]
  simp

/-- From page 2 on, with both parameters supplied, the range ends beyond row
`p * L - 1`: the window holds more than `L` rows. -/
theorem pageRange_too_wide (p L : Nat) (hp : 2 ≤ p) (hL : 1 ≤ L) :
    ∃ e : Int, (pageRange (.string (Nat.repr p)) (.string (Nat.repr L))).2 = .number e
      ∧ (p : Int) * (L : Int) - 1 < e := by
  refine ⟨_, by rw [pageRange_strings p L (by omega)], ?_⟩
  have hlen := repr_length_pos L hL
  have h10 : 10 ≤ 10 ^ (Nat.repr L).length := by
    calc 10 = 10 ^ 1 := by norm_num
      _ ≤ 10 ^ (Nat.repr L).length := Nat.pow_le_pow_right (by norm_num) hlen
  have hk : 1 ≤ p - 1 := by omega
  have hkL : 1 ≤ (p - 1) * L := Nat.mul_pos hk hL
  have hmul : (p - 1) * L * 10 ≤ (p - 1) * L * 10 ^ (Nat.repr L).length :=
    Nat.mul_le_mul_left _ h10
  have hpl : p * L = (p - 1) * L + L := by
    have : p = (p - 1) + 1 := by omega
    conv_lhs => rw [this]
    ring
  have : p * L < (p - 1) * L * 10 ^ (Nat.repr L).length + L := by omega
  have hc : ((p * L : Nat) : Int) < (((p - 1) * L * 10 ^ (Nat.repr L).length + L : Nat) : Int) := by
    exact_mod_cast this
  push_cast at hc ⊢
  linarith

/-- C21 (pagination window), evaluated on the code. For `?page=2&limit=12` the
handler of `GET /products` computes the offset 12 and then `12 + "12" - 1`,
where `+` concatenates: it requests the rows 12 to 1211, a window of 1200 rows
and not the rows 12 to 23. The other listings do the same with `?page=2` and
their own limit. With no query string, or on page 1, the window is the one
claimed. -/
theorem pageRange_concatenates_limit :
    productsRange (some "2") (some "12") = (.number 12, .number 1211)
    ∧ ordersRange (some "2") (some "10") = (.number 10, .number 1009)
    ∧ reviewsRange (some "2") (some "10") = (.number 10, .number 1009)
    ∧ adminOrdersRange (some "2") (some "20") = (.number 20, .number 2019)
    ∧ adminUsersRange (some "2") (some "20") = (.number 20, .number 2019)
    ∧ productsRange (some "1") (some "12") = (.number 0, .number 11)
    ∧ productsRange none none = (.number 0, .number 11) := by
  decide

end EShop
